import Mathlib

/-!
# PSE: a shallow embedding of the stochastic-variable engine

The definitions below follow `include/pse.h` and `src/pse.c`.

Modelling conventions.

* A C `double` is kept as its bit pattern (`pse_double`); the engine only copies
  doubles, every arithmetic step on them is done by the numeric library, which
  is a parameter (`ranlib`).
* The union `pse_content` is a sum over the representations of its members.
  `pse_time` is a typedef of `double`, so `ctime` / `ctime_a` are the members
  `cdouble` / `cdouble_a` under another name.
* Pointers held in the two slot arrays are `pse_ptr`: `NULL`, `live` (points to
  an allocated object) or `freed` (the object was released by `free` while the
  pointer itself was not overwritten).
* `variables` is a reserved word of Lean, so the field `variables` of
  `pse_agent_stub` is `variables_`.
* Behaviour the C standard leaves undefined is a `pse_fault`; loops that
  redraw until a condition holds take fuel.
-/

namespace PSE

/-! ## Constants of `pse.h` -/

def PSE_MAX_VARIABLES : Nat := 2000
def PSE_VARNAME_SIZE : Nat := 50
def PSE_MAX_STRLEN : Nat := 1000
def PSE_MAX_DIST_PARAMS : Nat := 5
def PSE_TRUE : Nat := 1
def PSE_FALSE : Nat := 0
def PSE_HEADS : Int := 1
def PSE_TAILS : Int := 0

/-- Width of `unsigned int` counters. -/
def UINT_MOD : Nat := 2 ^ 32

/-! ## Enumerations -/

inductive pse_storage_type where
  | PSE_VAR_INT
  | PSE_VAR_DOUBLE
  | PSE_VAR_STRING
  | PSE_VAR_TIME
deriving DecidableEq

inductive pse_array_type where
  | PSE_SCALAR
  | PSE_ARRAY
deriving DecidableEq

inductive pse_model_type where
  | PSE_VAR_STOCHASTIC
  | PSE_VAR_DETERMINISTIC
deriving DecidableEq

inductive pse_distribution_type where
  | PSE_DIST_UNIFORM_INT_SELF
  | PSE_DIST_UNIFORM_INT_BOUNDED
  | PSE_DIST_BERNOULLI
  | PSE_DIST_BINOMIAL
  | PSE_DIST_BINOMIAL_SELF
  | PSE_DIST_NEG_BINOMIAL
  | PSE_DIST_NEG_BINOMIAL_SELF
  | PSE_DIST_POISSON
  | PSE_DIST_POISSON_SELF
  | PSE_DIST_UNIFORM_DOUBLE_SELF
  | PSE_DIST_UNIFORM_DOUBLE_BOUNDED
  | PSE_DIST_NORMAL
  | PSE_DIST_NORMAL_SELF
  | PSE_DIST_EXPONENTIAL
  | PSE_DIST_EXPONENTIAL_SELF
  | PSE_DIST_GAMMA
  | PSE_DIST_GAMMA_SELF
  | PSE_DIST_CHISQ
  | PSE_DIST_CHISQ_SELF
  | PSE_DIST_F
  | PSE_DIST_BETA
  | PSE_DIST_FOKKER_PLANCK
  | PSE_DIST_CUSTOM
  | PSE_DIST_NONE
deriving DecidableEq

inductive pse_locality_type where
  | PSE_AGENT
  | PSE_WORLD
deriving DecidableEq

inductive pse_state where
  | CREATED
  | INITIALIZED
  | STARTED
  | FINALIZED
deriving DecidableEq

inductive pse_error where
  | PSE_ERROR_OK
  | PSE_ERROR_ALREADY_INITIALIZED
  | PSE_ERROR_ALREADY_FINALIZED
  | PSE_ERROR_ALREADY_STARTED
  | PSE_ERROR_NOT_INITIALIZED
  | PSE_ERROR_NOT_STARTED
  | PSE_ERROR_TOO_MANY_VARIABLES
  | PSE_ERROR_VARIABLE_ALREADY_REGISTERED
  | PSE_ERROR_VARIABLE_UNKNOWN
  | PSE_ERROR_DEPENDENCY_ALREADY_EXISTS
  | PSE_ERROR_DEPENDENCY_UNKNOWN
  | PSE_ERROR_DEPENDENCY_NOT_WORLD
  | PSE_ERROR_TYPE_UNKNOWN
  | PSE_ERROR_TYPE_MISMATCH
  | PSE_ERROR_ARRAY_OUTOFBOUNDS
  | PSE_ERROR_VARIABLE_IS_IMMUTABLE
deriving DecidableEq

open pse_storage_type pse_array_type pse_model_type pse_distribution_type
open pse_locality_type pse_state pse_error

/-- The integer value of an error code, as the enum of `pse.h` assigns it. -/
def pse_error.toInt : pse_error → Int
  | PSE_ERROR_OK => 0
  | PSE_ERROR_ALREADY_INITIALIZED => -1
  | PSE_ERROR_ALREADY_FINALIZED => -3
  | PSE_ERROR_ALREADY_STARTED => -4
  | PSE_ERROR_NOT_INITIALIZED => -5
  | PSE_ERROR_NOT_STARTED => -6
  | PSE_ERROR_TOO_MANY_VARIABLES => -7
  | PSE_ERROR_VARIABLE_ALREADY_REGISTERED => -9
  | PSE_ERROR_VARIABLE_UNKNOWN => -11
  | PSE_ERROR_DEPENDENCY_ALREADY_EXISTS => -13
  | PSE_ERROR_DEPENDENCY_UNKNOWN => -15
  | PSE_ERROR_DEPENDENCY_NOT_WORLD => -16
  | PSE_ERROR_TYPE_UNKNOWN => -17
  | PSE_ERROR_TYPE_MISMATCH => -19
  | PSE_ERROR_ARRAY_OUTOFBOUNDS => -21
  | PSE_ERROR_VARIABLE_IS_IMMUTABLE => -23

/-- Position of a lifecycle state in the declaration order of `pse_state`. -/
def pse_state.toNat : pse_state → Nat
  | CREATED => 0
  | INITIALIZED => 1
  | STARTED => 2
  | FINALIZED => 3

/-- Ways in which a call leaves the behaviour defined by the C standard, or
fails to return within the fuel given to a redraw loop. -/
inductive pse_fault where
  | out_of_bounds
  | null_pointer
  | dangling
  | wrong_member
  | no_fuel
deriving DecidableEq

/-! ## Values -/

/-- A C `double`, kept as its bit pattern. -/
structure pse_double where
  bits : Nat
deriving DecidableEq

/-- The array `double [PSE_MAX_DIST_PARAMS]`. -/
structure pse_params where
  p0 : pse_double
  p1 : pse_double
  p2 : pse_double
  p3 : pse_double
  p4 : pse_double
deriving DecidableEq

/-- A C string: the bytes of a buffer; the string it denotes ends before the
first NUL byte, or with the list. -/
abbrev c_string := List Nat

/-- The bytes of a buffer up to its terminator. -/
def c_str (s : c_string) : c_string := s.takeWhile (fun b => b != 0)

def strlen (s : c_string) : Nat := (c_str s).length

/-- The union `pse_content`, by representation. -/
inductive pse_content where
  | cint (v : Int)
  | cdouble (v : pse_double)
  | cstring (s : c_string)
  | cint_a (a : List Int)
  | cdouble_a (a : List pse_double)
  | cstring_a (a : List c_string)
deriving DecidableEq

/-- Member `ctime`: `pse_time` is `double`. -/
abbrev pse_content.ctime (v : pse_double) : pse_content := pse_content.cdouble v

/-- Member `ctime_a`: an array of `pse_time`, that is of `double`. -/
abbrev pse_content.ctime_a (a : List pse_double) : pse_content := pse_content.cdouble_a a

structure pse_variable where
  storage : pse_storage_type
  model : pse_model_type
  locality : pse_locality_type
  point_distribution : pse_distribution_type
  point_parameters : pse_params
  has_dependencies : Nat
  read_and_alter : Nat
  name : c_string
  content : pse_content
  array : pse_array_type
  size : Nat
  array_distribution : pse_distribution_type
  array_parameters : pse_params
deriving DecidableEq

/-- A dependency record. `conditionals` holds the `count` entries that were
copied in; `priors` is the address of the prior function, if one was given. -/
structure pse_dependency where
  count : Nat
  conditionals : List Int
  priors : Option Nat
deriving DecidableEq

/-- A pointer stored in a slot array. -/
inductive pse_ptr (α : Type) where
  | NULL
  | live (x : α)
  | freed
deriving DecidableEq

/-- An array of `PSE_MAX_VARIABLES` pointers. -/
structure pse_table (α : Type) where
  cells : List (pse_ptr α)
  size_eq : cells.length = PSE_MAX_VARIABLES

instance pse_table.instDecidableEq {α : Type} [DecidableEq α] : DecidableEq (pse_table α) :=
  fun a b => decidable_of_iff (a.cells = b.cells) (by
    cases a; cases b; simp)

/-- Reading `t[i]` for a C `int` index; an index outside the array is a fault. -/
def pse_table.get {α : Type} (t : pse_table α) (i : Int) : Except pse_fault (pse_ptr α) :=
  if 0 ≤ i then
    match t.cells[i.toNat]? with
    | some p => .ok p
    | none => .error pse_fault.out_of_bounds
  else .error pse_fault.out_of_bounds

/-- The assignment `t[i] = p` (used after a successful read of `t[i]`). -/
def pse_table.put {α : Type} (t : pse_table α) (i : Int) (p : pse_ptr α) : pse_table α :=
  ⟨t.cells.set i.toNat p, by simp [t.size_eq]⟩

/-- The loop `for (i = 0; i < PSE_MAX_VARIABLES; i++) t[i] = NULL`. -/
def pse_table.clear {α : Type} (t : pse_table α) : pse_table α :=
  ⟨t.cells.map (fun _ => pse_ptr.NULL), by simp [t.size_eq]⟩

/-- Whether a slot holds a pointer to an object that was already freed. -/
def pse_ptr.is_freed {α : Type} : pse_ptr α → Bool
  | pse_ptr.freed => true
  | _ => false

/-- A slot after `if (p != NULL) free (p);` when the slot itself is not
overwritten: a live pointer is left dangling. -/
def pse_ptr.release {α : Type} : pse_ptr α → pse_ptr α
  | pse_ptr.live _ => pse_ptr.freed
  | p => p

/-- The frees of `pse_finalize` over one slot array; freeing an object a second
time is a fault. -/
def pse_table.release {α : Type} (t : pse_table α) : Except pse_fault (pse_table α) :=
  if t.cells.any pse_ptr.is_freed then .error pse_fault.dangling
  else .ok ⟨t.cells.map pse_ptr.release, by simp [t.size_eq]⟩

structure pse_agent_stub where
  state : pse_state
  var_count : Nat
  var_limit : Nat
  variables_ : pse_table pse_variable
  dependencies : pse_table pse_dependency
deriving DecidableEq

/-! ## The numeric library -/

/-- The numeric capability the engine links against: the generators of ranlib
and rnglib over a generator state `G`, and the conversions and the comparison
that C applies to `double` values. None of it is part of the repository. -/
structure ranlib (G : Type) where
  /-- The call that sets up the generators of rnglib. -/
  rnglib_init : G → G
  set_seed : Int → Int → G → G
  ignuin : Int → Int → G → Int × G
  ignbin : Int → pse_double → G → Int × G
  ignnbn : Int → pse_double → G → Int × G
  ignpoi : pse_double → G → Int × G
  genunf : pse_double → pse_double → G → pse_double × G
  gennor : pse_double → pse_double → G → pse_double × G
  genexp : pse_double → G → pse_double × G
  gengam : pse_double → pse_double → G → pse_double × G
  genchi : pse_double → G → pse_double × G
  genf : pse_double → pse_double → G → pse_double × G
  genbet : pse_double → pse_double → G → pse_double × G
  /-- Conversion of an integer to `double`. -/
  of_int : Int → pse_double
  /-- The value of `round (x)` converted to `int`. -/
  round_int : pse_double → Int
  /-- The cast `(unsigned int) x`. -/
  to_uint : pse_double → Nat
  /-- The cast `(char) x`, as the byte stored. -/
  to_char : pse_double → Nat
  /-- The comparison `x > y`. -/
  gt : pse_double → pse_double → Bool
  /-- Whether plain `char` is a signed type on the target. -/
  char_signed : Bool

/-- The indeterminate values that storage returned by `malloc` reads as. -/
structure pse_uninit where
  int_at : Nat → Int
  double_at : Nat → pse_double
  string_at : Nat → c_string

/-! ## Private helpers of `pse.c` -/

/-- ABI sizes used by `pse_sizeof`. -/
def SIZEOF_INT : Nat := 4
def SIZEOF_DOUBLE : Nat := 8
/-- Size of the union `pse_content` (a `double` or a pointer). -/
def SIZEOF_CONTENT : Nat := 8

/-- Conversion of a mathematical integer to a 32-bit `int`. -/
def to_int32 (n : Int) : Int := (n + 2 ^ 31) % 2 ^ 32 - 2 ^ 31

def pse_sizeof (var : pse_variable) : Int :=
  match var.array, var.storage with
  | PSE_SCALAR, PSE_VAR_INT => SIZEOF_INT
  | PSE_SCALAR, PSE_VAR_DOUBLE => SIZEOF_DOUBLE
  | PSE_SCALAR, PSE_VAR_STRING => PSE_MAX_STRLEN
  | PSE_SCALAR, PSE_VAR_TIME => SIZEOF_DOUBLE
  | PSE_ARRAY, PSE_VAR_INT => to_int32 (SIZEOF_INT * var.size)
  | PSE_ARRAY, PSE_VAR_DOUBLE => to_int32 (SIZEOF_DOUBLE * var.size)
  | PSE_ARRAY, PSE_VAR_STRING => to_int32 (PSE_MAX_STRLEN * var.size)
  | PSE_ARRAY, PSE_VAR_TIME => to_int32 (SIZEOF_DOUBLE * var.size)

def pse_is_world_var (var : pse_variable) : Nat :=
  if var.locality = PSE_WORLD then PSE_TRUE else PSE_FALSE

def pse_sample_int_distribution {G : Type} (R : ranlib G) (value : Int) (pars : pse_params)
    (distribution : pse_distribution_type) (g : G) : Int × G :=
  match distribution with
  | PSE_DIST_UNIFORM_INT_SELF => R.ignuin 0 value g
  | PSE_DIST_UNIFORM_INT_BOUNDED => R.ignuin (R.round_int pars.p0) (R.round_int pars.p1) g
  | PSE_DIST_BERNOULLI =>
    let r := R.genunf (R.of_int 0) (R.of_int 1) g
    (if R.gt r.1 pars.p0 then PSE_HEADS else PSE_TAILS, r.2)
  | PSE_DIST_BINOMIAL => R.ignbin (R.round_int pars.p0) pars.p1 g
  | PSE_DIST_BINOMIAL_SELF => R.ignbin value pars.p0 g
  | PSE_DIST_NEG_BINOMIAL => R.ignnbn (R.round_int pars.p1) pars.p0 g
  | PSE_DIST_NEG_BINOMIAL_SELF => R.ignnbn value pars.p0 g
  | PSE_DIST_POISSON => R.ignpoi pars.p0 g
  | PSE_DIST_POISSON_SELF => R.ignpoi (R.of_int value) g
  | PSE_DIST_NONE => (value, g)
  | _ => (0, g)

def pse_sample_double_distribution {G : Type} (R : ranlib G) (value : pse_double)
    (pars : pse_params) (distribution : pse_distribution_type) (g : G) : pse_double × G :=
  match distribution with
  | PSE_DIST_UNIFORM_DOUBLE_SELF => R.genunf (R.of_int 0) value g
  | PSE_DIST_UNIFORM_DOUBLE_BOUNDED => R.genunf pars.p0 pars.p1 g
  | PSE_DIST_NORMAL => R.gennor pars.p0 pars.p1 g
  | PSE_DIST_NORMAL_SELF => R.gennor value pars.p0 g
  | PSE_DIST_EXPONENTIAL => R.genexp pars.p0 g
  | PSE_DIST_EXPONENTIAL_SELF => R.genexp value g
  | PSE_DIST_GAMMA => R.gengam pars.p0 pars.p1 g
  | PSE_DIST_GAMMA_SELF => R.gengam value pars.p1 g
  | PSE_DIST_F => R.genf pars.p0 pars.p1 g
  | PSE_DIST_BETA => R.genbet pars.p0 pars.p1 g
  | PSE_DIST_CHISQ => R.genchi pars.p0 g
  | PSE_DIST_CHISQ_SELF => R.genchi value g
  | PSE_DIST_NONE => (value, g)
  | PSE_DIST_FOKKER_PLANCK => (value, g)
  | PSE_DIST_CUSTOM => (value, g)
  | _ => (R.of_int 0, g)

def pse_is_int_distribution (distribution : pse_distribution_type) : Nat :=
  match distribution with
  | PSE_DIST_UNIFORM_INT_SELF => PSE_TRUE
  | PSE_DIST_UNIFORM_INT_BOUNDED => PSE_TRUE
  | PSE_DIST_BERNOULLI => PSE_TRUE
  | PSE_DIST_BINOMIAL => PSE_TRUE
  | PSE_DIST_BINOMIAL_SELF => PSE_TRUE
  | PSE_DIST_NEG_BINOMIAL => PSE_TRUE
  | PSE_DIST_NEG_BINOMIAL_SELF => PSE_TRUE
  | PSE_DIST_POISSON => PSE_TRUE
  | PSE_DIST_POISSON_SELF => PSE_TRUE
  | _ => PSE_FALSE

def pse_is_self_distribution (distribution : pse_distribution_type) : Nat :=
  match distribution with
  | PSE_DIST_UNIFORM_INT_SELF => PSE_TRUE
  | PSE_DIST_BINOMIAL_SELF => PSE_TRUE
  | PSE_DIST_NEG_BINOMIAL_SELF => PSE_TRUE
  | PSE_DIST_POISSON_SELF => PSE_TRUE
  | PSE_DIST_UNIFORM_DOUBLE_SELF => PSE_TRUE
  | PSE_DIST_NORMAL_SELF => PSE_TRUE
  | PSE_DIST_EXPONENTIAL_SELF => PSE_TRUE
  | PSE_DIST_GAMMA_SELF => PSE_TRUE
  | PSE_DIST_CHISQ_SELF => PSE_TRUE
  | _ => PSE_FALSE

/-! ## Strings and characters -/

/-- The call `strcpy (dst, src)` into a buffer of `cap` bytes: the new content of
`dst` up to its terminator. Copying a string that does not fit is a fault. -/
def strcpy (cap : Nat) (src : c_string) : Except pse_fault c_string :=
  if strlen src < cap then .ok (c_str src) else .error pse_fault.out_of_bounds

/-- The value of a stored byte read as a plain `char`. -/
def char_val (is_signed : Bool) (b : Nat) : Int :=
  if is_signed && decide (128 ≤ b % 256) then (b % 256 : Nat) - 256 else (b % 256 : Nat)

/-- The byte stored by the cast `(char) n` of an `int`. -/
def char_of_int (n : Int) : Nat := (n % 256).toNat

/-- The value of an `int` converted to `unsigned int`. -/
def uint_of_int (n : Int) : Nat := (n % (UINT_MOD : Int)).toNat

/-- The local `char_median = (char) 127`, as a byte. -/
def char_median : Nat := 127

/-- The local `char_max = (char) 255`, as a byte. -/
def char_max : Nat := 255

/-- The test `c > char_max` on two plain `char` values. -/
def char_above_max (is_signed : Bool) (c : Nat) : Bool :=
  decide (char_val is_signed c > char_val is_signed char_max)

/-- A loop `do { x = draw (); } while (again (x));` over the generator state. -/
def redraw {G α : Type} (fuel : Nat) (draw : G → α × G) (again : α → Bool) (g : G) :
    Except pse_fault (α × G) :=
  match fuel with
  | 0 => .error pse_fault.no_fuel
  | n + 1 =>
    let r := draw g
    if again r.1 then redraw n draw again r.2 else .ok r

/-- First half of the string branches of `pse_randomize`: choose the position to
alter in a string of length `str_len`; returns the array parameters of the
output record, the position and the generator state. -/
def pse_randomize_location {G : Type} (R : ranlib G) (fuel : Nat) (ptr_out var : pse_variable)
    (str_len : Nat) (g : G) : Except pse_fault (pse_params × Nat × G) :=
  if pse_is_int_distribution var.array_distribution = PSE_TRUE then
    if pse_is_self_distribution var.array_distribution = PSE_TRUE then
      match redraw fuel (fun g1 =>
          let r := pse_sample_int_distribution R (str_len / 2 : Nat) ptr_out.array_parameters
            var.array_distribution g1
          (uint_of_int r.1, r.2)) (fun loc => decide (loc ≥ str_len)) g with
      | .ok r => .ok (ptr_out.array_parameters, r.1, r.2)
      | .error e => .error e
    else
      let ap : pse_params := { ptr_out.array_parameters with p0 := R.of_int (str_len / 2 : Nat) }
      match redraw fuel (fun g1 =>
          let r := pse_sample_int_distribution R (str_len / 2 : Nat) ap var.array_distribution g1
          (uint_of_int r.1, r.2)) (fun loc => decide (loc ≥ str_len)) g with
      | .ok r => .ok (ap, r.1, r.2)
      | .error e => .error e
  else
    if pse_is_self_distribution var.array_distribution = PSE_TRUE then
      match redraw fuel (fun g1 =>
          let r := pse_sample_double_distribution R (R.of_int (str_len / 2 : Nat))
            ptr_out.array_parameters var.array_distribution g1
          (R.to_uint r.1, r.2)) (fun loc => decide (loc ≥ str_len)) g with
      | .ok r => .ok (ptr_out.array_parameters, r.1, r.2)
      | .error e => .error e
    else
      let ap : pse_params := { ptr_out.array_parameters with p0 := R.of_int (str_len / 2 : Nat) }
      match redraw fuel (fun g1 =>
          let r := pse_sample_int_distribution R (str_len / 2 : Nat) ap var.array_distribution g1
          (uint_of_int r.1, r.2)) (fun loc => decide (loc ≥ str_len)) g with
      | .ok r => .ok (ap, r.1, r.2)
      | .error e => .error e

/-- Second half of the scalar string branch of `pse_randomize`: redraw the byte
at the chosen position; `ap` are the array parameters of the output record so
far. Returns the array parameters, the byte left at the position and the
generator state. -/
def pse_randomize_char {G : Type} (R : ranlib G) (fuel : Nat) (ptr_out var : pse_variable)
    (ap : pse_params) (str_len : Nat) (g : G) : Except pse_fault (pse_params × Nat × G) :=
  if pse_is_int_distribution var.point_distribution = PSE_TRUE then
    if pse_is_self_distribution var.point_distribution = PSE_TRUE then
      match redraw fuel (fun g1 =>
          let r := pse_sample_int_distribution R (char_val R.char_signed char_median)
            ptr_out.point_parameters var.point_distribution g1
          (char_of_int r.1, r.2)) (char_above_max R.char_signed) g with
      | .ok r => .ok (ap, r.1, r.2)
      | .error e => .error e
    else
      let ap1 : pse_params := { ap with p0 := R.of_int (str_len / 2 : Nat) }
      match redraw fuel (fun g1 =>
          let r := pse_sample_int_distribution R (char_val R.char_signed char_median)
            ptr_out.point_parameters var.point_distribution g1
          (char_of_int r.1, r.2)) (char_above_max R.char_signed) g with
      | .ok r => .ok (ap1, r.1, r.2)
      | .error e => .error e
  else
    if pse_is_self_distribution var.array_distribution = PSE_TRUE then
      match redraw fuel (fun g1 =>
          let r := pse_sample_double_distribution R
            (R.of_int (char_val R.char_signed char_median))
            ptr_out.point_parameters var.point_distribution g1
          (R.to_char r.1, r.2)) (char_above_max R.char_signed) g with
      | .ok r => .ok (ap, r.1, r.2)
      | .error e => .error e
    else
      let ap1 : pse_params := { ap with p0 := R.of_int (char_val R.char_signed char_median) }
      match redraw fuel (fun g1 =>
          let r := pse_sample_double_distribution R
            (R.of_int (char_val R.char_signed char_median))
            ptr_out.point_parameters var.point_distribution g1
          (R.to_char r.1, r.2)) (char_above_max R.char_signed) g with
      | .ok r => .ok (ap1, r.1, r.2)
      | .error e => .error e

/-- Second half of the array string branch of `pse_randomize`. Two of its four
loops access the array of strings through the member `cstring` of the union
(the write in the second loop, the loop test in the third): they are faults. -/
def pse_randomize_char_a {G : Type} (R : ranlib G) (fuel : Nat) (ptr_out var : pse_variable)
    (ap : pse_params) (str_len : Nat) (g : G) : Except pse_fault (pse_params × Nat × G) :=
  if pse_is_int_distribution var.point_distribution = PSE_TRUE then
    if pse_is_self_distribution var.point_distribution = PSE_TRUE then
      match redraw fuel (fun g1 =>
          let r := pse_sample_int_distribution R (char_val R.char_signed char_median)
            ptr_out.point_parameters var.point_distribution g1
          (char_of_int r.1, r.2)) (char_above_max R.char_signed) g with
      | .ok r => .ok (ap, r.1, r.2)
      | .error e => .error e
    else .error pse_fault.wrong_member
  else
    if pse_is_self_distribution var.array_distribution = PSE_TRUE then
      .error pse_fault.wrong_member
    else
      let ap1 : pse_params := { ap with p0 := R.of_int (str_len / 2 : Nat) }
      match redraw fuel (fun g1 =>
          let r := pse_sample_double_distribution R
            (R.of_int (char_val R.char_signed char_median)) ap1 var.array_distribution g1
          (R.to_char r.1, r.2)) (char_above_max R.char_signed) g with
      | .ok r => .ok (ap1, r.1, r.2)
      | .error e => .error e

/-! ## Randomization -/

/-- The function `pse_randomize (ptr_out, var, location)`: the new value of the
record `ptr_out` points to and the generator state. When both pointers are the
same record (as in `pse_prepare`) the arguments are equal. -/
def pse_randomize {G : Type} (R : ranlib G) (fuel : Nat) (ptr_out var : pse_variable)
    (location : Nat) (g : G) : Except pse_fault (pse_variable × G) :=
  match var.array, var.storage with
  | PSE_SCALAR, PSE_VAR_INT =>
    match var.content with
    | pse_content.cint v =>
      let r := pse_sample_int_distribution R v var.point_parameters var.point_distribution g
      .ok ({ ptr_out with content := pse_content.cint r.1 }, r.2)
    | _ => .error pse_fault.wrong_member
  | PSE_SCALAR, PSE_VAR_DOUBLE =>
    match var.content with
    | pse_content.cdouble v =>
      let r := pse_sample_double_distribution R v var.point_parameters var.point_distribution g
      .ok ({ ptr_out with content := pse_content.cdouble r.1 }, r.2)
    | _ => .error pse_fault.wrong_member
  | PSE_SCALAR, PSE_VAR_TIME =>
    match var.content with
    | pse_content.cdouble v =>
      let r := pse_sample_double_distribution R v var.point_parameters var.point_distribution g
      .ok ({ ptr_out with content := pse_content.ctime r.1 }, r.2)
    | _ => .error pse_fault.wrong_member
  | PSE_SCALAR, PSE_VAR_STRING =>
    match var.content, ptr_out.content with
    | pse_content.cstring src, pse_content.cstring _ =>
      match strcpy PSE_MAX_STRLEN src with
      | .error e => .error e
      | .ok s0 =>
        let str_len := strlen s0
        match pse_randomize_location R fuel ptr_out var str_len g with
        | .error e => .error e
        | .ok (ap, array_location, g1) =>
          match pse_randomize_char R fuel ptr_out var ap str_len g1 with
          | .error e => .error e
          | .ok (ap1, c, g2) =>
            .ok ({ ptr_out with
                    content := pse_content.cstring (s0.set array_location c),
                    array_parameters := ap1 }, g2)
    | _, _ => .error pse_fault.wrong_member
  | PSE_ARRAY, PSE_VAR_INT =>
    match var.content, ptr_out.content with
    | pse_content.cint_a xs, pse_content.cint_a ys =>
      match xs[location]? with
      | none => .error pse_fault.out_of_bounds
      | some v =>
        if location < ys.length then
          let r := pse_sample_int_distribution R v var.point_parameters var.point_distribution g
          .ok ({ ptr_out with content := pse_content.cint_a (ys.set location r.1) }, r.2)
        else .error pse_fault.out_of_bounds
    | _, _ => .error pse_fault.wrong_member
  | PSE_ARRAY, PSE_VAR_DOUBLE =>
    match var.content, ptr_out.content with
    | pse_content.cdouble_a xs, pse_content.cdouble_a ys =>
      match xs[location]? with
      | none => .error pse_fault.out_of_bounds
      | some v =>
        if location < ys.length then
          let r := pse_sample_double_distribution R v var.point_parameters
            var.point_distribution g
          .ok ({ ptr_out with content := pse_content.cdouble_a (ys.set location r.1) }, r.2)
        else .error pse_fault.out_of_bounds
    | _, _ => .error pse_fault.wrong_member
  | PSE_ARRAY, PSE_VAR_TIME =>
    match var.content, ptr_out.content with
    | pse_content.cdouble_a xs, pse_content.cdouble_a ys =>
      match xs[location]? with
      | none => .error pse_fault.out_of_bounds
      | some v =>
        if location < ys.length then
          let r := pse_sample_double_distribution R v var.point_parameters
            var.point_distribution g
          .ok ({ ptr_out with content := pse_content.ctime_a (ys.set location r.1) }, r.2)
        else .error pse_fault.out_of_bounds
    | _, _ => .error pse_fault.wrong_member
  | PSE_ARRAY, PSE_VAR_STRING =>
    match var.content, ptr_out.content with
    | pse_content.cstring_a xs, pse_content.cstring_a ys =>
      match xs[location]? with
      | none => .error pse_fault.out_of_bounds
      | some src =>
        if location < ys.length then
          match strcpy PSE_MAX_STRLEN src with
          | .error e => .error e
          | .ok s0 =>
            let str_len := strlen s0
            match pse_randomize_location R fuel ptr_out var str_len g with
            | .error e => .error e
            | .ok (ap, array_location, g1) =>
              match pse_randomize_char_a R fuel ptr_out var ap str_len g1 with
              | .error e => .error e
              | .ok (ap1, c, g2) =>
                .ok ({ ptr_out with
                        content := pse_content.cstring_a
                          (ys.set location (s0.set array_location c)),
                        array_parameters := ap1 }, g2)
        else .error pse_fault.out_of_bounds
    | _, _ => .error pse_fault.wrong_member

/-- The function `pse_randomize_and_alter (ptr_out, var, location, error)`: the
new values of the two records, the generator state, and the code written to
`*error` if one is written. -/
def pse_randomize_and_alter {G : Type} (R : ranlib G) (fuel : Nat) (ptr_out var : pse_variable)
    (location : Nat) (g : G) :
    Except pse_fault (pse_variable × pse_variable × G × Option pse_error) :=
  if var.read_and_alter = PSE_FALSE then
    .ok (ptr_out, var, g, some PSE_ERROR_VARIABLE_IS_IMMUTABLE)
  else
    match pse_randomize R fuel ptr_out var location g with
    | .error e => .error e
    | .ok (out1, g1) =>
      .ok (out1,
           { var with content := out1.content,
                      point_parameters := out1.point_parameters,
                      array_parameters := out1.array_parameters },
           g1, none)

/-! ## Lifecycle -/

def pse_init (pse : pse_agent_stub) : pse_agent_stub × pse_error :=
  if pse.state = INITIALIZED then (pse, PSE_ERROR_ALREADY_INITIALIZED)
  else if pse.state = STARTED then (pse, PSE_ERROR_ALREADY_STARTED)
  else if pse.state = FINALIZED then (pse, PSE_ERROR_ALREADY_FINALIZED)
  else
    ({ state := INITIALIZED,
       var_count := 0,
       var_limit := 0,
       variables_ := pse.variables_.clear,
       dependencies := pse.dependencies.clear }, PSE_ERROR_OK)

def pse_start {G : Type} (R : ranlib G) (pse : pse_agent_stub) (g : G) (seed_1 seed_2 : Int) :
    pse_agent_stub × G × pse_error :=
  if pse.state = CREATED then (pse, g, PSE_ERROR_NOT_INITIALIZED)
  else if pse.state = STARTED then (pse, g, PSE_ERROR_ALREADY_STARTED)
  else if pse.state = FINALIZED then (pse, g, PSE_ERROR_ALREADY_FINALIZED)
  else
    ({ pse with state := STARTED }, R.set_seed seed_1 seed_2 (R.rnglib_init g), PSE_ERROR_OK)

/-- The function `pse_finalize`. Its loop frees every non-NULL slot and leaves the
pointers in place; the `default` branch of its `switch` cannot be reached
with a storage kind of the enumeration. -/
def pse_finalize (pse : pse_agent_stub) : Except pse_fault (pse_agent_stub × pse_error) :=
  if pse.state = FINALIZED then .ok (pse, PSE_ERROR_ALREADY_FINALIZED)
  else if pse.state = INITIALIZED then .ok (pse, PSE_ERROR_NOT_STARTED)
  else
    match pse.variables_.release, pse.dependencies.release with
    | .ok vs, .ok ds =>
      .ok ({ state := FINALIZED,
             var_count := 0,
             var_limit := 0,
             variables_ := vs,
             dependencies := ds }, PSE_ERROR_OK)
    | .error e, _ => .error e
    | _, .error e => .error e

/-! ## Registration -/

/-- The storage `pse_register` and `pse_template` allocate for the content of a
variable; what it holds is indeterminate. -/
def pse_alloc (u : pse_uninit) (storage : pse_storage_type) (array : pse_array_type)
    (size : Nat) : pse_content :=
  match array, storage with
  | PSE_ARRAY, PSE_VAR_INT => pse_content.cint_a ((List.range size).map u.int_at)
  | PSE_ARRAY, PSE_VAR_DOUBLE => pse_content.cdouble_a ((List.range size).map u.double_at)
  | PSE_ARRAY, PSE_VAR_TIME => pse_content.ctime_a ((List.range size).map u.double_at)
  | PSE_ARRAY, PSE_VAR_STRING =>
    pse_content.cstring_a ((List.range size).map (fun i => (u.string_at i).take PSE_MAX_STRLEN))
  | PSE_SCALAR, PSE_VAR_STRING => pse_content.cstring ((u.string_at 0).take PSE_MAX_STRLEN)
  | PSE_SCALAR, PSE_VAR_INT => pse_content.cint (u.int_at 0)
  | PSE_SCALAR, PSE_VAR_DOUBLE => pse_content.cdouble (u.double_at 0)
  | PSE_SCALAR, PSE_VAR_TIME => pse_content.ctime (u.double_at 0)

/-- The function `pse_register`; `u` is what the allocated storage reads as.
The result is the returned `pse_varid`: the id, or the value of an error code.
The local `next_available_varid` is `var_limit` converted to `int`: the same
number up to `2 ^ 31`, and beyond `PSE_MAX_VARIABLES` any value indexes outside
the array. -/
def pse_register (pse : pse_agent_stub) (u : pse_uninit) (storage : pse_storage_type)
    (model : pse_model_type) (locality : pse_locality_type)
    (point_distribution : pse_distribution_type) (point_parameters : pse_params)
    (array : pse_array_type) (size : Nat) (read_and_alter : Nat)
    (array_distribution : pse_distribution_type) (array_parameters : pse_params)
    (name : c_string) : Except pse_fault (pse_agent_stub × Int) :=
  if pse.state = CREATED then .ok (pse, PSE_ERROR_NOT_INITIALIZED.toInt)
  else if pse.state = STARTED then .ok (pse, PSE_ERROR_ALREADY_STARTED.toInt)
  else if pse.state = FINALIZED then .ok (pse, PSE_ERROR_ALREADY_FINALIZED.toInt)
  else if pse.var_count = PSE_MAX_VARIABLES then .ok (pse, PSE_ERROR_TOO_MANY_VARIABLES.toInt)
  else
    match pse.variables_.get pse.var_limit with
    | .error e => .error e
    | .ok (pse_ptr.live _) => .ok (pse, PSE_ERROR_VARIABLE_ALREADY_REGISTERED.toInt)
    | .ok pse_ptr.freed => .ok (pse, PSE_ERROR_VARIABLE_ALREADY_REGISTERED.toInt)
    | .ok pse_ptr.NULL =>
      match strcpy PSE_VARNAME_SIZE name with
      | .error e => .error e
      | .ok nm =>
        let p_to_var : pse_variable :=
          { storage := storage,
            model := model,
            locality := locality,
            point_distribution := point_distribution,
            point_parameters := point_parameters,
            has_dependencies := PSE_FALSE,
            read_and_alter := read_and_alter,
            name := nm,
            content := pse_alloc u storage array size,
            array := array,
            size := size,
            array_distribution :=
              if array = PSE_ARRAY then array_distribution else PSE_DIST_NONE,
            array_parameters := array_parameters }
        .ok ({ pse with
                variables_ := pse.variables_.put pse.var_limit (pse_ptr.live p_to_var),
                var_count := (pse.var_count + 1) % UINT_MOD,
                var_limit := (pse.var_limit + 1) % UINT_MOD }, pse.var_limit)

/-- The function `pse_deregister`. For a Scalar variable only the storage kind
String has a `case`; the other kinds take `default` and return. -/
def pse_deregister (pse : pse_agent_stub) (varid : Int) :
    Except pse_fault (pse_agent_stub × pse_error) :=
  if pse.state = CREATED then .ok (pse, PSE_ERROR_NOT_INITIALIZED)
  else if pse.state = STARTED then .ok (pse, PSE_ERROR_ALREADY_STARTED)
  else if pse.state = FINALIZED then .ok (pse, PSE_ERROR_ALREADY_FINALIZED)
  else if pse.var_count = 0 then .ok (pse, PSE_ERROR_TOO_MANY_VARIABLES)
  else
    match pse.variables_.get varid with
    | .error e => .error e
    | .ok pse_ptr.NULL => .ok (pse, PSE_ERROR_VARIABLE_UNKNOWN)
    | .ok pse_ptr.freed => .error pse_fault.dangling
    | .ok (pse_ptr.live v) =>
      if v.array = PSE_ARRAY ∨ v.storage = PSE_VAR_STRING then
        .ok ({ pse with
                variables_ := pse.variables_.put varid pse_ptr.NULL,
                var_count := pse.var_count - 1 }, PSE_ERROR_OK)
      else .ok (pse, PSE_ERROR_TYPE_UNKNOWN)

/-! ## Dependencies -/

def pse_add_dependencies (pse : pse_agent_stub) (varid : Int) (conditionals : List Int)
    (count : Nat) : Except pse_fault (pse_agent_stub × pse_error) :=
  if pse.state = CREATED then .ok (pse, PSE_ERROR_NOT_INITIALIZED)
  else if pse.state = STARTED then .ok (pse, PSE_ERROR_ALREADY_STARTED)
  else if pse.state = FINALIZED then .ok (pse, PSE_ERROR_ALREADY_FINALIZED)
  else
    match pse.variables_.get varid with
    | .error e => .error e
    | .ok pse_ptr.NULL => .ok (pse, PSE_ERROR_VARIABLE_UNKNOWN)
    | .ok pv =>
      match pse.dependencies.get varid with
      | .error e => .error e
      | .ok (pse_ptr.live _) => .ok (pse, PSE_ERROR_DEPENDENCY_ALREADY_EXISTS)
      | .ok pse_ptr.freed => .ok (pse, PSE_ERROR_DEPENDENCY_ALREADY_EXISTS)
      | .ok pse_ptr.NULL =>
        match pv with
        | pse_ptr.live v =>
          if pse_is_world_var v = PSE_FALSE then .ok (pse, PSE_ERROR_DEPENDENCY_NOT_WORLD)
          else if count ≤ PSE_MAX_VARIABLES ∧ count ≤ conditionals.length then
            let dep : pse_dependency :=
              { count := count, conditionals := conditionals.take count, priors := none }
            .ok ({ pse with
                    dependencies := pse.dependencies.put varid (pse_ptr.live dep),
                    variables_ := pse.variables_.put varid
                      (pse_ptr.live { v with has_dependencies := PSE_TRUE }) },
                 PSE_ERROR_OK)
          else .error pse_fault.out_of_bounds
        | _ => .error pse_fault.dangling

/-- The function `pse_rm_dependencies`: the record is freed, the slot keeps the
pointer. -/
def pse_rm_dependencies (pse : pse_agent_stub) (varid : Int) :
    Except pse_fault (pse_agent_stub × pse_error) :=
  if pse.state = CREATED then .ok (pse, PSE_ERROR_NOT_INITIALIZED)
  else if pse.state = STARTED then .ok (pse, PSE_ERROR_ALREADY_STARTED)
  else if pse.state = FINALIZED then .ok (pse, PSE_ERROR_ALREADY_FINALIZED)
  else
    match pse.variables_.get varid with
    | .error e => .error e
    | .ok pse_ptr.NULL => .ok (pse, PSE_ERROR_VARIABLE_UNKNOWN)
    | .ok pv =>
      match pse.dependencies.get varid with
      | .error e => .error e
      | .ok pse_ptr.NULL => .ok (pse, PSE_ERROR_DEPENDENCY_UNKNOWN)
      | .ok pse_ptr.freed => .error pse_fault.dangling
      | .ok (pse_ptr.live _) =>
        match pv with
        | pse_ptr.live v =>
          .ok ({ pse with
                  dependencies := pse.dependencies.put varid pse_ptr.freed,
                  variables_ := pse.variables_.put varid
                    (pse_ptr.live { v with has_dependencies := PSE_FALSE }) },
               PSE_ERROR_OK)
        | _ => .error pse_fault.dangling

def pse_supply_prior (pse : pse_agent_stub) (varid : Int) (priors : Option Nat) :
    Except pse_fault (pse_agent_stub × pse_error) :=
  if pse.state = CREATED then .ok (pse, PSE_ERROR_NOT_INITIALIZED)
  else if pse.state = STARTED then .ok (pse, PSE_ERROR_ALREADY_STARTED)
  else if pse.state = FINALIZED then .ok (pse, PSE_ERROR_ALREADY_FINALIZED)
  else
    match pse.variables_.get varid with
    | .error e => .error e
    | .ok pse_ptr.NULL => .ok (pse, PSE_ERROR_VARIABLE_UNKNOWN)
    | .ok _ =>
      match pse.dependencies.get varid with
      | .error e => .error e
      | .ok pse_ptr.NULL => .ok (pse, PSE_ERROR_DEPENDENCY_UNKNOWN)
      | .ok pse_ptr.freed => .error pse_fault.dangling
      | .ok (pse_ptr.live d) =>
        .ok ({ pse with
                dependencies := pse.dependencies.put varid (pse_ptr.live { d with priors := priors }) },
             PSE_ERROR_OK)

/-! ## Templates, prepare, observe, readers -/

def pse_template (u : pse_uninit) (var : pse_variable) : pse_variable :=
  { storage := var.storage,
    model := var.model,
    locality := var.locality,
    point_distribution := var.point_distribution,
    point_parameters := var.point_parameters,
    has_dependencies := var.has_dependencies,
    read_and_alter := var.read_and_alter,
    name := c_str var.name,
    content := pse_alloc u var.storage var.array var.size,
    array := var.array,
    size := var.size,
    array_distribution := var.array_distribution,
    array_parameters := var.array_parameters }

/-- The writes of `pse_prepare` into a Scalar variable: the new content. The
argument `content` is read through the member that belongs to the storage
kind. -/
def pse_prepare_scalar (p_to_var : pse_variable) (content : pse_content) :
    Except pse_fault pse_content :=
  match p_to_var.storage, content with
  | PSE_VAR_INT, pse_content.cint v => .ok (pse_content.cint v)
  | PSE_VAR_DOUBLE, pse_content.cdouble v => .ok (pse_content.cdouble v)
  | PSE_VAR_TIME, pse_content.cdouble v => .ok (pse_content.ctime v)
  | PSE_VAR_STRING, pse_content.cstring s =>
    match p_to_var.content with
    | pse_content.cstring _ =>
      match strcpy PSE_MAX_STRLEN s with
      | .ok t => .ok (pse_content.cstring t)
      | .error e => .error e
    | _ => .error pse_fault.wrong_member
  | _, _ => .error pse_fault.wrong_member

/-- The writes of `pse_prepare` into element `location` of an Array variable:
the new content. -/
def pse_prepare_array (p_to_var : pse_variable) (content : pse_content) (location : Nat) :
    Except pse_fault pse_content :=
  match p_to_var.storage, content, p_to_var.content with
  | PSE_VAR_INT, pse_content.cint v, pse_content.cint_a xs =>
    if location < xs.length then .ok (pse_content.cint_a (xs.set location v))
    else .error pse_fault.out_of_bounds
  | PSE_VAR_DOUBLE, pse_content.cdouble v, pse_content.cdouble_a xs =>
    if location < xs.length then .ok (pse_content.cdouble_a (xs.set location v))
    else .error pse_fault.out_of_bounds
  | PSE_VAR_TIME, pse_content.cdouble v, pse_content.cdouble_a xs =>
    if location < xs.length then .ok (pse_content.cdouble_a (xs.set location v))
    else .error pse_fault.out_of_bounds
  | PSE_VAR_STRING, pse_content.cstring s, pse_content.cstring_a xs =>
    if location < xs.length then
      match strcpy PSE_MAX_STRLEN s with
      | .ok t => .ok (pse_content.cstring_a (xs.set location t))
      | .error e => .error e
    else .error pse_fault.out_of_bounds
  | _, _, _ => .error pse_fault.wrong_member

/-- The function `pse_prepare`; the last component is the code left in `*error`. -/
def pse_prepare {G : Type} (R : ranlib G) (fuel : Nat) (pse : pse_agent_stub) (g : G)
    (varid : Int) (content : pse_content) (location : Nat) (storage : pse_storage_type) :
    Except pse_fault (pse_agent_stub × G × pse_error) :=
  if pse.state = CREATED then .ok (pse, g, PSE_ERROR_NOT_INITIALIZED)
  else if pse.state = INITIALIZED then .ok (pse, g, PSE_ERROR_NOT_INITIALIZED)
  else if pse.state = FINALIZED then .ok (pse, g, PSE_ERROR_ALREADY_FINALIZED)
  else
    match pse.variables_.get varid with
    | .error e => .error e
    | .ok pse_ptr.NULL => .ok (pse, g, PSE_ERROR_VARIABLE_UNKNOWN)
    | .ok pse_ptr.freed => .error pse_fault.dangling
    | .ok (pse_ptr.live p_to_var) =>
      if p_to_var.storage ≠ storage then .ok (pse, g, PSE_ERROR_TYPE_MISMATCH)
      else if p_to_var.array = PSE_SCALAR then
        match pse_prepare_scalar p_to_var content with
        | .error e => .error e
        | .ok c =>
          .ok ({ pse with
                  variables_ := pse.variables_.put varid
                    (pse_ptr.live { p_to_var with content := c }) },
               g, PSE_ERROR_OK)
      else if location ≥ p_to_var.size then .ok (pse, g, PSE_ERROR_OK)
      else
        match pse_prepare_array p_to_var content location with
        | .error e => .error e
        | .ok c =>
          if p_to_var.model = PSE_VAR_STOCHASTIC then
            if p_to_var.has_dependencies = PSE_FALSE then
              match pse_randomize_and_alter R fuel { p_to_var with content := c }
                  { p_to_var with content := c } location g with
              | .error e => .error e
              | .ok (_, v2, g1, _) =>
                .ok ({ pse with variables_ := pse.variables_.put varid (pse_ptr.live v2) },
                     g1, PSE_ERROR_OK)
            else
              .ok ({ pse with
                      variables_ := pse.variables_.put varid
                        (pse_ptr.live { p_to_var with content := c }) },
                   g, PSE_ERROR_OK)
          else
            .ok ({ pse with
                    variables_ := pse.variables_.put varid
                      (pse_ptr.live { p_to_var with content := c }) },
                 g, PSE_ERROR_OK)

/-- What the record passed to `pse_observe` holds afterwards. The Deterministic
branch copies `csize` bytes from the address of the stored union to the
address of the record itself: the record then is `overlaid`, its leading
`csize` bytes being those of `src`, its fields beyond them those of `under`. -/
inductive pse_output where
  | record (v : pse_variable)
  | overlaid (csize : Nat) (src : pse_content) (under : pse_variable)
deriving DecidableEq

/-- The member `content` of the record a caller reads after `pse_observe`. In
`pse_variable` it lies behind four enumeration fields and the array
`point_parameters`, 56 bytes at least, so the `csize ≤ SIZEOF_CONTENT` bytes
of an overlay do not reach it. -/
def pse_output.content : pse_output → pse_content
  | pse_output.record v => v.content
  | pse_output.overlaid _ _ under => under.content

/-- The function `pse_observe`; the last component is the code left in `*error`. -/
def pse_observe {G : Type} (R : ranlib G) (fuel : Nat) (pse : pse_agent_stub) (g : G)
    (varid : Int) (location : Nat) (ptr_out : pse_variable) :
    Except pse_fault (pse_agent_stub × G × pse_output × pse_error) :=
  if pse.state = CREATED then .ok (pse, g, pse_output.record ptr_out, PSE_ERROR_NOT_INITIALIZED)
  else if pse.state = INITIALIZED then
    .ok (pse, g, pse_output.record ptr_out, PSE_ERROR_NOT_INITIALIZED)
  else if pse.state = FINALIZED then
    .ok (pse, g, pse_output.record ptr_out, PSE_ERROR_ALREADY_FINALIZED)
  else
    match pse.variables_.get varid with
    | .error e => .error e
    | .ok pse_ptr.NULL => .ok (pse, g, pse_output.record ptr_out, PSE_ERROR_VARIABLE_UNKNOWN)
    | .ok pse_ptr.freed => .error pse_fault.dangling
    | .ok (pse_ptr.live p_to_var) =>
      if p_to_var.model = PSE_VAR_DETERMINISTIC then
        if pse_sizeof p_to_var ≠ 0 then
          if 0 < pse_sizeof p_to_var ∧ pse_sizeof p_to_var ≤ SIZEOF_CONTENT then
            .ok (pse, g,
                 pse_output.overlaid (pse_sizeof p_to_var).toNat p_to_var.content ptr_out,
                 PSE_ERROR_OK)
          else .error pse_fault.out_of_bounds
        else .ok (pse, g, pse_output.record ptr_out, PSE_ERROR_TYPE_UNKNOWN)
      else
        if p_to_var.has_dependencies = PSE_FALSE then
          if p_to_var.read_and_alter = PSE_TRUE then
            match pse_randomize_and_alter R fuel ptr_out p_to_var location g with
            | .error e => .error e
            | .ok (out1, v1, g1, _) =>
              .ok ({ pse with variables_ := pse.variables_.put varid (pse_ptr.live v1) },
                   g1, pse_output.record out1, PSE_ERROR_OK)
          else
            match pse_randomize R fuel ptr_out p_to_var location g with
            | .error e => .error e
            | .ok (out1, g1) => .ok (pse, g1, pse_output.record out1, PSE_ERROR_OK)
        else .ok (pse, g, pse_output.record ptr_out, PSE_ERROR_OK)

def pse_read_int (pse : pse_agent_stub) (varid : Int) : Except pse_fault Int :=
  match pse.variables_.get varid with
  | .error e => .error e
  | .ok pse_ptr.NULL => .error pse_fault.null_pointer
  | .ok pse_ptr.freed => .error pse_fault.dangling
  | .ok (pse_ptr.live v) =>
    match v.content with
    | pse_content.cint x => .ok x
    | _ => .error pse_fault.wrong_member

def pse_read_double (pse : pse_agent_stub) (varid : Int) : Except pse_fault pse_double :=
  match pse.variables_.get varid with
  | .error e => .error e
  | .ok pse_ptr.NULL => .error pse_fault.null_pointer
  | .ok pse_ptr.freed => .error pse_fault.dangling
  | .ok (pse_ptr.live v) =>
    match v.content with
    | pse_content.cdouble x => .ok x
    | _ => .error pse_fault.wrong_member

def pse_read_string (pse : pse_agent_stub) (varid : Int) : Except pse_fault c_string :=
  match pse.variables_.get varid with
  | .error e => .error e
  | .ok pse_ptr.NULL => .error pse_fault.null_pointer
  | .ok pse_ptr.freed => .error pse_fault.dangling
  | .ok (pse_ptr.live v) =>
    match v.content with
    | pse_content.cstring x => .ok x
    | _ => .error pse_fault.wrong_member

def pse_read_time (pse : pse_agent_stub) (varid : Int) : Except pse_fault pse_double :=
  match pse.variables_.get varid with
  | .error e => .error e
  | .ok pse_ptr.NULL => .error pse_fault.null_pointer
  | .ok pse_ptr.freed => .error pse_fault.dangling
  | .ok (pse_ptr.live v) =>
    match v.content with
    | pse_content.cdouble x => .ok x
    | _ => .error pse_fault.wrong_member

/-! ## The public interface as a transition system -/

/-- One call of the public interface with its arguments. -/
inductive pse_call where
  | init
  | start (seed_1 seed_2 : Int)
  | finalize
  | register (u : pse_uninit) (storage : pse_storage_type) (model : pse_model_type)
      (locality : pse_locality_type) (point_distribution : pse_distribution_type)
      (point_parameters : pse_params) (array : pse_array_type) (size : Nat)
      (read_and_alter : Nat) (array_distribution : pse_distribution_type)
      (array_parameters : pse_params) (name : c_string)
  | deregister (varid : Int)
  | add_dependencies (varid : Int) (conditionals : List Int) (count : Nat)
  | rm_dependencies (varid : Int)
  | supply_prior (varid : Int) (priors : Option Nat)
  | prepare (varid : Int) (content : pse_content) (location : Nat) (storage : pse_storage_type)
  | observe (varid : Int) (location : Nat) (ptr_out : pse_variable)

/-- What a call hands back: the integer returned (or left in `*error`), and for
`pse_observe` the record the caller passed. -/
structure pse_reply where
  code : Int
  output : Option pse_output
deriving DecidableEq

/-- The output record a call carries before it is made. -/
def pse_call.passed : pse_call → Option pse_output
  | pse_call.observe _ _ ptr_out => some (pse_output.record ptr_out)
  | _ => none

/-- One call applied to a store and the state of the generator. -/
def pse_step {G : Type} (R : ranlib G) (fuel : Nat) (pse : pse_agent_stub) (g : G)
    (c : pse_call) : Except pse_fault (pse_agent_stub × G × pse_reply) :=
  match c with
  | pse_call.init =>
    let r := pse_init pse
    .ok (r.1, g, { code := r.2.toInt, output := none })
  | pse_call.start seed_1 seed_2 =>
    let r := pse_start R pse g seed_1 seed_2
    .ok (r.1, r.2.1, { code := r.2.2.toInt, output := none })
  | pse_call.finalize =>
    match pse_finalize pse with
    | .ok r => .ok (r.1, g, { code := r.2.toInt, output := none })
    | .error e => .error e
  | pse_call.register u storage model locality point_distribution point_parameters array size
      read_and_alter array_distribution array_parameters name =>
    match pse_register pse u storage model locality point_distribution point_parameters array
        size read_and_alter array_distribution array_parameters name with
    | .ok r => .ok (r.1, g, { code := r.2, output := none })
    | .error e => .error e
  | pse_call.deregister varid =>
    match pse_deregister pse varid with
    | .ok r => .ok (r.1, g, { code := r.2.toInt, output := none })
    | .error e => .error e
  | pse_call.add_dependencies varid conditionals count =>
    match pse_add_dependencies pse varid conditionals count with
    | .ok r => .ok (r.1, g, { code := r.2.toInt, output := none })
    | .error e => .error e
  | pse_call.rm_dependencies varid =>
    match pse_rm_dependencies pse varid with
    | .ok r => .ok (r.1, g, { code := r.2.toInt, output := none })
    | .error e => .error e
  | pse_call.supply_prior varid priors =>
    match pse_supply_prior pse varid priors with
    | .ok r => .ok (r.1, g, { code := r.2.toInt, output := none })
    | .error e => .error e
  | pse_call.prepare varid content location storage =>
    match pse_prepare R fuel pse g varid content location storage with
    | .ok r => .ok (r.1, r.2.1, { code := r.2.2.toInt, output := none })
    | .error e => .error e
  | pse_call.observe varid location ptr_out =>
    match pse_observe R fuel pse g varid location ptr_out with
    | .ok r => .ok (r.1, r.2.1, { code := r.2.2.2.toInt, output := some r.2.2.1 })
    | .error e => .error e

/-- A sequence of calls, each applied to the store the previous one left. -/
def pse_run {G : Type} (R : ranlib G) (fuel : Nat) (pse : pse_agent_stub) (g : G) :
    List pse_call → Except pse_fault (pse_agent_stub × G × List pse_reply)
  | [] => .ok (pse, g, [])
  | c :: cs =>
    match pse_step R fuel pse g c with
    | .error e => .error e
    | .ok (s1, g1, r) =>
      match pse_run R fuel s1 g1 cs with
      | .error e => .error e
      | .ok (s2, g2, rs) => .ok (s2, g2, r :: rs)

/-- The ids handed out by the successful `register` calls of a run, in call order. -/
def registered_ids : List pse_call → List pse_reply → List Int
  | c :: cs, r :: rs =>
    match c with
    | pse_call.register _ _ _ _ _ _ _ _ _ _ _ _ =>
      if 0 ≤ r.code then r.code :: registered_ids cs rs else registered_ids cs rs
    | _ => registered_ids cs rs
  | _, _ => []

/-- The stores a client can hold: a store in state Created after a successful
`init`, and whatever further calls of the interface make of it. -/
inductive Reachable {G : Type} (R : ranlib G) : pse_agent_stub → G → Prop where
  | init (pse : pse_agent_stub) (g : G) (h : pse.state = CREATED) :
      Reachable R (pse_init pse).1 g
  | step (fuel : Nat) (pse : pse_agent_stub) (g : G) (c : pse_call)
      (pse1 : pse_agent_stub) (g1 : G) (r : pse_reply)
      (h : Reachable R pse g) (hs : pse_step R fuel pse g c = .ok (pse1, g1, r)) :
      Reachable R pse1 g1

/-- The five lifecycle error codes. -/
def is_lifecycle_error (code : Int) : Prop :=
  code = PSE_ERROR_ALREADY_INITIALIZED.toInt ∨ code = PSE_ERROR_ALREADY_STARTED.toInt ∨
  code = PSE_ERROR_ALREADY_FINALIZED.toInt ∨ code = PSE_ERROR_NOT_INITIALIZED.toInt ∨
  code = PSE_ERROR_NOT_STARTED.toInt

/-- A table with every slot NULL. -/
def pse_table.null (α : Type) : pse_table α :=
  ⟨List.replicate PSE_MAX_VARIABLES pse_ptr.NULL, by simp⟩

/-- A store as static storage holds it before any call: all bytes zero. -/
def pse_zeroed : pse_agent_stub :=
  { state := CREATED,
    var_count := 0,
    var_limit := 0,
    variables_ := pse_table.null pse_variable,
    dependencies := pse_table.null pse_dependency }

/-- A numeric library for concrete runs: the generator state counts the draws,
integer draws return their first argument, real draws their first argument. -/
def ranlib_demo : ranlib Nat :=
  { rnglib_init := fun _ => 0,
    set_seed := fun s1 s2 _ => (s1 + s2).toNat,
    ignuin := fun low _ g => (low, g + 1),
    ignbin := fun n _ g => (n, g + 1),
    ignnbn := fun n _ g => (n, g + 1),
    ignpoi := fun _ g => (0, g + 1),
    genunf := fun low _ g => (low, g + 1),
    gennor := fun av _ g => (av, g + 1),
    genexp := fun av g => (av, g + 1),
    gengam := fun a _ g => (a, g + 1),
    genchi := fun df g => (df, g + 1),
    genf := fun dfn _ g => (dfn, g + 1),
    genbet := fun aa _ g => (aa, g + 1),
    of_int := fun n => ⟨n.toNat⟩,
    round_int := fun x => x.bits,
    to_uint := fun x => x.bits % UINT_MOD,
    to_char := fun x => x.bits % 256,
    gt := fun x y => decide (x.bits > y.bits),
    char_signed := true }

/-- Indeterminate storage that happens to read as zeroes. -/
def uninit_demo : pse_uninit :=
  { int_at := fun _ => 0, double_at := fun _ => ⟨0⟩, string_at := fun _ => [] }

def params_demo : pse_params := ⟨⟨0⟩, ⟨0⟩, ⟨0⟩, ⟨0⟩, ⟨0⟩⟩

/-! ## Predicates used by the statements -/

/-- The calls that neither move the lifecycle nor hand out an id change at most
one variable slot, which held a live variable; the allocation counter stays and
the live count does not grow. -/
def slot_change (pse s1 : pse_agent_stub) : Prop :=
  s1.state = pse.state ∧ s1.var_limit = pse.var_limit ∧ s1.var_count ≤ pse.var_count ∧
  (s1.variables_ = pse.variables_ ∨
    ∃ varid v p, pse.variables_.get varid = .ok (pse_ptr.live v) ∧
      s1.variables_ = pse.variables_.put varid p)

/-- The lifecycle guard shared by `pse_register`, `pse_deregister` and the three
dependency calls: the code they return outside state Initialized. -/
def guard_initialized (st : pse_state) : pse_error :=
  match st with
  | CREATED => PSE_ERROR_NOT_INITIALIZED
  | STARTED => PSE_ERROR_ALREADY_STARTED
  | _ => PSE_ERROR_ALREADY_FINALIZED

/-- While a store is Initialized or Started: the live count is at most the
allocation counter, the allocation counter is at most the capacity, and every
slot at or above the allocation counter is NULL. -/
def pse_inv (s : pse_agent_stub) : Prop :=
  (s.state = INITIALIZED ∨ s.state = STARTED) →
    s.var_count ≤ s.var_limit ∧ s.var_limit ≤ PSE_MAX_VARIABLES ∧
    ∀ i : Nat, s.var_limit ≤ i → i < PSE_MAX_VARIABLES →
      s.variables_.cells[i]? = some pse_ptr.NULL

/-- The smallest id a store can still hand out. -/
def id_floor (pse : pse_agent_stub) : Int :=
  if pse.state = INITIALIZED then (pse.var_limit : Int) else 0

/-- A run for concrete checks: a Scalar String variable is registered and
deregistered, then a Scalar Double variable is registered. -/
def calls_demo : List pse_call :=
  [ pse_call.init,
    pse_call.register uninit_demo PSE_VAR_STRING PSE_VAR_STOCHASTIC PSE_AGENT PSE_DIST_NONE
      params_demo PSE_SCALAR 1 PSE_FALSE PSE_DIST_NONE params_demo [97],
    pse_call.deregister 0,
    pse_call.register uninit_demo PSE_VAR_DOUBLE PSE_VAR_STOCHASTIC PSE_AGENT
      PSE_DIST_NORMAL_SELF params_demo PSE_SCALAR 1 PSE_TRUE PSE_DIST_NONE params_demo [98] ]

/-! ## Concrete stores for the statements -/

/-- A store that holds the single variable `v`, under id 0, and no dependency. -/
def pse_holding (st : pse_state) (v : pse_variable) : pse_agent_stub :=
  { state := st,
    var_count := 1,
    var_limit := 1,
    variables_ := (pse_table.null pse_variable).put 0 (pse_ptr.live v),
    dependencies := pse_table.null pse_dependency }

/-- The record `pse_register` fills in for a new variable. -/
def pse_registered (u : pse_uninit) (storage : pse_storage_type) (model : pse_model_type)
    (locality : pse_locality_type) (point_distribution : pse_distribution_type)
    (point_parameters : pse_params) (array : pse_array_type) (size : Nat)
    (read_and_alter : Nat) (array_distribution : pse_distribution_type)
    (array_parameters : pse_params) (name : c_string) : pse_variable :=
  { storage := storage,
    model := model,
    locality := locality,
    point_distribution := point_distribution,
    point_parameters := point_parameters,
    has_dependencies := PSE_FALSE,
    read_and_alter := read_and_alter,
    name := c_str name,
    content := pse_alloc u storage array size,
    array := array,
    size := size,
    array_distribution := if array = PSE_ARRAY then array_distribution else PSE_DIST_NONE,
    array_parameters := array_parameters }

/-- A variable for concrete checks, as `pse_register` leaves it: size 2, name
"v", all parameters zero. -/
def var_demo (storage : pse_storage_type) (model : pse_model_type)
    (locality : pse_locality_type) (point_distribution : pse_distribution_type)
    (array : pse_array_type) (read_and_alter : Nat) : pse_variable :=
  pse_registered uninit_demo storage model locality point_distribution params_demo array 2
    read_and_alter PSE_DIST_NONE params_demo [118]

/-- Indeterminate storage that reads as what an earlier use left in it. -/
def uninit_stale : pse_uninit :=
  { int_at := fun i => 7 + i, double_at := fun i => ⟨1 + i⟩, string_at := fun _ => [120] }

/-- A numeric library for concrete runs whose normal draw shows both of its
arguments: it returns the sum of their bit patterns. -/
def ranlib_spread : ranlib Nat :=
  { ranlib_demo with gennor := fun av sd g => (⟨av.bits + sd.bits⟩, g + 1) }

/-- The doubles 12.4, 50.0, 2.3, 3.14 and 0.5 (IEEE 754 binary64). -/
def double_12_4 : pse_double := ⟨0x4028CCCCCCCCCCCD⟩
def double_50_0 : pse_double := ⟨0x4049000000000000⟩
def double_2_3 : pse_double := ⟨0x4002666666666666⟩
def double_3_14 : pse_double := ⟨0x40091EB851EB851F⟩
def double_0_5 : pse_double := ⟨0x3FE0000000000000⟩

/-- The array `point_params` of `samples/simple-test/01-simple-pse.c` when the
variable "distance" is registered: 50.0 and 2.3, the rest as static storage
holds it. -/
def point_params_distance : pse_params := ⟨double_50_0, double_2_3, ⟨0⟩, ⟨0⟩, ⟨0⟩⟩

/-- The name "distance". -/
def name_distance : c_string := [100, 105, 115, 116, 97, 110, 99, 101]

/-- The calls of `samples/simple-test/01-simple-pse.c` on the variable
"distance", up to its first `pse_observe`; `u` is what the storage of the
variable reads as, `ptr_out` the record passed to `pse_observe`. -/
def calls_distance (u : pse_uninit) (ptr_out : pse_variable) : List pse_call :=
  [ pse_call.init,
    pse_call.register u PSE_VAR_DOUBLE PSE_VAR_STOCHASTIC PSE_AGENT PSE_DIST_NORMAL_SELF
      point_params_distance PSE_SCALAR 1 PSE_TRUE PSE_DIST_NONE params_demo name_distance,
    pse_call.start 103 29,
    pse_call.prepare 0 (pse_content.cdouble double_12_4) 0 PSE_VAR_DOUBLE,
    pse_call.observe 0 0 ptr_out ]

/-- The record `pse_register` fills in for "distance". -/
def var_distance (u : pse_uninit) : pse_variable :=
  pse_registered u PSE_VAR_DOUBLE PSE_VAR_STOCHASTIC PSE_AGENT PSE_DIST_NORMAL_SELF
    point_params_distance PSE_SCALAR 1 PSE_TRUE PSE_DIST_NONE params_demo name_distance

/-- An Array Double variable of size 5 for concrete checks, as `pse_register`
leaves it. -/
def var_five (model : pse_model_type) (read_and_alter : Nat) : pse_variable :=
  pse_registered uninit_demo PSE_VAR_DOUBLE model PSE_AGENT PSE_DIST_NORMAL params_demo
    PSE_ARRAY 5 read_and_alter PSE_DIST_NONE params_demo [118]

/-- A Bernoulli variable with p = 0.5, as `pse_register` leaves it. -/
def var_coin : pse_variable :=
  pse_registered uninit_demo PSE_VAR_INT PSE_VAR_STOCHASTIC PSE_AGENT PSE_DIST_BERNOULLI
    ⟨double_0_5, ⟨0⟩, ⟨0⟩, ⟨0⟩, ⟨0⟩⟩ PSE_SCALAR 1 PSE_FALSE PSE_DIST_NONE params_demo [99]

/-- A run for concrete checks: a Bernoulli variable with p = 0.5 is registered,
the store is started with the seeds 1 and 1, and the variable is observed
10000 times. -/
def calls_coin : List pse_call :=
  [ pse_call.init,
    pse_call.register uninit_demo PSE_VAR_INT PSE_VAR_STOCHASTIC PSE_AGENT PSE_DIST_BERNOULLI
      ⟨double_0_5, ⟨0⟩, ⟨0⟩, ⟨0⟩, ⟨0⟩⟩ PSE_SCALAR 1 PSE_FALSE PSE_DIST_NONE params_demo [99],
    pse_call.start 1 1 ] ++
  List.replicate 10000 (pse_call.observe 0 0 (pse_template uninit_demo var_coin))

/-- A Scalar String variable for concrete checks: it holds "hi", its point
distribution is uniform between the bounds 200 and 200. -/
def var_text : pse_variable :=
  { pse_registered uninit_demo PSE_VAR_STRING PSE_VAR_STOCHASTIC PSE_AGENT
      PSE_DIST_UNIFORM_INT_BOUNDED ⟨⟨200⟩, ⟨200⟩, ⟨0⟩, ⟨0⟩, ⟨0⟩⟩ PSE_SCALAR 1 PSE_FALSE
      PSE_DIST_NONE params_demo [115] with
    content := pse_content.cstring [104, 105] }

/-- Whether a byte is a printable ASCII character. -/
def is_printable (b : Nat) : Bool := decide (0x20 ≤ b ∧ b ≤ 0x7E)

/-! ## The error log of `pse.c` -/

/-- The bytes of a string literal of the source. -/
def c_lit (s : String) : c_string := s.toList.map Char.toNat

/-- The text the `switch` of `pse_error_log` selects for the value of its first
argument. -/
def pse_error_message (error : Int) : String :=
  if error = PSE_ERROR_OK.toInt then "Operation successful"
  else if error = PSE_ERROR_ALREADY_INITIALIZED.toInt then
    "The PSE has already been initialized"
  else if error = PSE_ERROR_ALREADY_FINALIZED.toInt then "The PSE has already been finalized"
  else if error = PSE_ERROR_ALREADY_STARTED.toInt then "The PSE has already been started"
  else if error = PSE_ERROR_NOT_INITIALIZED.toInt then "The PSE has not yet been initialized"
  else if error = PSE_ERROR_NOT_STARTED.toInt then "The PSE has not yet been started"
  else if error = PSE_ERROR_TOO_MANY_VARIABLES.toInt then
    "The PSE has too many variables registered in this agent"
  else if error = PSE_ERROR_VARIABLE_ALREADY_REGISTERED.toInt then
    "The PSE already contains this variable"
  else if error = PSE_ERROR_VARIABLE_UNKNOWN.toInt then "The PSE contains no such variable"
  else if error = PSE_ERROR_DEPENDENCY_ALREADY_EXISTS.toInt then
    "The PSE has contains this dependency"
  else if error = PSE_ERROR_DEPENDENCY_UNKNOWN.toInt then
    "The PSE has contains no such dependency"
  else if error = PSE_ERROR_DEPENDENCY_NOT_WORLD.toInt then
    "The dependency refers to an entity not in the world model"
  else if error = PSE_ERROR_TYPE_UNKNOWN.toInt then "The PSE recognizes no such type"
  else if error = PSE_ERROR_TYPE_MISMATCH.toInt then "Type mismatch for variable"
  else if error = PSE_ERROR_ARRAY_OUTOFBOUNDS.toInt then
    "Illegal out-of-bounds access of array attempted"
  else if error = PSE_ERROR_VARIABLE_IS_IMMUTABLE.toInt then
    "Illegal attempt to change immutable variable"
  else "Operation successful"

/-- The text `sprintf` produces from the format `PSE_ERROR_FMT` and its two
string arguments. -/
def PSE_ERROR_FMT (m arg : c_string) : c_string :=
  c_lit "[PSE Runtime] " ++ c_str m ++ c_lit ". Argument: " ++ c_str arg ++ c_lit ".\n"

/-- The function `pse_error_log`: the string left in `buffer`, a buffer of `cap`
bytes; `arg` is `none` for a NULL pointer. Text that does not fit the buffer
with its terminator is a fault. -/
def pse_error_log (error : Int) (cap : Nat) (arg : Option c_string) :
    Except pse_fault c_string :=
  let final_arg : c_string :=
    match arg with
    | none => c_lit "none"
    | some a => a
  if (PSE_ERROR_FMT (c_lit (pse_error_message error)) final_arg).length < cap then
    .ok (PSE_ERROR_FMT (c_lit (pse_error_message error)) final_arg)
  else .error pse_fault.out_of_bounds

/-- The failure codes of `pse_error`, in declaration order. -/
def pse_failure_codes : List pse_error :=
  [ PSE_ERROR_ALREADY_INITIALIZED, PSE_ERROR_ALREADY_FINALIZED, PSE_ERROR_ALREADY_STARTED,
    PSE_ERROR_NOT_INITIALIZED, PSE_ERROR_NOT_STARTED, PSE_ERROR_TOO_MANY_VARIABLES,
    PSE_ERROR_VARIABLE_ALREADY_REGISTERED, PSE_ERROR_VARIABLE_UNKNOWN,
    PSE_ERROR_DEPENDENCY_ALREADY_EXISTS, PSE_ERROR_DEPENDENCY_UNKNOWN,
    PSE_ERROR_DEPENDENCY_NOT_WORLD, PSE_ERROR_TYPE_UNKNOWN, PSE_ERROR_TYPE_MISMATCH,
    PSE_ERROR_ARRAY_OUTOFBOUNDS, PSE_ERROR_VARIABLE_IS_IMMUTABLE ]

/-! ## The dictionary of `psedict.c` -/

structure pse_entry where
  varname : c_string
  assigned : Int
deriving DecidableEq

/-- The structure `pse_dictionary`; `head` is the singly-linked list of entries,
the empty list for a NULL pointer. -/
structure pse_dictionary where
  length : Int
  head : List pse_entry
deriving DecidableEq

/-- The call `strcmp (a, b)` on the bytes of two strings up to their
terminators: negative, zero or positive. -/
def strcmp_bytes : List Nat → List Nat → Int
  | [], [] => 0
  | [], _ :: _ => -1
  | _ :: _, [] => 1
  | a :: as, b :: bs => if a < b then -1 else if b < a then 1 else strcmp_bytes as bs

def strcmp (a b : c_string) : Int := strcmp_bytes (c_str a) (c_str b)

def pse_dict_init (dict : pse_dictionary) : pse_dictionary × Int :=
  if dict.head ≠ [] then (dict, 0)
  else ({ length := 0, head := [] }, 1)

/-- The loop of `pse_dict_search` (its parameter `variable` is `variable_`
here, the word being reserved) from the entry `curr` points to: the body
compares the name of that entry and returns on a match; nothing in it moves
`curr`, so the next iteration is at the same entry. -/
def pse_dict_search_loop : Nat → List pse_entry → c_string → Except pse_fault Int
  | _, [], _ => .ok (-1)
  | 0, _ :: _, _ => .error pse_fault.no_fuel
  | n + 1, e :: rest, variable_ =>
    if strcmp e.varname variable_ = 0 then .ok e.assigned
    else pse_dict_search_loop n (e :: rest) variable_

def pse_dict_search (fuel : Nat) (dict : pse_dictionary) (variable_ : c_string) :
    Except pse_fault Int :=
  pse_dict_search_loop fuel dict.head variable_

/-- The `else` branch of `pse_dict_add` on a non-empty list: walk to the last
entry, link a new entry `fresh` behind it and copy the name into the entry the
walk stopped at. -/
def pse_dict_append : List pse_entry → c_string → pse_entry → List pse_entry
  | [], _, fresh => [fresh]
  | [e], nm, fresh => [{ e with varname := nm }, fresh]
  | e :: e1 :: rest, nm, fresh => e :: pse_dict_append (e1 :: rest) nm fresh

/-- The function `pse_dict_add`; `u` is what the storage of a new entry reads
as. In the `else` branch the name of the new entry is not written. -/
def pse_dict_add (fuel : Nat) (u : pse_uninit) (dict : pse_dictionary) (variable_ : c_string)
    (pseval : Int) : Except pse_fault (pse_dictionary × Int) :=
  match pse_dict_search fuel dict variable_ with
  | .error e => .error e
  | .ok found =>
    if found ≠ -1 then .ok (dict, 0)
    else
      match strcpy PSE_VARNAME_SIZE variable_ with
      | .error e => .error e
      | .ok nm =>
        match dict.head with
        | [] => .ok ({ dict with head := [{ varname := nm, assigned := pseval }] }, 1)
        | e :: rest =>
          .ok ({ dict with
                  head := pse_dict_append (e :: rest) nm
                    { varname := (u.string_at 0).take PSE_VARNAME_SIZE, assigned := pseval } },
               1)

/-- The names "a" and "b". -/
def name_a : c_string := [97]
def name_b : c_string := [98]

/-! ## Occupied slots -/

def pse_ptr.is_null {α : Type} : pse_ptr α → Bool
  | pse_ptr.NULL => true
  | _ => false

/-- The number of slots of a table that are not NULL. -/
def pse_table.occupied {α : Type} (t : pse_table α) : Nat :=
  t.cells.countP (fun p => !p.is_null)

/-- What the calls that neither move the lifecycle nor register or remove a
variable do to the variable slots: state, live count and allocation counter
stay, and either the slots stay or one slot that held a variable holds a
variable. -/
def slot_rewrite (pse s1 : pse_agent_stub) : Prop :=
  s1.state = pse.state ∧ s1.var_count = pse.var_count ∧ s1.var_limit = pse.var_limit ∧
  (s1.variables_ = pse.variables_ ∨
    ∃ varid v w, pse.variables_.get varid = .ok (pse_ptr.live v) ∧
      s1.variables_ = pse.variables_.put varid (pse_ptr.live w))

/-- While a store is Initialized or Started, the live count is the number of
occupied variable slots. -/
def pse_counted (s : pse_agent_stub) : Prop :=
  (s.state = INITIALIZED ∨ s.state = STARTED) → s.var_count = s.variables_.occupied

/-! # Theorems -/

/-! ## Lifecycle contracts -/

theorem clear_cells {α : Type} (t : pse_table α) :
    t.clear.cells = List.replicate PSE_MAX_VARIABLES pse_ptr.NULL := by
  unfold pse_table.clear
  simp only
  rw [← t.size_eq]
  exact List.map_const' _ _

/-- C1: `pse_init` returns Ok exactly on a Created store, which it leaves
Initialized with every variable and dependency slot NULL and both counters 0;
on an Initialized, Started or Finalized store it returns AlreadyInitialized,
AlreadyStarted or AlreadyFinalized and the store is unchanged. -/
theorem C1_init_contract (pse : pse_agent_stub) :
    ((pse_init pse).2 = PSE_ERROR_OK ↔ pse.state = CREATED) ∧
    (pse.state = CREATED →
      (pse_init pse).1.state = INITIALIZED ∧
      (pse_init pse).1.variables_.cells = List.replicate PSE_MAX_VARIABLES pse_ptr.NULL ∧
      (pse_init pse).1.dependencies.cells = List.replicate PSE_MAX_VARIABLES pse_ptr.NULL ∧
      (pse_init pse).1.var_count = 0 ∧
      (pse_init pse).1.var_limit = 0) ∧
    (pse.state = INITIALIZED → pse_init pse = (pse, PSE_ERROR_ALREADY_INITIALIZED)) ∧
    (pse.state = STARTED → pse_init pse = (pse, PSE_ERROR_ALREADY_STARTED)) ∧
    (pse.state = FINALIZED → pse_init pse = (pse, PSE_ERROR_ALREADY_FINALIZED)) := by
  refine ⟨?_, ?_, ?_, ?_, ?_⟩
  · cases h : pse.state <;> simp [pse_init, h]
  · intro h
    simp [pse_init, h, clear_cells]
  · intro h; simp [pse_init, h]
  · intro h; simp [pse_init, h]
  · intro h; simp [pse_init, h]

/-! ## What one call can change -/

theorem slot_change_refl (pse : pse_agent_stub) : slot_change pse pse :=
  ⟨rfl, rfl, le_refl _, Or.inl rfl⟩

theorem not_lifecycle_ok : ¬ is_lifecycle_error PSE_ERROR_OK.toInt := by
  simp [is_lifecycle_error, pse_error.toInt]

theorem state_cases_started (pse : pse_agent_stub) (h1 : ¬ pse.state = CREATED)
    (h2 : ¬ pse.state = INITIALIZED) (h3 : ¬ pse.state = FINALIZED) : pse.state = STARTED := by
  cases hs : pse.state <;> simp_all

theorem state_cases_initialized (pse : pse_agent_stub) (h1 : ¬ pse.state = CREATED)
    (h2 : ¬ pse.state = STARTED) (h3 : ¬ pse.state = FINALIZED) : pse.state = INITIALIZED := by
  cases hs : pse.state <;> simp_all

theorem pse_prepare_shape {G : Type} (R : ranlib G) (fuel : Nat) (pse : pse_agent_stub) (g : G)
    (varid : Int) (content : pse_content) (location : Nat) (storage : pse_storage_type)
    (s1 : pse_agent_stub) (g1 : G) (e : pse_error)
    (h : pse_prepare R fuel pse g varid content location storage = .ok (s1, g1, e)) :
    (pse.state ≠ STARTED ∧ s1 = pse ∧ g1 = g ∧
      e = (if pse.state = FINALIZED then PSE_ERROR_ALREADY_FINALIZED
           else PSE_ERROR_NOT_INITIALIZED)) ∨
    (pse.state = STARTED ∧ ¬ is_lifecycle_error e.toInt ∧ slot_change pse s1) := by
  unfold pse_prepare at h
  split at h
  · rename_i hst; cases h; left; simp [hst]
  split at h
  · rename_i hst; cases h; left; simp [hst]
  split at h
  · rename_i hst; cases h; left; simp [hst]
  right
  refine ⟨state_cases_started pse ‹_› ‹_› ‹_›, ?_⟩
  repeat' split at h
  all_goals first
    | (cases h; done)
    | (cases h
       exact ⟨by simp [is_lifecycle_error, pse_error.toInt], slot_change_refl _⟩)
    | (cases h
       exact ⟨by simp [is_lifecycle_error, pse_error.toInt], rfl, rfl, le_refl _,
         Or.inr ⟨_, _, _, by assumption, rfl⟩⟩)

theorem pse_observe_shape {G : Type} (R : ranlib G) (fuel : Nat) (pse : pse_agent_stub) (g : G)
    (varid : Int) (location : Nat) (ptr_out : pse_variable)
    (s1 : pse_agent_stub) (g1 : G) (out : pse_output) (e : pse_error)
    (h : pse_observe R fuel pse g varid location ptr_out = .ok (s1, g1, out, e)) :
    (pse.state ≠ STARTED ∧ s1 = pse ∧ g1 = g ∧ out = pse_output.record ptr_out ∧
      e = (if pse.state = FINALIZED then PSE_ERROR_ALREADY_FINALIZED
           else PSE_ERROR_NOT_INITIALIZED)) ∨
    (pse.state = STARTED ∧ ¬ is_lifecycle_error e.toInt ∧ slot_change pse s1) := by
  unfold pse_observe at h
  split at h
  · rename_i hst; cases h; left; simp [hst]
  split at h
  · rename_i hst; cases h; left; simp [hst]
  split at h
  · rename_i hst; cases h; left; simp [hst]
  right
  refine ⟨state_cases_started pse ‹_› ‹_› ‹_›, ?_⟩
  repeat' split at h
  all_goals first
    | (cases h; done)
    | (cases h
       exact ⟨by simp [is_lifecycle_error, pse_error.toInt], slot_change_refl _⟩)
    | (cases h
       exact ⟨by simp [is_lifecycle_error, pse_error.toInt], rfl, rfl, le_refl _,
         Or.inr ⟨_, _, _, by assumption, rfl⟩⟩)

theorem pse_deregister_shape (pse : pse_agent_stub) (varid : Int)
    (s1 : pse_agent_stub) (e : pse_error)
    (h : pse_deregister pse varid = .ok (s1, e)) :
    (pse.state ≠ INITIALIZED ∧ s1 = pse ∧ e = guard_initialized pse.state) ∨
    (pse.state = INITIALIZED ∧ ¬ is_lifecycle_error e.toInt ∧ slot_change pse s1 ∧
      s1.dependencies = pse.dependencies) := by
  unfold pse_deregister at h
  split at h
  · rename_i hst; cases h; left; simp [hst, guard_initialized]
  split at h
  · rename_i hst; cases h; left; simp [hst, guard_initialized]
  split at h
  · rename_i hst; cases h; left; simp [hst, guard_initialized]
  right
  refine ⟨state_cases_initialized pse ‹_› ‹_› ‹_›, ?_⟩
  repeat' split at h
  all_goals first
    | (cases h; done)
    | (cases h
       exact ⟨by simp [is_lifecycle_error, pse_error.toInt], slot_change_refl _, rfl⟩)
    | (cases h
       exact ⟨by simp [is_lifecycle_error, pse_error.toInt],
         ⟨rfl, rfl, Nat.sub_le _ _, Or.inr ⟨_, _, _, by assumption, rfl⟩⟩, rfl⟩)

theorem pse_add_dependencies_shape (pse : pse_agent_stub) (varid : Int)
    (conditionals : List Int) (count : Nat) (s1 : pse_agent_stub) (e : pse_error)
    (h : pse_add_dependencies pse varid conditionals count = .ok (s1, e)) :
    (pse.state ≠ INITIALIZED ∧ s1 = pse ∧ e = guard_initialized pse.state) ∨
    (pse.state = INITIALIZED ∧ ¬ is_lifecycle_error e.toInt ∧ slot_change pse s1) := by
  unfold pse_add_dependencies at h
  split at h
  · rename_i hst; cases h; left; simp [hst, guard_initialized]
  split at h
  · rename_i hst; cases h; left; simp [hst, guard_initialized]
  split at h
  · rename_i hst; cases h; left; simp [hst, guard_initialized]
  right
  refine ⟨state_cases_initialized pse ‹_› ‹_› ‹_›, ?_⟩
  repeat' split at h
  all_goals first
    | (cases h; done)
    | (cases h
       exact ⟨by simp [is_lifecycle_error, pse_error.toInt], slot_change_refl _⟩)
    | (cases h
       exact ⟨by simp [is_lifecycle_error, pse_error.toInt], rfl, rfl, le_refl _,
         Or.inr ⟨_, _, _, by assumption, rfl⟩⟩)

theorem pse_rm_dependencies_shape (pse : pse_agent_stub) (varid : Int)
    (s1 : pse_agent_stub) (e : pse_error)
    (h : pse_rm_dependencies pse varid = .ok (s1, e)) :
    (pse.state ≠ INITIALIZED ∧ s1 = pse ∧ e = guard_initialized pse.state) ∨
    (pse.state = INITIALIZED ∧ ¬ is_lifecycle_error e.toInt ∧ slot_change pse s1) := by
  unfold pse_rm_dependencies at h
  split at h
  · rename_i hst; cases h; left; simp [hst, guard_initialized]
  split at h
  · rename_i hst; cases h; left; simp [hst, guard_initialized]
  split at h
  · rename_i hst; cases h; left; simp [hst, guard_initialized]
  right
  refine ⟨state_cases_initialized pse ‹_› ‹_› ‹_›, ?_⟩
  repeat' split at h
  all_goals first
    | (cases h; done)
    | (cases h
       exact ⟨by simp [is_lifecycle_error, pse_error.toInt], slot_change_refl _⟩)
    | (cases h
       exact ⟨by simp [is_lifecycle_error, pse_error.toInt], rfl, rfl, le_refl _,
         Or.inr ⟨_, _, _, by assumption, rfl⟩⟩)

theorem pse_supply_prior_shape (pse : pse_agent_stub) (varid : Int) (priors : Option Nat)
    (s1 : pse_agent_stub) (e : pse_error)
    (h : pse_supply_prior pse varid priors = .ok (s1, e)) :
    (pse.state ≠ INITIALIZED ∧ s1 = pse ∧ e = guard_initialized pse.state) ∨
    (pse.state = INITIALIZED ∧ ¬ is_lifecycle_error e.toInt ∧ slot_change pse s1) := by
  unfold pse_supply_prior at h
  split at h
  · rename_i hst; cases h; left; simp [hst, guard_initialized]
  split at h
  · rename_i hst; cases h; left; simp [hst, guard_initialized]
  split at h
  · rename_i hst; cases h; left; simp [hst, guard_initialized]
  right
  refine ⟨state_cases_initialized pse ‹_› ‹_› ‹_›, ?_⟩
  repeat' split at h
  all_goals first
    | (cases h; done)
    | (cases h
       exact ⟨by simp [is_lifecycle_error, pse_error.toInt], slot_change_refl _⟩)

theorem get_ok {α : Type} (t : pse_table α) (i : Int) (p : pse_ptr α)
    (h : t.get i = .ok p) :
    0 ≤ i ∧ i.toNat < PSE_MAX_VARIABLES ∧ t.cells[i.toNat]? = some p := by
  unfold pse_table.get at h
  split at h
  · rename_i h0
    split at h
    · rename_i q hq
      cases h
      refine ⟨h0, ?_, hq⟩
      have := (List.getElem?_eq_some_iff.mp hq).1
      rw [t.size_eq] at this
      exact this
    · cases h
  · cases h

theorem get_of_lt {α : Type} (t : pse_table α) (i : Nat) (h : i < PSE_MAX_VARIABLES) :
    ∃ p, t.get (i : Int) = .ok p ∧ t.cells[i]? = some p := by
  have hl : i < t.cells.length := by rw [t.size_eq]; exact h
  refine ⟨t.cells[i], ?_, ?_⟩
  · unfold pse_table.get
    simp [hl]
  · simp [hl]

theorem pse_register_shape (pse : pse_agent_stub) (u : pse_uninit) (storage : pse_storage_type)
    (model : pse_model_type) (locality : pse_locality_type)
    (point_distribution : pse_distribution_type) (point_parameters : pse_params)
    (array : pse_array_type) (size : Nat) (read_and_alter : Nat)
    (array_distribution : pse_distribution_type) (array_parameters : pse_params)
    (name : c_string) (s1 : pse_agent_stub) (code : Int)
    (h : pse_register pse u storage model locality point_distribution point_parameters array
      size read_and_alter array_distribution array_parameters name = .ok (s1, code)) :
    (pse.state ≠ INITIALIZED ∧ s1 = pse ∧ code = (guard_initialized pse.state).toInt) ∨
    (pse.state = INITIALIZED ∧ s1 = pse ∧
      (code = PSE_ERROR_TOO_MANY_VARIABLES.toInt ∨
       code = PSE_ERROR_VARIABLE_ALREADY_REGISTERED.toInt)) ∨
    (pse.state = INITIALIZED ∧ code = pse.var_limit ∧ pse.var_limit < PSE_MAX_VARIABLES ∧
      pse.variables_.get pse.var_limit = .ok pse_ptr.NULL ∧
      s1.state = INITIALIZED ∧ s1.var_limit = pse.var_limit + 1 ∧
      s1.var_count = (pse.var_count + 1) % UINT_MOD ∧
      s1.dependencies = pse.dependencies ∧
      ∃ v, s1.variables_ = pse.variables_.put pse.var_limit (pse_ptr.live v)) := by
  unfold pse_register at h
  split at h
  · rename_i hst; cases h; left; simp [hst, guard_initialized]
  split at h
  · rename_i hst; cases h; left; simp [hst, guard_initialized]
  split at h
  · rename_i hst; cases h; left; simp [hst, guard_initialized]
  right
  have hst := state_cases_initialized pse ‹_› ‹_› ‹_›
  split at h
  · cases h; left; exact ⟨hst, rfl, Or.inl rfl⟩
  split at h
  · cases h
  · cases h; left; exact ⟨hst, rfl, Or.inr rfl⟩
  · cases h; left; exact ⟨hst, rfl, Or.inr rfl⟩
  · rename_i hget
    split at h
    · cases h
    · cases h
      right
      have hb := (get_ok _ _ _ hget).2.1
      simp only [Int.toNat_ofNat] at hb
      refine ⟨hst, rfl, hb, hget, hst, ?_, rfl, rfl, _, rfl⟩
      show (pse.var_limit + 1) % UINT_MOD = pse.var_limit + 1
      apply Nat.mod_eq_of_lt
      unfold PSE_MAX_VARIABLES at hb
      unfold UINT_MOD
      omega

theorem pse_finalize_shape (pse s1 : pse_agent_stub) (e : pse_error)
    (h : pse_finalize pse = .ok (s1, e)) :
    (pse.state = FINALIZED ∧ s1 = pse ∧ e = PSE_ERROR_ALREADY_FINALIZED) ∨
    (pse.state = INITIALIZED ∧ s1 = pse ∧ e = PSE_ERROR_NOT_STARTED) ∨
    ((pse.state = CREATED ∨ pse.state = STARTED) ∧ e = PSE_ERROR_OK ∧
      s1.state = FINALIZED ∧ s1.var_count = 0 ∧ s1.var_limit = 0) := by
  unfold pse_finalize at h
  split at h
  · rename_i hst; cases h; left; exact ⟨hst, rfl, rfl⟩
  split at h
  · rename_i hst; cases h; right; left; exact ⟨hst, rfl, rfl⟩
  rename_i h1 h2
  have hst : pse.state = CREATED ∨ pse.state = STARTED := by
    cases hs : pse.state <;> simp_all
  split at h
  · cases h; right; right; exact ⟨hst, rfl, rfl, rfl, rfl⟩
  · cases h
  · cases h

theorem pse_init_shape (pse : pse_agent_stub) :
    (pse.state = CREATED ∧ (pse_init pse).2 = PSE_ERROR_OK ∧
      (pse_init pse).1 =
        { state := INITIALIZED, var_count := 0, var_limit := 0,
          variables_ := pse.variables_.clear, dependencies := pse.dependencies.clear }) ∨
    (pse.state ≠ CREATED ∧ (pse_init pse).1 = pse ∧
      is_lifecycle_error (pse_init pse).2.toInt) := by
  cases hs : pse.state <;> simp [pse_init, hs, is_lifecycle_error, pse_error.toInt]

theorem pse_start_shape {G : Type} (R : ranlib G) (pse : pse_agent_stub) (g : G)
    (seed_1 seed_2 : Int) :
    (pse.state = INITIALIZED ∧ (pse_start R pse g seed_1 seed_2).2.2 = PSE_ERROR_OK ∧
      (pse_start R pse g seed_1 seed_2).1 = { pse with state := STARTED }) ∨
    (pse.state ≠ INITIALIZED ∧ (pse_start R pse g seed_1 seed_2).1 = pse ∧
      (pse_start R pse g seed_1 seed_2).2.1 = g ∧
      is_lifecycle_error (pse_start R pse g seed_1 seed_2).2.2.toInt) := by
  cases hs : pse.state <;> simp [pse_start, hs, is_lifecycle_error, pse_error.toInt]

/-! ## Claims on the lifecycle -/

theorem null_release (α : Type) : (pse_table.null α).release = .ok (pse_table.null α) := by
  unfold pse_table.release pse_table.null
  simp [pse_ptr.is_freed, pse_ptr.release]

/-- C2 (failing input): on a zero-filled store, which is in state Created,
`pse_finalize` returns Ok and moves the store to Finalized, where the claim asks
for an error and an unchanged store. -/
theorem C2_finalize_accepts_created :
    pse_zeroed.state = CREATED ∧
    pse_finalize pse_zeroed =
      .ok ({ pse_zeroed with state := FINALIZED }, PSE_ERROR_OK) := by
  refine ⟨rfl, ?_⟩
  unfold pse_finalize
  simp [pse_zeroed, null_release]

/-- C3: on a Finalized store every call of the public interface reports
AlreadyFinalized and leaves the store, the generator and the record passed to
`pse_observe` as they were; a `pse_finalize` that follows a successful one
returns AlreadyFinalized. -/
theorem C3_finalized_is_terminal :
    (∀ {G : Type} (R : ranlib G) (fuel : Nat) (pse : pse_agent_stub) (g : G) (c : pse_call),
      pse.state = FINALIZED →
      pse_step R fuel pse g c =
        .ok (pse, g, { code := PSE_ERROR_ALREADY_FINALIZED.toInt, output := c.passed })) ∧
    (∀ (pse s1 : pse_agent_stub), pse_finalize pse = .ok (s1, PSE_ERROR_OK) →
      pse_finalize s1 = .ok (s1, PSE_ERROR_ALREADY_FINALIZED)) := by
  constructor
  · intro G R fuel pse g c h
    cases c <;>
      simp [pse_step, pse_init, pse_start, pse_finalize, pse_register, pse_deregister,
        pse_add_dependencies, pse_rm_dependencies, pse_supply_prior, pse_prepare, pse_observe,
        pse_call.passed, h]
  · intro pse s1 h
    rcases pse_finalize_shape pse s1 _ h with ⟨_, _, h3⟩ | ⟨_, _, h3⟩ | ⟨_, _, h3, _⟩
    · cases h3
    · cases h3
    · simp [pse_finalize, h3]

/-- C4: `pse_start` returns Ok exactly on an Initialized store, which becomes
Started with slots, dependencies and counters unchanged; on a Created, Started
or Finalized store it returns NotInitialized, AlreadyStarted or
AlreadyFinalized and nothing changes. -/
theorem C4_start_contract {G : Type} (R : ranlib G) (pse : pse_agent_stub) (g : G)
    (seed_1 seed_2 : Int) :
    ((pse_start R pse g seed_1 seed_2).2.2 = PSE_ERROR_OK ↔ pse.state = INITIALIZED) ∧
    (pse.state = INITIALIZED →
      (pse_start R pse g seed_1 seed_2).1 =
        { state := STARTED, var_count := pse.var_count, var_limit := pse.var_limit,
          variables_ := pse.variables_, dependencies := pse.dependencies }) ∧
    (pse.state = CREATED →
      pse_start R pse g seed_1 seed_2 = (pse, g, PSE_ERROR_NOT_INITIALIZED)) ∧
    (pse.state = STARTED →
      pse_start R pse g seed_1 seed_2 = (pse, g, PSE_ERROR_ALREADY_STARTED)) ∧
    (pse.state = FINALIZED →
      pse_start R pse g seed_1 seed_2 = (pse, g, PSE_ERROR_ALREADY_FINALIZED)) := by
  refine ⟨?_, ?_, ?_, ?_, ?_⟩
  · cases h : pse.state <;> simp [pse_start, h]
  · intro h; simp [pse_start, h]
  · intro h; simp [pse_start, h]
  · intro h; simp [pse_start, h]
  · intro h; simp [pse_start, h]

/-- Every call, seen through `pse_step`: either the store keeps its state (and
at most one slot changes), or it is a successful `init`, `start`, `finalize` or
`register`. A lifecycle error code comes with an unchanged store and generator. -/
theorem pse_step_cases {G : Type} (R : ranlib G) (fuel : Nat) (pse : pse_agent_stub) (g : G)
    (c : pse_call) (s1 : pse_agent_stub) (g1 : G) (r : pse_reply)
    (h : pse_step R fuel pse g c = .ok (s1, g1, r)) :
    (is_lifecycle_error r.code → s1 = pse ∧ g1 = g) ∧
    ((slot_change pse s1 ∧ registered_ids [c] [r] = []) ∨
     (pse.state = CREATED ∧ s1.state = INITIALIZED ∧ s1.var_limit = 0 ∧ s1.var_count = 0 ∧
        s1.variables_ = pse.variables_.clear ∧ registered_ids [c] [r] = []) ∨
     (pse.state = INITIALIZED ∧ s1 = { pse with state := STARTED } ∧
        registered_ids [c] [r] = []) ∨
     ((pse.state = CREATED ∨ pse.state = STARTED) ∧ s1.state = FINALIZED ∧
        registered_ids [c] [r] = []) ∨
     (pse.state = INITIALIZED ∧ r.code = pse.var_limit ∧ pse.var_limit < PSE_MAX_VARIABLES ∧
        pse.variables_.get pse.var_limit = .ok pse_ptr.NULL ∧
        s1.state = INITIALIZED ∧ s1.var_limit = pse.var_limit + 1 ∧
        s1.var_count = (pse.var_count + 1) % UINT_MOD ∧
        (∃ v, s1.variables_ = pse.variables_.put pse.var_limit (pse_ptr.live v)) ∧
        registered_ids [c] [r] = [r.code])) := by
  cases c with
  | init =>
    simp only [pse_step] at h
    cases h
    rcases pse_init_shape pse with ⟨h1, h2, h3⟩ | ⟨h1, h2, h3⟩
    · refine ⟨?_, Or.inr (Or.inl ⟨h1, ?_, ?_, ?_, ?_, rfl⟩)⟩
      · intro hl; rw [h2] at hl; exact absurd hl not_lifecycle_ok
      all_goals simp [h3]
    · refine ⟨fun _ => ⟨h2, rfl⟩, Or.inl ⟨?_, rfl⟩⟩
      rw [h2]; exact slot_change_refl _
  | start seed_1 seed_2 =>
    simp only [pse_step] at h
    cases h
    rcases pse_start_shape R pse g seed_1 seed_2 with ⟨h1, h2, h3⟩ | ⟨h1, h2, h3, h4⟩
    · refine ⟨?_, Or.inr (Or.inr (Or.inl ⟨h1, h3, rfl⟩))⟩
      intro hl; rw [h2] at hl; exact absurd hl not_lifecycle_ok
    · refine ⟨fun _ => ⟨h2, h3⟩, Or.inl ⟨?_, rfl⟩⟩
      rw [h2]; exact slot_change_refl _
  | finalize =>
    simp only [pse_step] at h
    split at h
    · rename_i r0 hr
      cases h
      rcases pse_finalize_shape pse r0.1 r0.2 hr with ⟨h1, h2, h3⟩ | ⟨h1, h2, h3⟩ |
        ⟨h1, h2, h3, _⟩
      · refine ⟨fun _ => ⟨h2, rfl⟩, Or.inl ⟨?_, rfl⟩⟩
        rw [h2]; exact slot_change_refl _
      · refine ⟨fun _ => ⟨h2, rfl⟩, Or.inl ⟨?_, rfl⟩⟩
        rw [h2]; exact slot_change_refl _
      · refine ⟨?_, Or.inr (Or.inr (Or.inr (Or.inl ⟨h1, h3, rfl⟩)))⟩
        intro hl; simp only [h2] at hl; exact absurd hl not_lifecycle_ok
    · cases h
  | register u storage model locality point_distribution point_parameters array size
      read_and_alter array_distribution array_parameters name =>
    simp only [pse_step] at h
    split at h
    · rename_i r0 hr
      cases h
      rcases pse_register_shape pse u storage model locality point_distribution
          point_parameters array size read_and_alter array_distribution array_parameters name
          r0.1 r0.2 hr with ⟨h1, h2, h3⟩ | ⟨h1, h2, h3⟩ | ⟨h1, h2, h3, h4, h5, h6, h7, _, h9⟩
      · refine ⟨fun _ => ⟨h2, rfl⟩, Or.inl ⟨?_, ?_⟩⟩
        · rw [h2]; exact slot_change_refl _
        · simp only [registered_ids, h3]
          cases pse.state <;> simp [guard_initialized, pse_error.toInt]
      · refine ⟨fun _ => ⟨h2, rfl⟩, Or.inl ⟨?_, ?_⟩⟩
        · rw [h2]; exact slot_change_refl _
        · simp only [registered_ids]
          rcases h3 with h3 | h3 <;> simp [h3, pse_error.toInt]
      · refine ⟨?_, Or.inr (Or.inr (Or.inr (Or.inr ⟨h1, h2, h3, h4, h5, h6, h7, h9, ?_⟩)))⟩
        · intro hl
          simp only [h2, is_lifecycle_error, pse_error.toInt] at hl
          omega
        · simp only [registered_ids, h2]
          simp
    · cases h
  | deregister varid =>
    simp only [pse_step] at h
    split at h
    · rename_i r0 hr
      cases h
      rcases pse_deregister_shape pse varid r0.1 r0.2 hr with ⟨_, h2, _⟩ | ⟨_, h2, h3, _⟩
      · refine ⟨fun _ => ⟨h2, rfl⟩, Or.inl ⟨?_, rfl⟩⟩
        rw [h2]; exact slot_change_refl _
      · exact ⟨fun hl => absurd hl h2, Or.inl ⟨h3, rfl⟩⟩
    · cases h
  | add_dependencies varid conditionals count =>
    simp only [pse_step] at h
    split at h
    · rename_i r0 hr
      cases h
      rcases pse_add_dependencies_shape pse varid conditionals count r0.1 r0.2 hr with
        ⟨_, h2, _⟩ | ⟨_, h2, h3⟩
      · refine ⟨fun _ => ⟨h2, rfl⟩, Or.inl ⟨?_, rfl⟩⟩
        rw [h2]; exact slot_change_refl _
      · exact ⟨fun hl => absurd hl h2, Or.inl ⟨h3, rfl⟩⟩
    · cases h
  | rm_dependencies varid =>
    simp only [pse_step] at h
    split at h
    · rename_i r0 hr
      cases h
      rcases pse_rm_dependencies_shape pse varid r0.1 r0.2 hr with ⟨_, h2, _⟩ | ⟨_, h2, h3⟩
      · refine ⟨fun _ => ⟨h2, rfl⟩, Or.inl ⟨?_, rfl⟩⟩
        rw [h2]; exact slot_change_refl _
      · exact ⟨fun hl => absurd hl h2, Or.inl ⟨h3, rfl⟩⟩
    · cases h
  | supply_prior varid priors =>
    simp only [pse_step] at h
    split at h
    · rename_i r0 hr
      cases h
      rcases pse_supply_prior_shape pse varid priors r0.1 r0.2 hr with ⟨_, h2, _⟩ | ⟨_, h2, h3⟩
      · refine ⟨fun _ => ⟨h2, rfl⟩, Or.inl ⟨?_, rfl⟩⟩
        rw [h2]; exact slot_change_refl _
      · exact ⟨fun hl => absurd hl h2, Or.inl ⟨h3, rfl⟩⟩
    · cases h
  | prepare varid content location storage =>
    simp only [pse_step] at h
    split at h
    · rename_i r0 hr
      cases h
      rcases pse_prepare_shape R fuel pse g varid content location storage r0.1 r0.2.1 r0.2.2 hr
        with ⟨_, h2, h3, _⟩ | ⟨_, h2, h3⟩
      · refine ⟨fun _ => ⟨h2, h3⟩, Or.inl ⟨?_, rfl⟩⟩
        rw [h2]; exact slot_change_refl _
      · exact ⟨fun hl => absurd hl h2, Or.inl ⟨h3, rfl⟩⟩
    · cases h
  | observe varid location ptr_out =>
    simp only [pse_step] at h
    split at h
    · rename_i r0 hr
      cases h
      rcases pse_observe_shape R fuel pse g varid location ptr_out r0.1 r0.2.1 r0.2.2.1
        r0.2.2.2 hr with ⟨_, h2, h3, _⟩ | ⟨_, h2, h3⟩
      · refine ⟨fun _ => ⟨h2, h3⟩, Or.inl ⟨?_, rfl⟩⟩
        rw [h2]; exact slot_change_refl _
      · exact ⟨fun hl => absurd hl h2, Or.inl ⟨h3, rfl⟩⟩
    · cases h

/-- C5: the lifecycle only moves forward: whatever the call and the store, the
state after a call is the state before it or a later one in the order
Created, Initialized, Started, Finalized. -/
theorem C5_lifecycle_forward_only {G : Type} (R : ranlib G) (fuel : Nat) (pse : pse_agent_stub)
    (g : G) (c : pse_call) (s1 : pse_agent_stub) (g1 : G) (r : pse_reply)
    (h : pse_step R fuel pse g c = .ok (s1, g1, r)) :
    pse.state.toNat ≤ s1.state.toNat := by
  rcases (pse_step_cases R fuel pse g c s1 g1 r h).2 with
    ⟨⟨h1, _⟩, _⟩ | ⟨h1, h2, _⟩ | ⟨h1, h2, _⟩ | ⟨h1, h2, _⟩ | ⟨h1, _, _, _, h2, _⟩
  · rw [h1]
  · rw [h1, h2]; decide
  · rw [h1, h2]; simp [pse_state.toNat]
  · rw [h2]; rcases h1 with h1 | h1 <;> rw [h1] <;> decide
  · rw [h1, h2]

theorem C5_lifecycle_forward_only_witness :
    pse_step ranlib_demo 0 pse_zeroed 0 pse_call.init =
      .ok ((pse_init pse_zeroed).1, 0, { code := 0, output := none }) ∧
    pse_zeroed.state = CREATED ∧ (pse_init pse_zeroed).1.state = INITIALIZED ∧
    pse_zeroed.state.toNat ≤ (pse_init pse_zeroed).1.state.toNat :=
  ⟨rfl, rfl, rfl,
    C5_lifecycle_forward_only ranlib_demo 0 pse_zeroed 0 pse_call.init
      (pse_init pse_zeroed).1 0 { code := 0, output := none } rfl⟩

/-- C6: whenever a call of the public interface reports a lifecycle error
(AlreadyInitialized, AlreadyStarted, AlreadyFinalized, NotInitialized or
NotStarted), the store after the call is the store before it, in all its
fields; so is the state of the generator. -/
theorem C6_lifecycle_error_keeps_store {G : Type} (R : ranlib G) (fuel : Nat)
    (pse : pse_agent_stub) (g : G) (c : pse_call) (s1 : pse_agent_stub) (g1 : G)
    (r : pse_reply) (h : pse_step R fuel pse g c = .ok (s1, g1, r))
    (herr : is_lifecycle_error r.code) :
    s1 = pse ∧ g1 = g :=
  (pse_step_cases R fuel pse g c s1 g1 r h).1 herr

theorem C6_lifecycle_error_keeps_store_witness :
    pse_step ranlib_demo 0 pse_zeroed 0 (pse_call.deregister 0) =
      .ok (pse_zeroed, 0, { code := PSE_ERROR_NOT_INITIALIZED.toInt, output := none }) ∧
    is_lifecycle_error PSE_ERROR_NOT_INITIALIZED.toInt ∧
    (pse_zeroed = pse_zeroed ∧ (0 : Nat) = 0) :=
  ⟨rfl, Or.inr (Or.inr (Or.inr (Or.inl rfl))),
    C6_lifecycle_error_keeps_store ranlib_demo 0 pse_zeroed 0 (pse_call.deregister 0)
      pse_zeroed 0 { code := PSE_ERROR_NOT_INITIALIZED.toInt, output := none } rfl
      (Or.inr (Or.inr (Or.inr (Or.inl rfl))))⟩

/-- C7: `pse_register` outside state Initialized: on a Created store it returns
NotInitialized, on a Started store AlreadyStarted, on a Finalized store
AlreadyFinalized, and the store (slots and counters included) is unchanged. -/
theorem C7_register_lifecycle (pse : pse_agent_stub) (u : pse_uninit)
    (storage : pse_storage_type) (model : pse_model_type) (locality : pse_locality_type)
    (point_distribution : pse_distribution_type) (point_parameters : pse_params)
    (array : pse_array_type) (size : Nat) (read_and_alter : Nat)
    (array_distribution : pse_distribution_type) (array_parameters : pse_params)
    (name : c_string) :
    (pse.state = CREATED →
      pse_register pse u storage model locality point_distribution point_parameters array size
        read_and_alter array_distribution array_parameters name =
        .ok (pse, PSE_ERROR_NOT_INITIALIZED.toInt)) ∧
    (pse.state = STARTED →
      pse_register pse u storage model locality point_distribution point_parameters array size
        read_and_alter array_distribution array_parameters name =
        .ok (pse, PSE_ERROR_ALREADY_STARTED.toInt)) ∧
    (pse.state = FINALIZED →
      pse_register pse u storage model locality point_distribution point_parameters array size
        read_and_alter array_distribution array_parameters name =
        .ok (pse, PSE_ERROR_ALREADY_FINALIZED.toInt)) := by
  refine ⟨?_, ?_, ?_⟩ <;> intro h <;> simp [pse_register, h]

/-! ## The invariant of the stores a client can hold -/

theorem put_cells_ne {α : Type} (t : pse_table α) (i : Int) (p : pse_ptr α) (j : Nat)
    (h : j ≠ i.toNat) : (t.put i p).cells[j]? = t.cells[j]? := by
  unfold pse_table.put
  simp only
  exact List.getElem?_set_ne (Ne.symm h)

theorem put_cells_eq {α : Type} (t : pse_table α) (i : Int) (p : pse_ptr α)
    (h : i.toNat < PSE_MAX_VARIABLES) : (t.put i p).cells[i.toNat]? = some p := by
  unfold pse_table.put
  simp only
  rw [List.getElem?_set_self]
  rw [t.size_eq]
  exact h

theorem get_put_eq {α : Type} (t : pse_table α) (i : Nat) (p : pse_ptr α)
    (h : i < PSE_MAX_VARIABLES) : (t.put (i : Int) p).get (i : Int) = .ok p := by
  have := put_cells_eq t (i : Int) p (by simpa using h)
  simp only [Int.toNat_ofNat] at this
  unfold pse_table.get
  simp [this]

theorem get_put_ne {α : Type} (t : pse_table α) (i : Nat) (p : pse_ptr α) (j : Int)
    (h : j ≠ (i : Int)) : (t.put (i : Int) p).get j = t.get j := by
  unfold pse_table.get
  split
  · rename_i h0
    have hne : j.toNat ≠ ((i : Int)).toNat := by
      simp only [Int.toNat_ofNat]
      intro hc
      apply h
      rw [← hc]
      exact (Int.toNat_of_nonneg h0).symm
    rw [put_cells_ne t (i : Int) p j.toNat hne]
  · rfl

theorem clear_cells_get {α : Type} (t : pse_table α) (i : Nat) (h : i < PSE_MAX_VARIABLES) :
    t.clear.cells[i]? = some pse_ptr.NULL := by
  rw [clear_cells]
  simp [h]

theorem pse_inv_step {G : Type} (R : ranlib G) (fuel : Nat) (pse : pse_agent_stub) (g : G)
    (c : pse_call) (s1 : pse_agent_stub) (g1 : G) (r : pse_reply)
    (h : pse_step R fuel pse g c = .ok (s1, g1, r)) (hinv : pse_inv pse) : pse_inv s1 := by
  rcases (pse_step_cases R fuel pse g c s1 g1 r h).2 with
    ⟨⟨h1, h2, h3, h4⟩, _⟩ | ⟨h1, h2, h3, h4, h5, _⟩ | ⟨h1, h2, _⟩ | ⟨h1, h2, _⟩ |
    ⟨h1, _, h3, h4, h5, h6, h7, ⟨v, h8⟩, _⟩
  · intro hs
    rw [h1] at hs
    obtain ⟨i1, i2, i3⟩ := hinv hs
    refine ⟨by omega, by omega, ?_⟩
    intro i hi hlt
    rw [h2] at hi
    rcases h4 with h4 | ⟨varid, v, p, hg, h4⟩
    · rw [h4]; exact i3 i hi hlt
    · rw [h4]
      have hc := (get_ok _ _ _ hg).2.2
      by_cases hne : i = varid.toNat
      · subst hne
        rw [i3 _ hi hlt] at hc
        cases hc
      · rw [put_cells_ne _ _ _ _ hne]
        exact i3 i hi hlt
  · intro _
    refine ⟨by omega, by omega, ?_⟩
    intro i _ hlt
    rw [h5]
    exact clear_cells_get _ i hlt
  · intro _
    subst h2
    exact hinv (Or.inl h1)
  · intro hs
    rw [h2] at hs
    rcases hs with hs | hs <;> cases hs
  · intro _
    obtain ⟨i1, i2, i3⟩ := hinv (Or.inl h1)
    refine ⟨?_, by omega, ?_⟩
    · rw [h7, h6]
      exact le_trans (Nat.mod_le _ _) (by omega)
    · intro i hi hlt
      rw [h8, put_cells_ne _ _ _ _ (by simp only [Int.toNat_ofNat]; omega)]
      exact i3 i (by omega) hlt

theorem pse_inv_init (pse : pse_agent_stub) (h : pse.state = CREATED) :
    pse_inv (pse_init pse).1 := by
  intro _
  simp only [pse_init, h]
  simp only [reduceCtorEq, if_false]
  refine ⟨le_refl _, Nat.zero_le _, ?_⟩
  intro i _ hlt
  exact clear_cells_get _ i hlt

theorem reachable_inv {G : Type} (R : ranlib G) (pse : pse_agent_stub) (g : G)
    (h : Reachable R pse g) : pse_inv pse := by
  induction h with
  | init pse g h => exact pse_inv_init pse h
  | step fuel pse g c pse1 g1 r _ hs ih => exact pse_inv_step R fuel pse g c pse1 g1 r hs ih

/-- A successful registration, on a store that satisfies the invariant and has
ids left. -/
theorem pse_register_fresh (pse : pse_agent_stub) (u : pse_uninit) (storage : pse_storage_type)
    (model : pse_model_type) (locality : pse_locality_type)
    (point_distribution : pse_distribution_type) (point_parameters : pse_params)
    (array : pse_array_type) (size : Nat) (read_and_alter : Nat)
    (array_distribution : pse_distribution_type) (array_parameters : pse_params)
    (name : c_string)
    (hst : pse.state = INITIALIZED) (hinv : pse_inv pse)
    (hlim : pse.var_limit < PSE_MAX_VARIABLES) (hname : strlen name < PSE_VARNAME_SIZE) :
    pse_register pse u storage model locality point_distribution point_parameters array size
      read_and_alter array_distribution array_parameters name =
    .ok ({ pse with
            variables_ := pse.variables_.put pse.var_limit (pse_ptr.live
              { storage := storage,
                model := model,
                locality := locality,
                point_distribution := point_distribution,
                point_parameters := point_parameters,
                has_dependencies := PSE_FALSE,
                read_and_alter := read_and_alter,
                name := c_str name,
                content := pse_alloc u storage array size,
                array := array,
                size := size,
                array_distribution :=
                  if array = PSE_ARRAY then array_distribution else PSE_DIST_NONE,
                array_parameters := array_parameters }),
            var_count := pse.var_count + 1,
            var_limit := pse.var_limit + 1 }, (pse.var_limit : Int)) := by
  obtain ⟨i1, i2, i3⟩ := hinv (Or.inl hst)
  have hcell := i3 pse.var_limit (le_refl _) hlim
  have hget : pse.variables_.get (pse.var_limit : Int) = .ok pse_ptr.NULL := by
    unfold pse_table.get
    simp [hcell]
  have hcnt : pse.var_count ≠ PSE_MAX_VARIABLES := by omega
  have hm1 : (pse.var_count + 1) % UINT_MOD = pse.var_count + 1 := by
    apply Nat.mod_eq_of_lt
    unfold PSE_MAX_VARIABLES at hlim
    unfold UINT_MOD
    omega
  have hm2 : (pse.var_limit + 1) % UINT_MOD = pse.var_limit + 1 := by
    apply Nat.mod_eq_of_lt
    unfold PSE_MAX_VARIABLES at hlim
    unfold UINT_MOD
    omega
  unfold pse_register
  simp [hst, hcnt, hget, strcpy, hname, hm1, hm2]

/-! ## Claims on registration -/

theorem c_str_eq_self (s : c_string) (h : ∀ b ∈ s, b ≠ 0) : c_str s = s := by
  unfold c_str
  rw [List.takeWhile_eq_self_iff]
  intro b hb
  simpa using h b hb

/-- C9: on a store a client can hold that is Initialized and whose allocation
counter is below the capacity (so the live count is too), `pse_register` with a
name that fits the name field returns the allocation counter as the id; the slot
of that id then holds a variable whose storage, model, locality, point
distribution, point parameters, shape, size, read_and_alter flag, array
parameters and name (the bytes of the argument up to its terminator, all of
them when none is NUL) are the arguments and whose dependent flag is cleared;
both counters have grown by 1; every other variable slot, every dependency slot
and the lifecycle state are as before. -/
theorem C9_register_success {G : Type} (R : ranlib G) (pse : pse_agent_stub) (g : G)
    (u : pse_uninit) (storage : pse_storage_type)
    (model : pse_model_type) (locality : pse_locality_type)
    (point_distribution : pse_distribution_type) (point_parameters : pse_params)
    (array : pse_array_type) (size : Nat) (read_and_alter : Nat)
    (array_distribution : pse_distribution_type) (array_parameters : pse_params)
    (name : c_string)
    (hreach : Reachable R pse g) (hst : pse.state = INITIALIZED)
    (hlim : pse.var_limit < PSE_MAX_VARIABLES) (hname : strlen name < PSE_VARNAME_SIZE) :
    ∃ s1 v,
      pse_register pse u storage model locality point_distribution point_parameters array size
        read_and_alter array_distribution array_parameters name = .ok (s1, (pse.var_limit : Int)) ∧
      s1.variables_.get pse.var_limit = .ok (pse_ptr.live v) ∧
      v.storage = storage ∧ v.model = model ∧ v.locality = locality ∧
      v.point_distribution = point_distribution ∧ v.point_parameters = point_parameters ∧
      v.array = array ∧ v.size = size ∧ v.read_and_alter = read_and_alter ∧
      v.array_parameters = array_parameters ∧ v.name = c_str name ∧
      ((∀ b ∈ name, b ≠ 0) → v.name = name) ∧
      v.has_dependencies = PSE_FALSE ∧
      s1.var_count = pse.var_count + 1 ∧ s1.var_limit = pse.var_limit + 1 ∧
      (∀ j : Int, j ≠ (pse.var_limit : Int) → s1.variables_.get j = pse.variables_.get j) ∧
      s1.dependencies = pse.dependencies ∧ s1.state = pse.state := by
  have h := pse_register_fresh pse u storage model locality point_distribution
    point_parameters array size read_and_alter array_distribution array_parameters name hst
    (reachable_inv R pse g hreach) hlim hname
  refine ⟨_, _, h, get_put_eq _ _ _ hlim, ?_⟩
  refine ⟨rfl, rfl, rfl, rfl, rfl, rfl, rfl, rfl, rfl, rfl, c_str_eq_self name, rfl, rfl, rfl,
    ?_, rfl, rfl⟩
  intro j hj
  exact get_put_ne _ _ _ j hj

theorem C9_register_success_witness :
    Reachable ranlib_demo (pse_init pse_zeroed).1 0 ∧
    (pse_init pse_zeroed).1.state = INITIALIZED ∧
    (pse_init pse_zeroed).1.var_limit = 0 ∧
    ∃ s1, pse_register (pse_init pse_zeroed).1 uninit_demo PSE_VAR_DOUBLE PSE_VAR_STOCHASTIC
        PSE_AGENT PSE_DIST_NORMAL_SELF params_demo PSE_SCALAR 1 PSE_TRUE PSE_DIST_NONE
        params_demo [100, 105, 115, 116] = .ok (s1, 0) ∧
      s1.var_count = 1 ∧ s1.var_limit = 1 := by
  refine ⟨Reachable.init pse_zeroed 0 rfl, rfl, rfl, ?_⟩
  obtain ⟨s1, v, h1, _, _, _, _, _, _, _, _, _, _, _, _, _, h2, h3, _⟩ :=
    C9_register_success ranlib_demo (pse_init pse_zeroed).1 0 uninit_demo PSE_VAR_DOUBLE
      PSE_VAR_STOCHASTIC PSE_AGENT PSE_DIST_NORMAL_SELF params_demo PSE_SCALAR 1 PSE_TRUE
      PSE_DIST_NONE params_demo [100, 105, 115, 116] (Reachable.init pse_zeroed 0 rfl) rfl
      (by decide) (by decide)
  exact ⟨s1, h1, h2, h3⟩

theorem get_past_end {α : Type} (t : pse_table α) (i : Nat) (h : PSE_MAX_VARIABLES ≤ i) :
    t.get (i : Int) = .error pse_fault.out_of_bounds := by
  unfold pse_table.get
  have : t.cells[i]? = none := by
    rw [List.getElem?_eq_none_iff, t.size_eq]
    exact h
  simp [this]

/-- One successful `register` call as a step of the interface. -/
theorem pse_step_register_fresh {G : Type} (R : ranlib G) (fuel : Nat) (pse : pse_agent_stub)
    (g : G) (u : pse_uninit) (storage : pse_storage_type)
    (model : pse_model_type) (locality : pse_locality_type)
    (point_distribution : pse_distribution_type) (point_parameters : pse_params)
    (array : pse_array_type) (size : Nat) (read_and_alter : Nat)
    (array_distribution : pse_distribution_type) (array_parameters : pse_params)
    (name : c_string)
    (hst : pse.state = INITIALIZED) (hinv : pse_inv pse)
    (hlim : pse.var_limit < PSE_MAX_VARIABLES) (hname : strlen name < PSE_VARNAME_SIZE) :
    ∃ s1 v, pse_step R fuel pse g (pse_call.register u storage model locality
        point_distribution point_parameters array size read_and_alter array_distribution
        array_parameters name) = .ok (s1, g, { code := pse.var_limit, output := none }) ∧
      s1.state = INITIALIZED ∧ s1.var_limit = pse.var_limit + 1 ∧
      s1.var_count = pse.var_count + 1 ∧
      s1.variables_.get pse.var_limit = .ok (pse_ptr.live v) ∧ v.array = array ∧
      v.storage = storage := by
  have hreg := pse_register_fresh pse u storage model locality point_distribution
    point_parameters array size read_and_alter array_distribution array_parameters name
    hst hinv hlim hname
  simp only [pse_step, hreg]
  exact ⟨_, _, rfl, hst, rfl, rfl, get_put_eq _ _ _ hlim, rfl, rfl⟩

/-- One successful `deregister` call as a step of the interface: the variable is
an Array, or a String. -/
theorem pse_step_deregister_ok {G : Type} (R : ranlib G) (fuel : Nat) (pse : pse_agent_stub)
    (g : G) (varid : Int) (v : pse_variable)
    (hst : pse.state = INITIALIZED) (hcnt : pse.var_count ≠ 0)
    (hget : pse.variables_.get varid = .ok (pse_ptr.live v))
    (harr : v.array = PSE_ARRAY ∨ v.storage = PSE_VAR_STRING) :
    ∃ s1, pse_step R fuel pse g (pse_call.deregister varid) =
        .ok (s1, g, { code := PSE_ERROR_OK.toInt, output := none }) ∧
      s1.state = INITIALIZED ∧ s1.var_limit = pse.var_limit ∧
      s1.var_count = pse.var_count - 1 := by
  have hder : pse_deregister pse varid =
      .ok ({ pse with variables_ := pse.variables_.put varid pse_ptr.NULL,
                      var_count := pse.var_count - 1 }, PSE_ERROR_OK) := by
    unfold pse_deregister
    simp [hst, hcnt, hget, harr]
  simp only [pse_step, hder]
  exact ⟨_, rfl, hst, rfl, rfl⟩

/-- Registering `n` more variables on a store a client can hold, as long as ids
are left. -/
theorem reachable_register_many {G : Type} (R : ranlib G) (n : Nat) :
    ∀ (pse : pse_agent_stub) (g : G), Reachable R pse g → pse.state = INITIALIZED →
      pse.var_limit + n ≤ PSE_MAX_VARIABLES →
      ∃ s1, Reachable R s1 g ∧ s1.state = INITIALIZED ∧
        s1.var_limit = pse.var_limit + n ∧ s1.var_count = pse.var_count + n := by
  induction n with
  | zero => intro pse g hr hst _; exact ⟨pse, hr, hst, rfl, rfl⟩
  | succ n ih =>
    intro pse g hr hst hle
    obtain ⟨s1, v, hstep, h1, h2, h3, _⟩ := pse_step_register_fresh R 0 pse g uninit_demo
      PSE_VAR_INT PSE_VAR_DETERMINISTIC PSE_AGENT PSE_DIST_NONE params_demo PSE_SCALAR 1
      PSE_FALSE PSE_DIST_NONE params_demo [] hst (reachable_inv R pse g hr) (by omega)
      (by decide)
    obtain ⟨s2, k1, k2, k3, k4⟩ := ih s1 g (Reachable.step 0 pse g _ s1 g _ hr hstep) h1
      (by omega)
    exact ⟨s2, k1, k2, by omega, by omega⟩

/-- C10 (failing input): a store a client can reach by `init`, one `register`
of an Array variable, its `deregister`, and 1999 further `register` calls. All
2000 ids are handed out and 1999 variables are live. On it `pse_register` does
not return TooManyVariables: the guard compares the live count, the call goes
on to read `variables[2000]`, one slot past the array. -/
theorem C10_register_past_last_id :
    ∃ (pse : pse_agent_stub) (g : Nat),
      Reachable ranlib_demo pse g ∧ pse.state = INITIALIZED ∧
      pse.var_limit = PSE_MAX_VARIABLES ∧ pse.var_count = 1999 ∧
      ∀ (u : pse_uninit) (storage : pse_storage_type) (model : pse_model_type)
        (locality : pse_locality_type) (point_distribution : pse_distribution_type)
        (point_parameters : pse_params) (array : pse_array_type) (size : Nat)
        (read_and_alter : Nat) (array_distribution : pse_distribution_type)
        (array_parameters : pse_params) (name : c_string),
        pse_register pse u storage model locality point_distribution point_parameters array
          size read_and_alter array_distribution array_parameters name =
          .error pse_fault.out_of_bounds := by
  have hr0 : Reachable ranlib_demo (pse_init pse_zeroed).1 0 := Reachable.init pse_zeroed 0 rfl
  have hl0 : (pse_init pse_zeroed).1.var_limit = 0 := rfl
  have hc0 : (pse_init pse_zeroed).1.var_count = 0 := rfl
  obtain ⟨s1, v, hstep1, a1, a2, a3, a4, a5, _⟩ := pse_step_register_fresh ranlib_demo 0
    (pse_init pse_zeroed).1 0 uninit_demo PSE_VAR_INT PSE_VAR_DETERMINISTIC PSE_AGENT
    PSE_DIST_NONE params_demo PSE_ARRAY 1 PSE_FALSE PSE_DIST_NONE params_demo [] rfl
    (reachable_inv _ _ _ hr0) (by decide) (by decide)
  have hr1 := Reachable.step 0 _ 0 _ s1 0 _ hr0 hstep1
  obtain ⟨s2, hstep2, b1, b2, b3⟩ := pse_step_deregister_ok ranlib_demo 0 s1 0
    ((pse_init pse_zeroed).1.var_limit : Int) v a1 (by omega) a4 (Or.inl a5)
  have hr2 := Reachable.step 0 _ 0 _ s2 0 _ hr1 hstep2
  obtain ⟨s3, h1, h2, h3, h4⟩ := reachable_register_many ranlib_demo 1999 s2 0 hr2 b1
    (by rw [b2, a2, hl0]; decide)
  refine ⟨s3, 0, h1, h2, ?_, ?_, ?_⟩
  · rw [h3, b2, a2, hl0]; rfl
  · rw [h4, b3, a3, hc0]
  · intro u storage model locality point_distribution point_parameters array size
      read_and_alter array_distribution array_parameters name
    have hl3 : s3.var_limit = PSE_MAX_VARIABLES := by rw [h3, b2, a2, hl0]; rfl
    have hcnt : s3.var_count ≠ PSE_MAX_VARIABLES := by
      rw [h4, b3, a3, hc0]; decide
    have hget := get_past_end s3.variables_ s3.var_limit (by rw [hl3])
    unfold pse_register
    simp [h2, hcnt, hget]

/-! ## Ids are handed out in increasing order -/

theorem registered_ids_cons (c : pse_call) (cs : List pse_call) (r : pse_reply)
    (rs : List pse_reply) :
    registered_ids (c :: cs) (r :: rs) = registered_ids [c] [r] ++ registered_ids cs rs := by
  cases c <;> simp [registered_ids]
  split <;> simp

theorem registered_ids_nonneg :
    ∀ (cs : List pse_call) (rs : List pse_reply) (id : Int),
      id ∈ registered_ids cs rs → 0 ≤ id := by
  intro cs
  induction cs with
  | nil => intro rs id h; simp [registered_ids] at h
  | cons c cs ih =>
    intro rs id h
    cases rs with
    | nil => simp [registered_ids] at h
    | cons r rs =>
      cases c
      case register =>
        simp only [registered_ids] at h
        split at h
        · rename_i h0
          rcases List.mem_cons.mp h with h1 | h1
          · rw [h1]; exact h0
          · exact ih rs id h1
        · exact ih rs id h
      all_goals (simp only [registered_ids] at h; exact ih rs id h)

theorem pse_run_cons {G : Type} (R : ranlib G) (fuel : Nat) (pse : pse_agent_stub) (g : G)
    (c : pse_call) (cs : List pse_call) (s2 : pse_agent_stub) (g2 : G) (rs : List pse_reply)
    (h : pse_run R fuel pse g (c :: cs) = .ok (s2, g2, rs)) :
    ∃ s1 g1 r rs1, pse_step R fuel pse g c = .ok (s1, g1, r) ∧
      pse_run R fuel s1 g1 cs = .ok (s2, g2, rs1) ∧ rs = r :: rs1 := by
  simp only [pse_run] at h
  split at h
  · cases h
  · rename_i s1 g1 r hstep
    split at h
    · cases h
    · rename_i s2a g2a rs1 hrun
      cases h
      exact ⟨s1, g1, r, rs1, hstep, hrun, rfl⟩

/-- Along any run: the ids handed out increase strictly, none is below the
floor of the store the run starts from, and a store that is Started or
Finalized hands out none. -/
theorem pse_run_ids {G : Type} (R : ranlib G) (fuel : Nat) :
    ∀ (cs : List pse_call) (pse : pse_agent_stub) (g : G) (s2 : pse_agent_stub) (g2 : G)
      (rs : List pse_reply), pse_run R fuel pse g cs = .ok (s2, g2, rs) →
      (registered_ids cs rs).Pairwise (fun a b => a < b) ∧
      (∀ id ∈ registered_ids cs rs, id_floor pse ≤ id) ∧
      (pse.state = STARTED ∨ pse.state = FINALIZED → registered_ids cs rs = []) := by
  intro cs
  induction cs with
  | nil =>
    intro pse g s2 g2 rs _
    simp [registered_ids]
  | cons c cs ih =>
    intro pse g s2 g2 rs h
    obtain ⟨s1, g1, r, rs1, hstep, hrun, hrs⟩ := pse_run_cons R fuel pse g c cs s2 g2 rs h
    subst hrs
    obtain ⟨ih1, ih2, ih3⟩ := ih s1 g1 s2 g2 rs1 hrun
    rw [registered_ids_cons]
    rcases (pse_step_cases R fuel pse g c s1 g1 r hstep).2 with
      ⟨⟨h1, h2, _⟩, hid⟩ | ⟨h1, h2, _, _, _, hid⟩ | ⟨h1, h2, hid⟩ | ⟨h1, h2, hid⟩ |
      ⟨h1, hc, h3, _, h5, h6, _, _, hid⟩
    · rw [hid, List.nil_append]
      have hfl : id_floor s1 = id_floor pse := by simp [id_floor, h1, h2]
      refine ⟨ih1, ?_, ?_⟩
      · intro id hmem; rw [← hfl]; exact ih2 id hmem
      · intro hs; exact ih3 (by rw [h1]; exact hs)
    · rw [hid, List.nil_append]
      refine ⟨ih1, ?_, ?_⟩
      · intro id hmem
        simp only [id_floor, h1, reduceCtorEq, if_false]
        exact registered_ids_nonneg cs rs1 id hmem
      · intro hs; rw [h1] at hs; rcases hs with hs | hs <;> cases hs
    · rw [hid, List.nil_append]
      have hnil := ih3 (Or.inl (by rw [h2]))
      rw [hnil]
      simp
    · rw [hid, List.nil_append]
      have hnil := ih3 (Or.inr h2)
      rw [hnil]
      simp
    · rw [hid]
      have hfl : id_floor s1 = (pse.var_limit : Int) + 1 := by
        simp [id_floor, h5, h6]
      refine ⟨?_, ?_, ?_⟩
      · simp only [List.singleton_append, List.pairwise_cons]
        refine ⟨?_, ih1⟩
        intro id hmem
        have := ih2 id hmem
        rw [hfl] at this
        omega
      · intro id hmem
        simp only [List.singleton_append, List.mem_cons] at hmem
        simp only [id_floor, h1, if_true]
        rcases hmem with hm | hm
        · omega
        · have := ih2 id hm
          rw [hfl] at this
          omega
      · intro hs; rw [h1] at hs; rcases hs with hs | hs <;> cases hs

/-- C8: in every run of calls of the public interface that starts with `init`,
the ids returned by the successful `register` calls increase strictly in call
order, so no two are equal: an id is never handed out twice, whatever
`deregister` calls come in between. -/
theorem C8_ids_strictly_increasing {G : Type} (R : ranlib G) (fuel : Nat)
    (pse : pse_agent_stub) (g : G) (cs : List pse_call) (s2 : pse_agent_stub) (g2 : G)
    (rs : List pse_reply)
    (h : pse_run R fuel pse g (pse_call.init :: cs) = .ok (s2, g2, rs)) :
    (registered_ids (pse_call.init :: cs) rs).Pairwise (fun a b => a < b) ∧
    (registered_ids (pse_call.init :: cs) rs).Nodup := by
  have h1 := (pse_run_ids R fuel (pse_call.init :: cs) pse g s2 g2 rs h).1
  refine ⟨h1, ?_⟩
  exact h1.imp (fun hab => ne_of_lt hab)

theorem C8_ids_strictly_increasing_witness :
    ∃ s2 g2 rs, pse_run ranlib_demo 0 pse_zeroed 0 calls_demo = .ok (s2, g2, rs) ∧
      registered_ids calls_demo rs = [0, 1] ∧
      (registered_ids calls_demo rs).Pairwise (fun a b => a < b) ∧
      (registered_ids calls_demo rs).Nodup := by
  have hstep0 : pse_step ranlib_demo 0 pse_zeroed 0 pse_call.init =
      .ok ((pse_init pse_zeroed).1, 0, { code := 0, output := none }) := rfl
  have hinv0 := pse_inv_init pse_zeroed rfl
  obtain ⟨s1, v, hstep1, a1, a2, a3, a4, _, a6⟩ := pse_step_register_fresh ranlib_demo 0
    (pse_init pse_zeroed).1 0 uninit_demo PSE_VAR_STRING PSE_VAR_STOCHASTIC PSE_AGENT
    PSE_DIST_NONE params_demo PSE_SCALAR 1 PSE_FALSE PSE_DIST_NONE params_demo [97] rfl
    hinv0 (by decide) (by decide)
  have hinv1 := pse_inv_step _ _ _ _ _ _ _ _ hstep1 hinv0
  obtain ⟨s2, hstep2, b1, b2, b3⟩ := pse_step_deregister_ok ranlib_demo 0 s1 0 0 v a1
    (by omega) a4 (Or.inr a6)
  have hinv2 := pse_inv_step _ _ _ _ _ _ _ _ hstep2 hinv1
  have hl2 : s2.var_limit = 1 := by rw [b2, a2]; rfl
  obtain ⟨s3, v3, hstep3, _⟩ := pse_step_register_fresh ranlib_demo 0 s2 0 uninit_demo
    PSE_VAR_DOUBLE PSE_VAR_STOCHASTIC PSE_AGENT PSE_DIST_NORMAL_SELF params_demo PSE_SCALAR 1
    PSE_TRUE PSE_DIST_NONE params_demo [98] b1 hinv2 (by rw [hl2]; decide) (by decide)
  have hrun : pse_run ranlib_demo 0 pse_zeroed 0 calls_demo =
      .ok (s3, 0, [{ code := 0, output := none },
        { code := ((pse_init pse_zeroed).1.var_limit : Int), output := none },
        { code := PSE_ERROR_OK.toInt, output := none },
        { code := (s2.var_limit : Int), output := none }]) := by
    simp only [calls_demo, pse_run, hstep0, hstep1, hstep2, hstep3]
  refine ⟨s3, 0, _, hrun, ?_, C8_ids_strictly_increasing ranlib_demo 0 pse_zeroed 0 _ s3 0 _ hrun⟩
  have hl0 : (pse_init pse_zeroed).1.var_limit = 0 := rfl
  simp [calls_demo, registered_ids, hl2, hl0]

/-! ## Reading and writing slots -/

theorem get_put_same {α : Type} (t : pse_table α) (i : Int) (p0 p : pse_ptr α)
    (h : t.get i = .ok p0) : (t.put i p).get i = .ok p := by
  obtain ⟨h0, hlt, _⟩ := get_ok t i p0 h
  have := put_cells_eq t i p hlt
  unfold pse_table.get
  simp [h0, this]

theorem get_put_other {α : Type} (t : pse_table α) (i j : Int) (p : pse_ptr α)
    (hi : 0 ≤ i) (hne : j ≠ i) : (t.put i p).get j = t.get j := by
  unfold pse_table.get
  split
  · rename_i h0
    have hn : j.toNat ≠ i.toNat := by
      intro hc
      apply hne
      rw [← Int.toNat_of_nonneg h0, ← Int.toNat_of_nonneg hi, hc]
    rw [put_cells_ne t i p j.toNat hn]
  · rfl

theorem null_get (α : Type) (i : Nat) (h : i < PSE_MAX_VARIABLES) :
    (pse_table.null α).get (i : Int) = .ok pse_ptr.NULL := by
  unfold pse_table.get pse_table.null
  simp [h]

theorem clear_get {α : Type} (t : pse_table α) (i : Nat) (h : i < PSE_MAX_VARIABLES) :
    t.clear.get (i : Int) = .ok pse_ptr.NULL := by
  have := clear_cells_get t i h
  unfold pse_table.get
  simp [this]

theorem holding_get (st : pse_state) (v : pse_variable) :
    (pse_holding st v).variables_.get 0 = .ok (pse_ptr.live v) :=
  get_put_eq (pse_table.null pse_variable) 0 (pse_ptr.live v) (by decide)

theorem holding_get_other (st : pse_state) (v : pse_variable) (i : Nat) (h0 : i ≠ 0)
    (h : i < PSE_MAX_VARIABLES) :
    (pse_holding st v).variables_.get (i : Int) = .ok pse_ptr.NULL := by
  have := get_put_ne (pse_table.null pse_variable) 0 (pse_ptr.live v) (i : Int)
    (by exact_mod_cast h0)
  unfold pse_holding
  simp only
  exact this.trans (null_get pse_variable i h)

/-- A successful `register` call as a step of the interface, with the store it
leaves. -/
theorem pse_step_register_eq {G : Type} (R : ranlib G) (fuel : Nat) (pse : pse_agent_stub)
    (g : G) (u : pse_uninit) (storage : pse_storage_type)
    (model : pse_model_type) (locality : pse_locality_type)
    (point_distribution : pse_distribution_type) (point_parameters : pse_params)
    (array : pse_array_type) (size : Nat) (read_and_alter : Nat)
    (array_distribution : pse_distribution_type) (array_parameters : pse_params)
    (name : c_string)
    (hst : pse.state = INITIALIZED) (hinv : pse_inv pse)
    (hlim : pse.var_limit < PSE_MAX_VARIABLES) (hname : strlen name < PSE_VARNAME_SIZE) :
    pse_step R fuel pse g (pse_call.register u storage model locality
        point_distribution point_parameters array size read_and_alter array_distribution
        array_parameters name) =
      .ok ({ pse with
              variables_ := pse.variables_.put pse.var_limit (pse_ptr.live
                { storage := storage,
                  model := model,
                  locality := locality,
                  point_distribution := point_distribution,
                  point_parameters := point_parameters,
                  has_dependencies := PSE_FALSE,
                  read_and_alter := read_and_alter,
                  name := c_str name,
                  content := pse_alloc u storage array size,
                  array := array,
                  size := size,
                  array_distribution :=
                    if array = PSE_ARRAY then array_distribution else PSE_DIST_NONE,
                  array_parameters := array_parameters }),
              var_count := pse.var_count + 1,
              var_limit := pse.var_limit + 1 }, g,
           { code := pse.var_limit, output := none }) := by
  have hreg := pse_register_fresh pse u storage model locality point_distribution
    point_parameters array size read_and_alter array_distribution array_parameters name
    hst hinv hlim hname
  simp only [pse_step, hreg]

theorem null_clear (α : Type) : (pse_table.null α).clear = pse_table.null α := by
  have h := clear_cells (pse_table.null α)
  unfold pse_table.null at h ⊢
  cases hc : (pse_table.clear ⟨List.replicate PSE_MAX_VARIABLES pse_ptr.NULL, by simp⟩ :
    pse_table α) with
  | mk cells size_eq =>
    rw [hc] at h
    simp only at h
    subst h
    rfl

theorem init_zeroed :
    (pse_init pse_zeroed).1 =
      { state := INITIALIZED, var_count := 0, var_limit := 0,
        variables_ := pse_table.null pse_variable,
        dependencies := pse_table.null pse_dependency } := by
  simp [pse_init, pse_zeroed, null_clear]

/-- The store `pse_holding` is what a client holds after `init` and one
`register`. -/
theorem reachable_holding (storage : pse_storage_type) (model : pse_model_type)
    (locality : pse_locality_type) (point_distribution : pse_distribution_type)
    (array : pse_array_type) (read_and_alter : Nat) :
    Reachable ranlib_demo
      (pse_holding INITIALIZED
        (var_demo storage model locality point_distribution array read_and_alter)) 0 := by
  have hr0 : Reachable ranlib_demo (pse_init pse_zeroed).1 0 := Reachable.init pse_zeroed 0 rfl
  have hstep := pse_step_register_eq ranlib_demo 0 (pse_init pse_zeroed).1 0 uninit_demo
    storage model locality point_distribution params_demo array 2 read_and_alter
    PSE_DIST_NONE params_demo [118] rfl (reachable_inv _ _ _ hr0) (by decide) (by decide)
  have hr1 := Reachable.step 0 _ 0 _ _ 0 _ hr0 hstep
  rw [init_zeroed] at hr1
  exact hr1

/-- The same store after `start (103, 29)`. -/
theorem reachable_holding_started (storage : pse_storage_type) (model : pse_model_type)
    (locality : pse_locality_type) (point_distribution : pse_distribution_type)
    (array : pse_array_type) (read_and_alter : Nat) :
    Reachable ranlib_demo
      (pse_holding STARTED
        (var_demo storage model locality point_distribution array read_and_alter)) 132 := by
  have hr1 := reachable_holding storage model locality point_distribution array read_and_alter
  have hstep : pse_step ranlib_demo 0
      (pse_holding INITIALIZED
        (var_demo storage model locality point_distribution array read_and_alter)) 0
      (pse_call.start 103 29) =
      .ok (pse_holding STARTED
        (var_demo storage model locality point_distribution array read_and_alter), 132,
        { code := 0, output := none }) := rfl
  exact Reachable.step 0 _ 0 _ _ 132 _ hr1 hstep

/-! ## Claims on prepare -/

/-- C17: on a Started store `pse_prepare` reports VariableUnknown when the slot
of the id is NULL and TypeMismatch when the slot holds a variable whose storage
kind is not the one passed; the store and the generator are unchanged. -/
theorem C17_prepare_unknown_or_mismatch {G : Type} (R : ranlib G) (fuel : Nat)
    (pse : pse_agent_stub) (g : G) (varid : Int) (content : pse_content) (location : Nat)
    (storage : pse_storage_type) (hst : pse.state = STARTED) :
    (pse.variables_.get varid = .ok pse_ptr.NULL →
      pse_prepare R fuel pse g varid content location storage =
        .ok (pse, g, PSE_ERROR_VARIABLE_UNKNOWN)) ∧
    (∀ v, pse.variables_.get varid = .ok (pse_ptr.live v) → v.storage ≠ storage →
      pse_prepare R fuel pse g varid content location storage =
        .ok (pse, g, PSE_ERROR_TYPE_MISMATCH)) := by
  constructor
  · intro h
    unfold pse_prepare
    simp [hst, h]
  · intro v h hne
    unfold pse_prepare
    simp [hst, h, hne]

theorem C17_prepare_unknown_or_mismatch_witness :
    pse_prepare ranlib_demo 0
        (pse_holding STARTED (var_demo PSE_VAR_DOUBLE PSE_VAR_STOCHASTIC PSE_AGENT PSE_DIST_NORMAL
          PSE_SCALAR PSE_FALSE)) 0 (1 : Nat) (pse_content.cint 5) 0 PSE_VAR_INT =
      .ok (pse_holding STARTED (var_demo PSE_VAR_DOUBLE PSE_VAR_STOCHASTIC PSE_AGENT PSE_DIST_NORMAL
          PSE_SCALAR PSE_FALSE), 0, PSE_ERROR_VARIABLE_UNKNOWN) ∧
    pse_prepare ranlib_demo 0
        (pse_holding STARTED (var_demo PSE_VAR_DOUBLE PSE_VAR_STOCHASTIC PSE_AGENT PSE_DIST_NORMAL
          PSE_SCALAR PSE_FALSE)) 0 0 (pse_content.cint 5) 0 PSE_VAR_INT =
      .ok (pse_holding STARTED (var_demo PSE_VAR_DOUBLE PSE_VAR_STOCHASTIC PSE_AGENT PSE_DIST_NORMAL
          PSE_SCALAR PSE_FALSE), 0, PSE_ERROR_TYPE_MISMATCH) :=
  ⟨(C17_prepare_unknown_or_mismatch ranlib_demo 0 _ 0 (1 : Nat) (pse_content.cint 5) 0
      PSE_VAR_INT rfl).1 (holding_get_other _ _ 1 (by decide) (by decide)),
   (C17_prepare_unknown_or_mismatch ranlib_demo 0 _ 0 0 (pse_content.cint 5) 0
      PSE_VAR_INT rfl).2 _ (holding_get _ _) (by decide)⟩

/-- Observing a Deterministic Scalar variable of a numeric storage kind leaves
the store and the generator as they are and reports Ok. -/
theorem pse_observe_deterministic_scalar {G : Type} (R : ranlib G) (fuel : Nat)
    (pse : pse_agent_stub) (g : G) (varid : Int) (w : pse_variable) (location : Nat)
    (ptr_out : pse_variable) (hst : pse.state = STARTED)
    (hget : pse.variables_.get varid = .ok (pse_ptr.live w))
    (hdet : w.model = PSE_VAR_DETERMINISTIC) (hsc : w.array = PSE_SCALAR)
    (hsto : w.storage ≠ PSE_VAR_STRING) :
    pse_observe R fuel pse g varid location ptr_out =
      .ok (pse, g, pse_output.overlaid (pse_sizeof w).toNat w.content ptr_out, PSE_ERROR_OK) := by
  have hsz : pse_sizeof w = 4 ∨ pse_sizeof w = 8 := by
    unfold pse_sizeof
    rw [hsc]
    cases hs : w.storage <;> simp_all [SIZEOF_INT, SIZEOF_DOUBLE]
  unfold pse_observe
  rcases hsz with h | h <;> simp [hst, hget, hdet, h, SIZEOF_CONTENT]

/-- Any number of `pse_observe` calls on such a variable, as a run. -/
theorem pse_run_observe_deterministic {G : Type} (R : ranlib G) (fuel : Nat)
    (pse : pse_agent_stub) (g : G) (varid : Int) (w : pse_variable)
    (hst : pse.state = STARTED)
    (hget : pse.variables_.get varid = .ok (pse_ptr.live w))
    (hdet : w.model = PSE_VAR_DETERMINISTIC) (hsc : w.array = PSE_SCALAR)
    (hsto : w.storage ≠ PSE_VAR_STRING) :
    ∀ obs : List (Nat × pse_variable),
      ∃ rs, pse_run R fuel pse g (obs.map (fun o => pse_call.observe varid o.1 o.2)) =
          .ok (pse, g, rs) ∧ rs.length = obs.length ∧
        ∀ r ∈ rs, r.code = PSE_ERROR_OK.toInt := by
  intro obs
  induction obs with
  | nil => exact ⟨[], rfl, rfl, by simp⟩
  | cons o obs ih =>
    obtain ⟨rs, h1, h2, h3⟩ := ih
    have hobs := pse_observe_deterministic_scalar R fuel pse g varid w o.1 o.2 hst hget hdet
      hsc hsto
    refine ⟨{ code := PSE_ERROR_OK.toInt,
              output := some (pse_output.overlaid (pse_sizeof w).toNat w.content o.2) } :: rs,
      ?_, ?_, ?_⟩
    · simp only [List.map_cons, pse_run, pse_step, hobs, h1]
    · simp [h2]
    · intro r hr
      rcases List.mem_cons.mp hr with h | h
      · rw [h]
      · exact h3 r h

/-- The result of `pse_prepare` on a Scalar variable of a numeric storage kind. -/
theorem pse_prepare_scalar_ok {G : Type} (R : ranlib G) (fuel : Nat)
    (pse : pse_agent_stub) (g : G) (varid : Int) (var : pse_variable) (content c : pse_content)
    (location : Nat) (hst : pse.state = STARTED)
    (hget : pse.variables_.get varid = .ok (pse_ptr.live var))
    (hsc : var.array = PSE_SCALAR) (hc : pse_prepare_scalar var content = .ok c) :
    pse_prepare R fuel pse g varid content location var.storage =
      .ok ({ pse with
              variables_ := pse.variables_.put varid (pse_ptr.live { var with content := c }) },
           g, PSE_ERROR_OK) := by
  unfold pse_prepare
  simp [hst, hget, hsc, hc]

/-- C20: on a Started store, for a live Deterministic Scalar variable of storage
Int, Double or Time, `pse_prepare` with a value `x` (whatever the index passed)
reports Ok, the reader of that storage kind then returns `x`, and any number of
`pse_observe` calls on the variable report Ok and leave the store as it is, so
that the reader still returns `x`. -/
theorem C20_deterministic_scalar_readback {G : Type} (R : ranlib G) (fuel : Nat)
    (pse : pse_agent_stub) (g : G) (varid : Int) (var : pse_variable) (location : Nat)
    (hst : pse.state = STARTED)
    (hget : pse.variables_.get varid = .ok (pse_ptr.live var))
    (hdet : var.model = PSE_VAR_DETERMINISTIC) (hsc : var.array = PSE_SCALAR) :
    (var.storage = PSE_VAR_INT → ∀ x : Int, ∃ s1,
      pse_prepare R fuel pse g varid (pse_content.cint x) location PSE_VAR_INT =
        .ok (s1, g, PSE_ERROR_OK) ∧
      pse_read_int s1 varid = .ok x ∧
      ∀ obs : List (Nat × pse_variable), ∃ rs,
        pse_run R fuel s1 g (obs.map (fun o => pse_call.observe varid o.1 o.2)) =
          .ok (s1, g, rs) ∧ rs.length = obs.length ∧
        ∀ r ∈ rs, r.code = PSE_ERROR_OK.toInt) ∧
    (var.storage = PSE_VAR_DOUBLE → ∀ x : pse_double, ∃ s1,
      pse_prepare R fuel pse g varid (pse_content.cdouble x) location PSE_VAR_DOUBLE =
        .ok (s1, g, PSE_ERROR_OK) ∧
      pse_read_double s1 varid = .ok x ∧
      ∀ obs : List (Nat × pse_variable), ∃ rs,
        pse_run R fuel s1 g (obs.map (fun o => pse_call.observe varid o.1 o.2)) =
          .ok (s1, g, rs) ∧ rs.length = obs.length ∧
        ∀ r ∈ rs, r.code = PSE_ERROR_OK.toInt) ∧
    (var.storage = PSE_VAR_TIME → ∀ x : pse_double, ∃ s1,
      pse_prepare R fuel pse g varid (pse_content.ctime x) location PSE_VAR_TIME =
        .ok (s1, g, PSE_ERROR_OK) ∧
      pse_read_time s1 varid = .ok x ∧
      ∀ obs : List (Nat × pse_variable), ∃ rs,
        pse_run R fuel s1 g (obs.map (fun o => pse_call.observe varid o.1 o.2)) =
          .ok (s1, g, rs) ∧ rs.length = obs.length ∧
        ∀ r ∈ rs, r.code = PSE_ERROR_OK.toInt) := by
  refine ⟨?_, ?_, ?_⟩
  · intro hs x
    have hp := pse_prepare_scalar_ok R fuel pse g varid var (pse_content.cint x)
      (pse_content.cint x) location hst hget hsc (by simp [pse_prepare_scalar, hs])
    have hg := get_put_same pse.variables_ varid _
      (pse_ptr.live { var with content := pse_content.cint x }) hget
    rw [hs] at hp hg
    refine ⟨_, hp, ?_, ?_⟩
    · unfold pse_read_int
      simp only [hg]
    · exact pse_run_observe_deterministic R fuel _ g varid _ hst hg hdet hsc
        (by simp [hs])
  · intro hs x
    have hp := pse_prepare_scalar_ok R fuel pse g varid var (pse_content.cdouble x)
      (pse_content.cdouble x) location hst hget hsc (by simp [pse_prepare_scalar, hs])
    have hg := get_put_same pse.variables_ varid _
      (pse_ptr.live { var with content := pse_content.cdouble x }) hget
    rw [hs] at hp hg
    refine ⟨_, hp, ?_, ?_⟩
    · unfold pse_read_double
      simp only [hg]
    · exact pse_run_observe_deterministic R fuel _ g varid _ hst hg hdet hsc
        (by simp [hs])
  · intro hs x
    have hp := pse_prepare_scalar_ok R fuel pse g varid var (pse_content.ctime x)
      (pse_content.ctime x) location hst hget hsc (by simp [pse_prepare_scalar, hs])
    have hg := get_put_same pse.variables_ varid _
      (pse_ptr.live { var with content := pse_content.ctime x }) hget
    rw [hs] at hp hg
    refine ⟨_, hp, ?_, ?_⟩
    · unfold pse_read_time
      simp only [hg]
    · exact pse_run_observe_deterministic R fuel _ g varid _ hst hg hdet hsc
        (by simp [hs])

theorem C20_deterministic_scalar_readback_witness :
    ∃ s1,
      pse_prepare ranlib_demo 0
        (pse_holding STARTED (var_demo PSE_VAR_TIME PSE_VAR_DETERMINISTIC PSE_AGENT PSE_DIST_NONE
          PSE_SCALAR PSE_FALSE)) 0 0 (pse_content.ctime ⟨0x404B400000000000⟩) 0
        PSE_VAR_TIME = .ok (s1, 0, PSE_ERROR_OK) ∧
      pse_read_time s1 0 = .ok ⟨0x404B400000000000⟩ := by
  obtain ⟨s1, h1, h2, _⟩ := (C20_deterministic_scalar_readback ranlib_demo 0
    (pse_holding STARTED (var_demo PSE_VAR_TIME PSE_VAR_DETERMINISTIC PSE_AGENT PSE_DIST_NONE
      PSE_SCALAR PSE_FALSE)) 0 0 _ 0 rfl (holding_get _ _) rfl rfl).2.2 rfl
    ⟨0x404B400000000000⟩
  exact ⟨s1, h1, h2⟩

/-! ## Claims on dependencies -/

/-- C13: on an Initialized store `pse_add_dependencies` returns VariableUnknown
when the variable slot of the id is NULL; otherwise DependencyAlreadyExists when
the dependency slot of the id is not NULL; otherwise DependencyNotWorld when the
variable is Agent-scoped; the store is unchanged in these three cases. Otherwise
(the variable is World-scoped; the `count` entries exist in the list passed and
fit the record) it returns Ok, the dependency slot holds a record with the
count, the first `count` conditioning ids in their order and no prior, the
variable has its dependent flag set, and nothing else changes. -/
theorem C13_add_dependencies_contract (pse : pse_agent_stub) (varid : Int)
    (conditionals : List Int) (count : Nat) (hst : pse.state = INITIALIZED) :
    (pse.variables_.get varid = .ok pse_ptr.NULL →
      pse_add_dependencies pse varid conditionals count =
        .ok (pse, PSE_ERROR_VARIABLE_UNKNOWN)) ∧
    (∀ v pd, pse.variables_.get varid = .ok (pse_ptr.live v) →
      pse.dependencies.get varid = .ok pd → pd ≠ pse_ptr.NULL →
      pse_add_dependencies pse varid conditionals count =
        .ok (pse, PSE_ERROR_DEPENDENCY_ALREADY_EXISTS)) ∧
    (∀ v, pse.variables_.get varid = .ok (pse_ptr.live v) →
      pse.dependencies.get varid = .ok pse_ptr.NULL → v.locality = PSE_AGENT →
      pse_add_dependencies pse varid conditionals count =
        .ok (pse, PSE_ERROR_DEPENDENCY_NOT_WORLD)) ∧
    (∀ v, pse.variables_.get varid = .ok (pse_ptr.live v) →
      pse.dependencies.get varid = .ok pse_ptr.NULL → v.locality = PSE_WORLD →
      count ≤ conditionals.length → count ≤ PSE_MAX_VARIABLES →
      pse_add_dependencies pse varid conditionals count =
        .ok ({ state := pse.state,
               var_count := pse.var_count,
               var_limit := pse.var_limit,
               variables_ := pse.variables_.put varid
                 (pse_ptr.live { v with has_dependencies := PSE_TRUE }),
               dependencies := pse.dependencies.put varid
                 (pse_ptr.live { count := count,
                                 conditionals := conditionals.take count,
                                 priors := none }) },
             PSE_ERROR_OK)) := by
  refine ⟨?_, ?_, ?_, ?_⟩
  · intro h
    unfold pse_add_dependencies
    simp [hst, h]
  · intro v pd hv hd hne
    unfold pse_add_dependencies
    cases pd with
    | NULL => exact absurd rfl hne
    | live d => simp [hst, hv, hd]
    | freed => simp [hst, hv, hd]
  · intro v hv hd hl
    unfold pse_add_dependencies
    simp [hst, hv, hd, pse_is_world_var, hl, PSE_TRUE, PSE_FALSE]
  · intro v hv hd hl h1 h2
    unfold pse_add_dependencies
    simp [hst, hv, hd, pse_is_world_var, hl, PSE_TRUE, PSE_FALSE, h1, h2]

theorem C13_add_dependencies_contract_witness :
    pse_add_dependencies
        (pse_holding INITIALIZED (var_demo PSE_VAR_INT PSE_VAR_STOCHASTIC PSE_WORLD PSE_DIST_NONE
          PSE_SCALAR PSE_FALSE)) (1 : Nat) [3, 1] 2 =
      .ok (pse_holding INITIALIZED (var_demo PSE_VAR_INT PSE_VAR_STOCHASTIC PSE_WORLD PSE_DIST_NONE
          PSE_SCALAR PSE_FALSE), PSE_ERROR_VARIABLE_UNKNOWN) ∧
    ∃ s1, pse_add_dependencies
        (pse_holding INITIALIZED (var_demo PSE_VAR_INT PSE_VAR_STOCHASTIC PSE_WORLD PSE_DIST_NONE
          PSE_SCALAR PSE_FALSE)) 0 [3, 1] 2 = .ok (s1, PSE_ERROR_OK) ∧
      s1.dependencies.get 0 =
        .ok (pse_ptr.live { count := 2, conditionals := [3, 1], priors := none }) :=
  ⟨(C13_add_dependencies_contract _ (1 : Nat) [3, 1] 2 rfl).1
      (holding_get_other _ _ 1 (by decide) (by decide)),
   _,
   (C13_add_dependencies_contract _ 0 [3, 1] 2 rfl).2.2.2 _ (holding_get _ _)
      (null_get pse_dependency 0 (by decide)) rfl (by decide) (by decide),
   get_put_eq _ 0 _ (by decide)⟩

/-- A store a client can reach: after `init`, a World-scoped Array Int variable
of size 2 is registered under id 0 and an Agent-scoped Scalar Double variable
under id 1; no dependency is recorded. -/
theorem reachable_pair :
    ∃ (pse : pse_agent_stub) (v0 v1 : pse_variable),
      Reachable ranlib_demo pse 0 ∧ pse.state = INITIALIZED ∧
      pse.var_count = 2 ∧ pse.var_limit = 2 ∧
      pse.variables_.get 0 = .ok (pse_ptr.live v0) ∧
      pse.variables_.get 1 = .ok (pse_ptr.live v1) ∧
      pse.dependencies.get 0 = .ok pse_ptr.NULL ∧
      pse.dependencies.get 1 = .ok pse_ptr.NULL ∧
      v0 = { storage := PSE_VAR_INT, model := PSE_VAR_STOCHASTIC, locality := PSE_WORLD,
             point_distribution := PSE_DIST_NONE, point_parameters := params_demo,
             has_dependencies := PSE_FALSE, read_and_alter := PSE_FALSE, name := [119],
             content := pse_content.cint_a [0, 0], array := PSE_ARRAY, size := 2,
             array_distribution := PSE_DIST_NONE, array_parameters := params_demo } ∧
      v1 = { storage := PSE_VAR_DOUBLE, model := PSE_VAR_STOCHASTIC, locality := PSE_AGENT,
             point_distribution := PSE_DIST_NORMAL_SELF, point_parameters := params_demo,
             has_dependencies := PSE_FALSE, read_and_alter := PSE_TRUE, name := [97],
             content := pse_content.cdouble ⟨0⟩, array := PSE_SCALAR, size := 1,
             array_distribution := PSE_DIST_NONE, array_parameters := params_demo } := by
  have hr0 : Reachable ranlib_demo (pse_init pse_zeroed).1 0 := Reachable.init pse_zeroed 0 rfl
  have hinv0 := reachable_inv _ _ _ hr0
  have hstep1 := pse_step_register_eq ranlib_demo 0 (pse_init pse_zeroed).1 0 uninit_demo
    PSE_VAR_INT PSE_VAR_STOCHASTIC PSE_WORLD PSE_DIST_NONE params_demo PSE_ARRAY 2 PSE_FALSE
    PSE_DIST_NONE params_demo [119] rfl hinv0 (by decide) (by decide)
  have hr1 := Reachable.step 0 _ 0 _ _ 0 _ hr0 hstep1
  have hinv1 := reachable_inv _ _ _ hr1
  have hstep2 := pse_step_register_eq ranlib_demo 0 _ 0 uninit_demo PSE_VAR_DOUBLE
    PSE_VAR_STOCHASTIC PSE_AGENT PSE_DIST_NORMAL_SELF params_demo PSE_SCALAR 1 PSE_TRUE
    PSE_DIST_NONE params_demo [97] rfl hinv1 (by decide) (by decide)
  have hr2 := Reachable.step 0 _ 0 _ _ 0 _ hr1 hstep2
  refine ⟨_, _, _, hr2, rfl, rfl, rfl, ?_, ?_, ?_, ?_, rfl, rfl⟩
  · show (((pse_init pse_zeroed).1.variables_.put (0 : Nat) _).put (1 : Nat) _).get 0 = _
    rw [get_put_ne _ 1 _ 0 (by decide)]
    exact get_put_eq _ 0 _ (by decide)
  · exact get_put_eq _ 1 _ (by decide)
  · exact clear_get pse_zeroed.dependencies 0 (by decide)
  · exact clear_get pse_zeroed.dependencies 1 (by decide)

/-- A successful `pse_add_dependencies`, with the store it leaves. -/
theorem pse_add_dependencies_ok (pse : pse_agent_stub) (varid : Int) (conditionals : List Int)
    (count : Nat) (v : pse_variable) (hst : pse.state = INITIALIZED)
    (hv : pse.variables_.get varid = .ok (pse_ptr.live v))
    (hd : pse.dependencies.get varid = .ok pse_ptr.NULL) (hl : v.locality = PSE_WORLD)
    (h1 : count ≤ conditionals.length) (h2 : count ≤ PSE_MAX_VARIABLES) :
    pse_add_dependencies pse varid conditionals count =
      .ok ({ state := pse.state,
             var_count := pse.var_count,
             var_limit := pse.var_limit,
             variables_ := pse.variables_.put varid
               (pse_ptr.live { v with has_dependencies := PSE_TRUE }),
             dependencies := pse.dependencies.put varid
               (pse_ptr.live { count := count,
                               conditionals := conditionals.take count,
                               priors := none }) },
           PSE_ERROR_OK) := by
  unfold pse_add_dependencies
  simp [hst, hv, hd, pse_is_world_var, hl, PSE_TRUE, PSE_FALSE, h1, h2]

/-- What a successful `pse_add_dependencies` tells about the store it was
called on. -/
theorem pse_add_dependencies_ok_inv (pse : pse_agent_stub) (varid : Int)
    (conditionals : List Int) (count : Nat) (s1 : pse_agent_stub)
    (h : pse_add_dependencies pse varid conditionals count = .ok (s1, PSE_ERROR_OK)) :
    pse.state = INITIALIZED ∧
    ∃ v, pse.variables_.get varid = .ok (pse_ptr.live v) ∧ v.locality = PSE_WORLD ∧
      pse.dependencies.get varid = .ok pse_ptr.NULL ∧
      count ≤ conditionals.length ∧ count ≤ PSE_MAX_VARIABLES := by
  unfold pse_add_dependencies at h
  split at h
  · cases h
  split at h
  · cases h
  split at h
  · cases h
  have hst := state_cases_initialized pse ‹_› ‹_› ‹_›
  refine ⟨hst, ?_⟩
  cases hv : pse.variables_.get varid with
  | error e => simp [hv] at h
  | ok pv =>
    cases hd : pse.dependencies.get varid with
    | error e => cases pv <;> simp [hv, hd] at h
    | ok pd =>
      cases pv with
      | NULL => simp [hv] at h
      | freed => cases pd <;> simp [hv, hd] at h
      | live v =>
        cases pd with
        | live d => simp [hv, hd] at h
        | freed => simp [hv, hd] at h
        | NULL =>
          simp only [hv, hd] at h
          refine ⟨v, rfl, ?_⟩
          cases hl : v.locality with
          | PSE_AGENT => simp [pse_is_world_var, hl, PSE_TRUE, PSE_FALSE] at h
          | PSE_WORLD =>
            refine ⟨rfl, rfl, ?_⟩
            by_contra hc
            simp [pse_is_world_var, hl, PSE_TRUE, PSE_FALSE] at h
            split at h
            · rename_i hh; exact hc ⟨hh.2, hh.1⟩
            · cases h

/-- C14 (as amended): `pse_add_dependencies` succeeds only if the id it is given,
the owner of the dependency, refers to a live World-scoped variable whose
dependency slot is NULL; the conditioning ids are copied as they are passed and
are not looked at: with any other list holding `count` entries the call succeeds
as well. -/
theorem C14_add_dependencies_checks_owner_only (pse : pse_agent_stub) (varid : Int)
    (conditionals : List Int) (count : Nat) (s1 : pse_agent_stub)
    (hst : pse.state = INITIALIZED)
    (h : pse_add_dependencies pse varid conditionals count = .ok (s1, PSE_ERROR_OK)) :
    ∃ v, pse.variables_.get varid = .ok (pse_ptr.live v) ∧ v.locality = PSE_WORLD ∧
      pse.dependencies.get varid = .ok pse_ptr.NULL ∧
      s1.dependencies.get varid =
        .ok (pse_ptr.live { count := count,
                            conditionals := conditionals.take count,
                            priors := none }) ∧
      ∀ others : List Int, count ≤ others.length →
        ∃ s2, pse_add_dependencies pse varid others count = .ok (s2, PSE_ERROR_OK) := by
  obtain ⟨_, v, hv, hl, hd, h1, h2⟩ := pse_add_dependencies_ok_inv pse varid conditionals
    count s1 h
  have heq := pse_add_dependencies_ok pse varid conditionals count v hst hv hd hl h1 h2
  rw [heq] at h
  cases h
  refine ⟨v, hv, hl, hd, get_put_same _ _ _ _ hd, ?_⟩
  intro others ho
  exact ⟨_, pse_add_dependencies_ok pse varid others count v hst hv hd hl ho h2⟩

theorem C14_add_dependencies_checks_owner_only_witness :
    ∃ s1, pse_add_dependencies
        (pse_holding INITIALIZED (var_demo PSE_VAR_INT PSE_VAR_STOCHASTIC PSE_WORLD
          PSE_DIST_NONE PSE_SCALAR PSE_FALSE)) 0 [7] 1 = .ok (s1, PSE_ERROR_OK) ∧
      s1.dependencies.get 0 =
        .ok (pse_ptr.live { count := 1, conditionals := [7], priors := none }) := by
  have h := pse_add_dependencies_ok
    (pse_holding INITIALIZED (var_demo PSE_VAR_INT PSE_VAR_STOCHASTIC PSE_WORLD
      PSE_DIST_NONE PSE_SCALAR PSE_FALSE)) 0 [7] 1 _ rfl (holding_get _ _)
    (null_get pse_dependency 0 (by decide)) rfl (by decide) (by decide)
  obtain ⟨_, _, _, _, h4, _⟩ := C14_add_dependencies_checks_owner_only _ 0 [7] 1 _ rfl h
  exact ⟨_, h, h4⟩

/-- C14 (counterexample): on a store a client can reach, `pse_add_dependencies`
succeeds for the World-scoped variable 0 with the conditioning id 1, and the
variable with id 1 is Agent-scoped. -/
theorem C14_conditioning_id_agent_scoped :
    ∃ (pse s1 : pse_agent_stub) (d : pse_dependency) (v : pse_variable),
      Reachable ranlib_demo pse 0 ∧ pse.state = INITIALIZED ∧
      pse_add_dependencies pse 0 [1] 1 = .ok (s1, PSE_ERROR_OK) ∧
      s1.dependencies.get 0 = .ok (pse_ptr.live d) ∧ d.conditionals = [1] ∧
      s1.variables_.get 1 = .ok (pse_ptr.live v) ∧ v.locality = PSE_AGENT := by
  obtain ⟨pse, v0, v1, hr, hst, _, _, hg0, hg1, hd0, _, hv0, hv1⟩ := reachable_pair
  have hl0 : v0.locality = PSE_WORLD := by rw [hv0]
  have hadd := pse_add_dependencies_ok pse 0 [1] 1 v0 hst hg0 hd0 hl0 (by decide) (by decide)
  refine ⟨pse, _, _, v1, hr, hst, hadd, get_put_same _ _ _ _ hd0, rfl, ?_, by rw [hv1]⟩
  show (pse.variables_.put 0 _).get 1 = _
  rw [get_put_other _ 0 1 _ (le_refl _) (by decide)]
  exact hg1

/-! ## Claims on deregistration -/

/-- C11 (failing input): on an Initialized store with live count 0, here the
store right after `init`, `pse_deregister` returns TooManyVariables for the
empty slot 0, not VariableUnknown; the guard on the live count comes first.
With a live count other than 0 an empty slot does give VariableUnknown, and the
store is unchanged either way. -/
theorem C11_deregister_on_empty_store :
    (Reachable ranlib_demo (pse_init pse_zeroed).1 0 ∧
      (pse_init pse_zeroed).1.state = INITIALIZED ∧
      (pse_init pse_zeroed).1.variables_.get 0 = .ok pse_ptr.NULL ∧
      pse_deregister (pse_init pse_zeroed).1 0 =
        .ok ((pse_init pse_zeroed).1, PSE_ERROR_TOO_MANY_VARIABLES)) ∧
    (∀ (pse : pse_agent_stub) (varid : Int), pse.state = INITIALIZED → pse.var_count = 0 →
      pse_deregister pse varid = .ok (pse, PSE_ERROR_TOO_MANY_VARIABLES)) ∧
    (∀ (pse : pse_agent_stub) (varid : Int), pse.state = INITIALIZED → pse.var_count ≠ 0 →
      pse.variables_.get varid = .ok pse_ptr.NULL →
      pse_deregister pse varid = .ok (pse, PSE_ERROR_VARIABLE_UNKNOWN)) := by
  have hgen : ∀ (pse : pse_agent_stub) (varid : Int), pse.state = INITIALIZED →
      pse.var_count = 0 →
      pse_deregister pse varid = .ok (pse, PSE_ERROR_TOO_MANY_VARIABLES) := by
    intro pse varid hst hc
    unfold pse_deregister
    simp [hst, hc]
  refine ⟨⟨Reachable.init pse_zeroed 0 rfl, rfl, ?_, hgen _ 0 rfl rfl⟩, hgen, ?_⟩
  · exact clear_get pse_zeroed.variables_ 0 (by decide)
  · intro pse varid hst hc hg
    unfold pse_deregister
    simp [hst, hc, hg]

/-- C12 (failing input): `pse_deregister` of a live Scalar variable of storage
Int, Double or Time returns TypeUnknown and leaves the variable registered (the
`switch` for Scalar variables has a `case` for String only); so it does for the
Scalar Double variable 1 of a store a client can reach. For an Array variable
or a String variable it returns Ok, empties the slot and lowers the live count
by 1. -/
theorem C12_deregister_scalar_type_unknown :
    (∀ (pse : pse_agent_stub) (varid : Int) (v : pse_variable), pse.state = INITIALIZED →
      pse.var_count ≠ 0 → pse.variables_.get varid = .ok (pse_ptr.live v) →
      v.array = PSE_SCALAR → v.storage ≠ PSE_VAR_STRING →
      pse_deregister pse varid = .ok (pse, PSE_ERROR_TYPE_UNKNOWN)) ∧
    (∃ (pse : pse_agent_stub) (v : pse_variable),
      Reachable ranlib_demo pse 0 ∧ pse.state = INITIALIZED ∧
      pse.variables_.get 1 = .ok (pse_ptr.live v) ∧
      v.array = PSE_SCALAR ∧ v.storage = PSE_VAR_DOUBLE ∧
      pse_deregister pse 1 = .ok (pse, PSE_ERROR_TYPE_UNKNOWN)) ∧
    (∀ (pse : pse_agent_stub) (varid : Int) (v : pse_variable), pse.state = INITIALIZED →
      pse.var_count ≠ 0 → pse.variables_.get varid = .ok (pse_ptr.live v) →
      v.array = PSE_ARRAY ∨ v.storage = PSE_VAR_STRING →
      pse_deregister pse varid =
        .ok ({ pse with variables_ := pse.variables_.put varid pse_ptr.NULL,
                        var_count := pse.var_count - 1 }, PSE_ERROR_OK)) := by
  have hgen : ∀ (pse : pse_agent_stub) (varid : Int) (v : pse_variable),
      pse.state = INITIALIZED → pse.var_count ≠ 0 →
      pse.variables_.get varid = .ok (pse_ptr.live v) →
      v.array = PSE_SCALAR → v.storage ≠ PSE_VAR_STRING →
      pse_deregister pse varid = .ok (pse, PSE_ERROR_TYPE_UNKNOWN) := by
    intro pse varid v hst hc hg ha hs
    unfold pse_deregister
    simp [hst, hc, hg, ha, hs]
  refine ⟨hgen, ?_, ?_⟩
  · obtain ⟨pse, v0, v1, hr, hst, hc, _, _, hg1, _, _, _, hv1⟩ := reachable_pair
    refine ⟨pse, v1, hr, hst, hg1, by rw [hv1], by rw [hv1], ?_⟩
    exact hgen pse 1 v1 hst (by rw [hc]; decide) hg1 (by rw [hv1]) (by rw [hv1]; decide)
  · intro pse varid v hst hc hg ha
    unfold pse_deregister
    simp [hst, hc, hg, ha]

/-- A successful `pse_add_dependencies` as a step of the interface. -/
theorem pse_step_add_dependencies_eq {G : Type} (R : ranlib G) (fuel : Nat)
    (pse : pse_agent_stub) (g : G) (varid : Int) (conditionals : List Int)
    (count : Nat) (v : pse_variable) (hst : pse.state = INITIALIZED)
    (hv : pse.variables_.get varid = .ok (pse_ptr.live v))
    (hd : pse.dependencies.get varid = .ok pse_ptr.NULL) (hl : v.locality = PSE_WORLD)
    (h1 : count ≤ conditionals.length) (h2 : count ≤ PSE_MAX_VARIABLES) :
    pse_step R fuel pse g (pse_call.add_dependencies varid conditionals count) =
      .ok ({ state := pse.state,
             var_count := pse.var_count,
             var_limit := pse.var_limit,
             variables_ := pse.variables_.put varid
               (pse_ptr.live { v with has_dependencies := PSE_TRUE }),
             dependencies := pse.dependencies.put varid
               (pse_ptr.live { count := count,
                               conditionals := conditionals.take count,
                               priors := none }) },
           g, { code := PSE_ERROR_OK.toInt, output := none }) := by
  simp only [pse_step, pse_add_dependencies_ok pse varid conditionals count v hst hv hd hl h1 h2]

/-- A successful `pse_deregister`, with the store it leaves. -/
theorem pse_deregister_ok (pse : pse_agent_stub) (varid : Int) (v : pse_variable)
    (hst : pse.state = INITIALIZED) (hcnt : pse.var_count ≠ 0)
    (hget : pse.variables_.get varid = .ok (pse_ptr.live v))
    (harr : v.array = PSE_ARRAY ∨ v.storage = PSE_VAR_STRING) :
    pse_deregister pse varid =
      .ok ({ state := pse.state,
             var_count := pse.var_count - 1,
             var_limit := pse.var_limit,
             variables_ := pse.variables_.put varid pse_ptr.NULL,
             dependencies := pse.dependencies }, PSE_ERROR_OK) := by
  unfold pse_deregister
  simp [hst, hcnt, hget, harr]

/-- A successful `pse_deregister` as a step of the interface. -/
theorem pse_step_deregister_eq {G : Type} (R : ranlib G) (fuel : Nat)
    (pse : pse_agent_stub) (g : G) (varid : Int) (v : pse_variable)
    (hst : pse.state = INITIALIZED) (hcnt : pse.var_count ≠ 0)
    (hget : pse.variables_.get varid = .ok (pse_ptr.live v))
    (harr : v.array = PSE_ARRAY ∨ v.storage = PSE_VAR_STRING) :
    pse_step R fuel pse g (pse_call.deregister varid) =
      .ok ({ state := pse.state,
             var_count := pse.var_count - 1,
             var_limit := pse.var_limit,
             variables_ := pse.variables_.put varid pse_ptr.NULL,
             dependencies := pse.dependencies },
           g, { code := PSE_ERROR_OK.toInt, output := none }) := by
  simp only [pse_step, pse_deregister_ok pse varid v hst hcnt hget harr]

/-- The step of `pse_step_add_dependencies_eq`, by what it changes. -/
theorem pse_step_add_dependencies_ok {G : Type} (R : ranlib G) (fuel : Nat)
    (pse : pse_agent_stub) (g : G) (varid : Int) (conditionals : List Int)
    (count : Nat) (v : pse_variable) (hst : pse.state = INITIALIZED)
    (hv : pse.variables_.get varid = .ok (pse_ptr.live v))
    (hd : pse.dependencies.get varid = .ok pse_ptr.NULL) (hl : v.locality = PSE_WORLD)
    (h1 : count ≤ conditionals.length) (h2 : count ≤ PSE_MAX_VARIABLES) :
    ∃ s1, pse_step R fuel pse g (pse_call.add_dependencies varid conditionals count) =
        .ok (s1, g, { code := PSE_ERROR_OK.toInt, output := none }) ∧
      pse_add_dependencies pse varid conditionals count = .ok (s1, PSE_ERROR_OK) ∧
      s1.state = INITIALIZED ∧ s1.var_count = pse.var_count ∧ s1.var_limit = pse.var_limit ∧
      s1.variables_ = pse.variables_.put varid
        (pse_ptr.live { v with has_dependencies := PSE_TRUE }) ∧
      s1.dependencies = pse.dependencies.put varid
        (pse_ptr.live { count := count,
                        conditionals := conditionals.take count,
                        priors := none }) :=
  ⟨_, pse_step_add_dependencies_eq R fuel pse g varid conditionals count v hst hv hd hl h1 h2,
    pse_add_dependencies_ok pse varid conditionals count v hst hv hd hl h1 h2,
    hst, rfl, rfl, rfl, rfl⟩

/-- The step of `pse_step_deregister_eq`, by what it changes. -/
theorem pse_step_deregister_changes {G : Type} (R : ranlib G) (fuel : Nat)
    (pse : pse_agent_stub) (g : G) (varid : Int) (v : pse_variable)
    (hst : pse.state = INITIALIZED) (hcnt : pse.var_count ≠ 0)
    (hget : pse.variables_.get varid = .ok (pse_ptr.live v))
    (harr : v.array = PSE_ARRAY ∨ v.storage = PSE_VAR_STRING) :
    ∃ s1, pse_step R fuel pse g (pse_call.deregister varid) =
        .ok (s1, g, { code := PSE_ERROR_OK.toInt, output := none }) ∧
      s1.state = INITIALIZED ∧ s1.var_count = pse.var_count - 1 ∧
      s1.var_limit = pse.var_limit ∧
      s1.variables_ = pse.variables_.put varid pse_ptr.NULL ∧
      s1.dependencies = pse.dependencies :=
  ⟨_, pse_step_deregister_eq R fuel pse g varid v hst hcnt hget harr, hst, rfl, rfl, rfl, rfl⟩

/-- C15 (failing input): a store a client can reach by `init`, `register` of a
World-scoped Array variable (id 0), `register` of a second variable,
`addDependencies (0)` and `deregister (0)`: it is Initialized, the dependency
slot 0 holds a record and the variable slot 0 is NULL. -/
theorem C15_dependency_outlives_variable :
    ∃ (pse : pse_agent_stub) (d : pse_dependency),
      Reachable ranlib_demo pse 0 ∧ pse.state = INITIALIZED ∧
      pse.dependencies.get 0 = .ok (pse_ptr.live d) ∧
      pse.variables_.get 0 = .ok pse_ptr.NULL := by
  obtain ⟨pse, v0, v1, hr, hst, hc, _, hg0, _, hd0, _, hv0, _⟩ := reachable_pair
  have hl0 : v0.locality = PSE_WORLD := by rw [hv0]
  obtain ⟨s1, hstep1, _, a1, a2, _, a4, a5⟩ := pse_step_add_dependencies_ok ranlib_demo 0 pse 0
    0 [] 0 v0 hst hg0 hd0 hl0 (by decide) (by decide)
  have hr1 := Reachable.step 0 _ 0 _ _ 0 _ hr hstep1
  have hg1 : s1.variables_.get 0 = .ok (pse_ptr.live { v0 with has_dependencies := PSE_TRUE }) := by
    rw [a4]; exact get_put_same _ _ _ _ hg0
  obtain ⟨s2, hstep2, b1, _, _, b4, b5⟩ := pse_step_deregister_changes ranlib_demo 0 s1 0 0 _ a1
    (by rw [a2, hc]; decide) hg1 (Or.inl (by rw [hv0]))
  have hr2 := Reachable.step 0 _ 0 _ _ 0 _ hr1 hstep2
  refine ⟨s2, { count := 0, conditionals := List.take 0 [], priors := none }, hr2, b1, ?_, ?_⟩
  · rw [b5, a5]; exact get_put_same _ _ _ _ hd0
  · rw [b4]; exact get_put_same _ _ _ _ hg1

/-- A successful `pse_rm_dependencies`, with the store it leaves: the record is
freed and the slot keeps the pointer. -/
theorem pse_rm_dependencies_ok (pse : pse_agent_stub) (varid : Int) (v : pse_variable)
    (d : pse_dependency) (hst : pse.state = INITIALIZED)
    (hv : pse.variables_.get varid = .ok (pse_ptr.live v))
    (hd : pse.dependencies.get varid = .ok (pse_ptr.live d)) :
    pse_rm_dependencies pse varid =
      .ok ({ state := pse.state,
             var_count := pse.var_count,
             var_limit := pse.var_limit,
             variables_ := pse.variables_.put varid
               (pse_ptr.live { v with has_dependencies := PSE_FALSE }),
             dependencies := pse.dependencies.put varid pse_ptr.freed },
           PSE_ERROR_OK) := by
  unfold pse_rm_dependencies
  simp [hst, hv, hd]

/-- C16 (failing input): on a store a client can reach, with the live
World-scoped variable 0 and no dependency, `addDependencies (0)` and
`removeDependencies (0)` both return Ok, but the dependency slot is left with the
pointer to the freed record instead of NULL: the store is not the one before
the pair, a further `addDependencies (0)` returns DependencyAlreadyExists and a
further `removeDependencies (0)` frees the record a second time. -/
theorem C16_remove_leaves_slot_occupied :
    ∃ (pse s1 s2 : pse_agent_stub),
      Reachable ranlib_demo pse 0 ∧ pse.state = INITIALIZED ∧
      pse.dependencies.get 0 = .ok pse_ptr.NULL ∧
      pse_add_dependencies pse 0 [] 0 = .ok (s1, PSE_ERROR_OK) ∧
      pse_rm_dependencies s1 0 = .ok (s2, PSE_ERROR_OK) ∧
      s2.dependencies.get 0 = .ok pse_ptr.freed ∧
      s2 ≠ pse ∧
      pse_add_dependencies s2 0 [] 0 = .ok (s2, PSE_ERROR_DEPENDENCY_ALREADY_EXISTS) ∧
      pse_rm_dependencies s2 0 = .error pse_fault.dangling := by
  obtain ⟨pse, v0, v1, hr, hst, hc, _, hg0, _, hd0, _, hv0, _⟩ := reachable_pair
  have hl0 : v0.locality = PSE_WORLD := by rw [hv0]
  obtain ⟨s1, _, hadd, a1, a2, a3, a4, a5⟩ := pse_step_add_dependencies_ok ranlib_demo 0 pse 0
    0 [] 0 v0 hst hg0 hd0 hl0 (by decide) (by decide)
  have hg1 : s1.variables_.get 0 = .ok (pse_ptr.live { v0 with has_dependencies := PSE_TRUE }) := by
    rw [a4]; exact get_put_same _ _ _ _ hg0
  have hd1 : s1.dependencies.get 0 = .ok (pse_ptr.live
      { count := 0, conditionals := List.take 0 [], priors := none }) := by
    rw [a5]; exact get_put_same _ _ _ _ hd0
  have hrm := pse_rm_dependencies_ok s1 0 _ _ a1 hg1 hd1
  have hg2 := get_put_same s1.variables_ 0 _
    (pse_ptr.live { ({ v0 with has_dependencies := PSE_TRUE } : pse_variable) with
      has_dependencies := PSE_FALSE }) hg1
  have hd2 := get_put_same s1.dependencies 0 _ (pse_ptr.freed : pse_ptr pse_dependency) hd1
  refine ⟨pse, s1, _, hr, hst, hd0, hadd, hrm, hd2, ?_, ?_, ?_⟩
  · intro hc2
    have := congrArg (fun s => s.dependencies.get 0) hc2
    simp only [hd2, hd0] at this
    cases this
  · unfold pse_add_dependencies
    simp only [a1, hg2, hd2]
    simp
  · unfold pse_rm_dependencies
    simp only [a1, hg2, hd2]
    simp

/-! ## Claims on prepare into arrays -/

/-- C18 (failing input): on a Started store, `pse_prepare` into a live Array
variable with an index at or beyond its size and the right storage kind leaves
Ok in `*error` (the code ArrayOutOfBounds is assigned and overwritten before
the return) and changes nothing; so it does on a store a client can reach, for
index 2 of an Array of size 2. -/
theorem C18_prepare_out_of_range_reports_ok :
    (∀ {G : Type} (R : ranlib G) (fuel : Nat) (pse : pse_agent_stub) (g : G) (varid : Int)
        (v : pse_variable) (content : pse_content) (location : Nat),
      pse.state = STARTED → pse.variables_.get varid = .ok (pse_ptr.live v) →
      v.array = PSE_ARRAY → v.size ≤ location →
      pse_prepare R fuel pse g varid content location v.storage =
        .ok (pse, g, PSE_ERROR_OK)) ∧
    (Reachable ranlib_demo
        (pse_holding STARTED (var_demo PSE_VAR_INT PSE_VAR_STOCHASTIC PSE_AGENT
          PSE_DIST_POISSON PSE_ARRAY PSE_TRUE)) 132 ∧
      (var_demo PSE_VAR_INT PSE_VAR_STOCHASTIC PSE_AGENT PSE_DIST_POISSON PSE_ARRAY
        PSE_TRUE).size = 2 ∧
      pse_prepare ranlib_demo 0
        (pse_holding STARTED (var_demo PSE_VAR_INT PSE_VAR_STOCHASTIC PSE_AGENT
          PSE_DIST_POISSON PSE_ARRAY PSE_TRUE)) 132 0 (pse_content.cint 5) 2 PSE_VAR_INT =
        .ok (pse_holding STARTED (var_demo PSE_VAR_INT PSE_VAR_STOCHASTIC PSE_AGENT
          PSE_DIST_POISSON PSE_ARRAY PSE_TRUE), 132, PSE_ERROR_OK)) := by
  have hgen : ∀ {G : Type} (R : ranlib G) (fuel : Nat) (pse : pse_agent_stub) (g : G)
      (varid : Int) (v : pse_variable) (content : pse_content) (location : Nat),
      pse.state = STARTED → pse.variables_.get varid = .ok (pse_ptr.live v) →
      v.array = PSE_ARRAY → v.size ≤ location →
      pse_prepare R fuel pse g varid content location v.storage =
        .ok (pse, g, PSE_ERROR_OK) := by
    intro G R fuel pse g varid v content location hst hg ha hl
    unfold pse_prepare
    simp [hst, hg, ha, hl]
  refine ⟨hgen, reachable_holding_started _ _ _ _ _ _, rfl, ?_⟩
  exact hgen ranlib_demo 0
    (pse_holding STARTED (var_demo PSE_VAR_INT PSE_VAR_STOCHASTIC PSE_AGENT
      PSE_DIST_POISSON PSE_ARRAY PSE_TRUE)) 132 0
    (var_demo PSE_VAR_INT PSE_VAR_STOCHASTIC PSE_AGENT PSE_DIST_POISSON PSE_ARRAY PSE_TRUE)
    (pse_content.cint 5) 2 rfl (holding_get _ _) rfl (le_refl 2)

/-- The result of `pse_prepare` on an element of a Stochastic Array variable
without dependency whose `read_and_alter` flag is clear: the value is stored as
passed and no draw is taken. -/
theorem pse_prepare_array_immutable {G : Type} (R : ranlib G) (fuel : Nat)
    (pse : pse_agent_stub) (g : G) (varid : Int) (v : pse_variable) (content c : pse_content)
    (location : Nat) (hst : pse.state = STARTED)
    (hget : pse.variables_.get varid = .ok (pse_ptr.live v))
    (harr : v.array = PSE_ARRAY) (hloc : location < v.size)
    (hdep : v.has_dependencies = PSE_FALSE) (hraa : v.read_and_alter = PSE_FALSE)
    (hc : pse_prepare_array v content location = .ok c) :
    pse_prepare R fuel pse g varid content location v.storage =
      .ok ({ pse with
              variables_ := pse.variables_.put varid (pse_ptr.live { v with content := c }) },
           g, PSE_ERROR_OK) := by
  unfold pse_prepare
  cases hm : v.model <;>
    simp [hst, hget, harr, hloc, hdep, hc, pse_randomize_and_alter, hraa, hm]

/-- The result of `pse_prepare` on an element of a Stochastic Array Int variable
without dependency whose `read_and_alter` flag is set. -/
theorem pse_prepare_array_int {G : Type} (R : ranlib G) (fuel : Nat)
    (pse : pse_agent_stub) (g : G) (varid : Int) (v : pse_variable) (xs : List Int) (x : Int)
    (location : Nat) (hst : pse.state = STARTED)
    (hget : pse.variables_.get varid = .ok (pse_ptr.live v))
    (hsto : v.storage = PSE_VAR_INT) (hmod : v.model = PSE_VAR_STOCHASTIC)
    (harr : v.array = PSE_ARRAY) (hloc : location < v.size)
    (hdep : v.has_dependencies = PSE_FALSE) (hraa : v.read_and_alter ≠ PSE_FALSE)
    (hcon : v.content = pse_content.cint_a xs) (hlen : xs.length = v.size) :
    pse_prepare R fuel pse g varid (pse_content.cint x) location PSE_VAR_INT =
      .ok ({ pse with
              variables_ := pse.variables_.put varid (pse_ptr.live
                { v with content := pse_content.cint_a (xs.set location
                    (pse_sample_int_distribution R x v.point_parameters
                      v.point_distribution g).1) }) },
           (pse_sample_int_distribution R x v.point_parameters v.point_distribution g).2,
           PSE_ERROR_OK) := by
  have hl : location < xs.length := by rw [hlen]; exact hloc
  unfold pse_prepare
  simp [hst, hget, hsto, harr, hloc, hdep, hmod, pse_prepare_array, hcon, hl,
    pse_randomize_and_alter, hraa, pse_randomize]

/-- The same for storage Double and Time, whose elements are C doubles. -/
theorem pse_prepare_array_double {G : Type} (R : ranlib G) (fuel : Nat)
    (pse : pse_agent_stub) (g : G) (varid : Int) (v : pse_variable) (xs : List pse_double)
    (x : pse_double) (location : Nat) (hst : pse.state = STARTED)
    (hget : pse.variables_.get varid = .ok (pse_ptr.live v))
    (hsto : v.storage = PSE_VAR_DOUBLE ∨ v.storage = PSE_VAR_TIME)
    (hmod : v.model = PSE_VAR_STOCHASTIC)
    (harr : v.array = PSE_ARRAY) (hloc : location < v.size)
    (hdep : v.has_dependencies = PSE_FALSE) (hraa : v.read_and_alter ≠ PSE_FALSE)
    (hcon : v.content = pse_content.cdouble_a xs) (hlen : xs.length = v.size) :
    pse_prepare R fuel pse g varid (pse_content.cdouble x) location v.storage =
      .ok ({ pse with
              variables_ := pse.variables_.put varid (pse_ptr.live
                { v with content := pse_content.cdouble_a (xs.set location
                    (pse_sample_double_distribution R x v.point_parameters
                      v.point_distribution g).1) }) },
           (pse_sample_double_distribution R x v.point_parameters v.point_distribution g).2,
           PSE_ERROR_OK) := by
  have hl : location < xs.length := by rw [hlen]; exact hloc
  unfold pse_prepare
  rcases hsto with hs | hs <;>
    simp [hst, hget, hs, harr, hloc, hdep, hmod, pse_prepare_array, hcon, hl,
      pse_randomize_and_alter, hraa, pse_randomize]

/-- C19 (as amended): on a Started store, for a live Stochastic Array variable of
storage Int, Double or Time without dependency whose `read_and_alter` flag is
set, and an index below its size, `pse_prepare` with a value `x` reports Ok and
leaves at that index the result of one draw of the point distribution taken
with `x` as the current value; the generator has advanced by that draw. -/
theorem C19_prepare_redraws_mutable_array {G : Type} (R : ranlib G) (fuel : Nat)
    (pse : pse_agent_stub) (g : G) (varid : Int) (v : pse_variable) (location : Nat)
    (hst : pse.state = STARTED)
    (hget : pse.variables_.get varid = .ok (pse_ptr.live v))
    (hmod : v.model = PSE_VAR_STOCHASTIC) (harr : v.array = PSE_ARRAY)
    (hloc : location < v.size) (hdep : v.has_dependencies = PSE_FALSE)
    (hraa : v.read_and_alter ≠ PSE_FALSE) :
    (v.storage = PSE_VAR_INT → ∀ (xs : List Int) (x : Int),
      v.content = pse_content.cint_a xs → xs.length = v.size →
      ∃ s1 v1 ys,
        pse_prepare R fuel pse g varid (pse_content.cint x) location PSE_VAR_INT =
          .ok (s1, (pse_sample_int_distribution R x v.point_parameters
                      v.point_distribution g).2, PSE_ERROR_OK) ∧
        s1.variables_.get varid = .ok (pse_ptr.live v1) ∧
        v1.content = pse_content.cint_a ys ∧
        ys[location]? = some (pse_sample_int_distribution R x v.point_parameters
                      v.point_distribution g).1) ∧
    (v.storage = PSE_VAR_DOUBLE ∨ v.storage = PSE_VAR_TIME →
      ∀ (xs : List pse_double) (x : pse_double),
      v.content = pse_content.cdouble_a xs → xs.length = v.size →
      ∃ s1 v1 ys,
        pse_prepare R fuel pse g varid (pse_content.cdouble x) location v.storage =
          .ok (s1, (pse_sample_double_distribution R x v.point_parameters
                      v.point_distribution g).2, PSE_ERROR_OK) ∧
        s1.variables_.get varid = .ok (pse_ptr.live v1) ∧
        v1.content = pse_content.cdouble_a ys ∧
        ys[location]? = some (pse_sample_double_distribution R x v.point_parameters
                      v.point_distribution g).1) := by
  constructor
  · intro hsto xs x hcon hlen
    refine ⟨_, _, _, pse_prepare_array_int R fuel pse g varid v xs x location hst hget hsto
      hmod harr hloc hdep hraa hcon hlen, get_put_same _ _ _ _ hget, rfl, ?_⟩
    rw [List.getElem?_set_self]
    rw [hlen]; exact hloc
  · intro hsto xs x hcon hlen
    refine ⟨_, _, _, pse_prepare_array_double R fuel pse g varid v xs x location hst hget hsto
      hmod harr hloc hdep hraa hcon hlen, get_put_same _ _ _ _ hget, rfl, ?_⟩
    rw [List.getElem?_set_self]
    rw [hlen]; exact hloc

theorem C19_prepare_redraws_mutable_array_witness :
    (pse_sample_int_distribution ranlib_demo 5 params_demo PSE_DIST_POISSON 132) = (0, 133) ∧
    ∃ s1 v1 ys,
      pse_prepare ranlib_demo 0
        (pse_holding STARTED (var_demo PSE_VAR_INT PSE_VAR_STOCHASTIC PSE_AGENT
          PSE_DIST_POISSON PSE_ARRAY PSE_TRUE)) 132 0 (pse_content.cint 5) 1 PSE_VAR_INT =
        .ok (s1, 133, PSE_ERROR_OK) ∧
      s1.variables_.get 0 = .ok (pse_ptr.live v1) ∧
      v1.content = pse_content.cint_a ys ∧ ys[1]? = some 0 :=
  ⟨rfl, (C19_prepare_redraws_mutable_array ranlib_demo 0
    (pse_holding STARTED (var_demo PSE_VAR_INT PSE_VAR_STOCHASTIC PSE_AGENT
      PSE_DIST_POISSON PSE_ARRAY PSE_TRUE)) 132 0
    (var_demo PSE_VAR_INT PSE_VAR_STOCHASTIC PSE_AGENT PSE_DIST_POISSON PSE_ARRAY PSE_TRUE) 1
    rfl (holding_get _ _) rfl rfl (by decide) rfl (by decide)).1 rfl [0, 0] 5 rfl rfl⟩

/-- C19 (counterexample): on a store a client can reach, `pse_prepare (5)` into
element 1 of a live Stochastic Array Int variable without dependency whose
`read_and_alter` flag is clear reports Ok, stores the literal 5 and takes no
draw: the generator state stays 132, while a draw of the point distribution
(Poisson) with 5 as the current value gives 0. -/
theorem C19_prepare_keeps_literal_when_immutable :
    Reachable ranlib_demo
      (pse_holding STARTED (var_demo PSE_VAR_INT PSE_VAR_STOCHASTIC PSE_AGENT
        PSE_DIST_POISSON PSE_ARRAY PSE_FALSE)) 132 ∧
    (pse_sample_int_distribution ranlib_demo 5 params_demo PSE_DIST_POISSON 132) = (0, 133) ∧
    ∃ s1,
      pse_prepare ranlib_demo 0
        (pse_holding STARTED (var_demo PSE_VAR_INT PSE_VAR_STOCHASTIC PSE_AGENT
          PSE_DIST_POISSON PSE_ARRAY PSE_FALSE)) 132 0 (pse_content.cint 5) 1 PSE_VAR_INT =
        .ok (s1, 132, PSE_ERROR_OK) ∧
      s1.variables_.get 0 = .ok (pse_ptr.live
        { var_demo PSE_VAR_INT PSE_VAR_STOCHASTIC PSE_AGENT PSE_DIST_POISSON PSE_ARRAY PSE_FALSE
          with content := pse_content.cint_a [0, 5] }) := by
  refine ⟨reachable_holding_started _ _ _ _ _ _, rfl, ?_⟩
  have h := pse_prepare_array_immutable ranlib_demo 0
    (pse_holding STARTED (var_demo PSE_VAR_INT PSE_VAR_STOCHASTIC PSE_AGENT
      PSE_DIST_POISSON PSE_ARRAY PSE_FALSE)) 132 0
    (var_demo PSE_VAR_INT PSE_VAR_STOCHASTIC PSE_AGENT PSE_DIST_POISSON PSE_ARRAY PSE_FALSE)
    (pse_content.cint 5) (pse_content.cint_a [0, 5]) 1 rfl (holding_get _ _) rfl
    (by decide) rfl rfl rfl
  exact ⟨_, h, get_put_same _ _ _ _ (holding_get _ _)⟩

/-! ## Claims on the samplers -/

/-- C30: for every value and parameter vector, `pse_sample_int_distribution`
with the kind None returns the value, and `pse_sample_double_distribution` with
the kinds None, Fokker-Planck and Custom returns the value; the state of the
generator is the one passed in, so no draw is taken. -/
theorem C30_none_and_reserved_return_value {G : Type} (R : ranlib G) (g : G)
    (pars : pse_params) :
    (∀ v : Int, pse_sample_int_distribution R v pars PSE_DIST_NONE g = (v, g)) ∧
    (∀ v : pse_double,
      pse_sample_double_distribution R v pars PSE_DIST_NONE g = (v, g) ∧
      pse_sample_double_distribution R v pars PSE_DIST_FOKKER_PLANCK g = (v, g) ∧
      pse_sample_double_distribution R v pars PSE_DIST_CUSTOM g = (v, g)) :=
  ⟨fun _ => rfl, fun _ => ⟨rfl, rfl, rfl⟩⟩

/-- C27: the samplers return the same result for any two current values with
every non-self kind of their family: `pse_sample_int_distribution` with
uniform-bounded, Bernoulli, binomial, negative-binomial and Poisson,
`pse_sample_double_distribution` with uniform-bounded, normal, exponential,
gamma, chi-square, F and beta. Moreover every kind that `pse_is_self_distribution`
does not list and that is not None, Fokker-Planck or Custom gives a result
that does not depend on the current value, with either sampler. -/
theorem C27_non_self_ignore_current_value {G : Type} (R : ranlib G) (pars : pse_params)
    (g : G) :
    (∀ v1 v2 : Int,
      pse_sample_int_distribution R v1 pars PSE_DIST_UNIFORM_INT_BOUNDED g =
        pse_sample_int_distribution R v2 pars PSE_DIST_UNIFORM_INT_BOUNDED g ∧
      pse_sample_int_distribution R v1 pars PSE_DIST_BERNOULLI g =
        pse_sample_int_distribution R v2 pars PSE_DIST_BERNOULLI g ∧
      pse_sample_int_distribution R v1 pars PSE_DIST_BINOMIAL g =
        pse_sample_int_distribution R v2 pars PSE_DIST_BINOMIAL g ∧
      pse_sample_int_distribution R v1 pars PSE_DIST_NEG_BINOMIAL g =
        pse_sample_int_distribution R v2 pars PSE_DIST_NEG_BINOMIAL g ∧
      pse_sample_int_distribution R v1 pars PSE_DIST_POISSON g =
        pse_sample_int_distribution R v2 pars PSE_DIST_POISSON g) ∧
    (∀ x1 x2 : pse_double,
      pse_sample_double_distribution R x1 pars PSE_DIST_UNIFORM_DOUBLE_BOUNDED g =
        pse_sample_double_distribution R x2 pars PSE_DIST_UNIFORM_DOUBLE_BOUNDED g ∧
      pse_sample_double_distribution R x1 pars PSE_DIST_NORMAL g =
        pse_sample_double_distribution R x2 pars PSE_DIST_NORMAL g ∧
      pse_sample_double_distribution R x1 pars PSE_DIST_EXPONENTIAL g =
        pse_sample_double_distribution R x2 pars PSE_DIST_EXPONENTIAL g ∧
      pse_sample_double_distribution R x1 pars PSE_DIST_GAMMA g =
        pse_sample_double_distribution R x2 pars PSE_DIST_GAMMA g ∧
      pse_sample_double_distribution R x1 pars PSE_DIST_CHISQ g =
        pse_sample_double_distribution R x2 pars PSE_DIST_CHISQ g ∧
      pse_sample_double_distribution R x1 pars PSE_DIST_F g =
        pse_sample_double_distribution R x2 pars PSE_DIST_F g ∧
      pse_sample_double_distribution R x1 pars PSE_DIST_BETA g =
        pse_sample_double_distribution R x2 pars PSE_DIST_BETA g) ∧
    (∀ kind : pse_distribution_type, pse_is_self_distribution kind = PSE_FALSE →
      kind ≠ PSE_DIST_NONE → kind ≠ PSE_DIST_FOKKER_PLANCK → kind ≠ PSE_DIST_CUSTOM →
      (∀ v1 v2 : Int, pse_sample_int_distribution R v1 pars kind g =
        pse_sample_int_distribution R v2 pars kind g) ∧
      (∀ x1 x2 : pse_double, pse_sample_double_distribution R x1 pars kind g =
        pse_sample_double_distribution R x2 pars kind g)) := by
  refine ⟨fun _ _ => ⟨rfl, rfl, rfl, rfl, rfl⟩, fun _ _ => ⟨rfl, rfl, rfl, rfl, rfl, rfl, rfl⟩, ?_⟩
  intro kind hself hn hf hc
  cases kind <;>
    first
    | exact ⟨fun _ _ => rfl, fun _ _ => rfl⟩
    | exact absurd rfl hn
    | exact absurd rfl hf
    | exact absurd rfl hc
    | exact absurd hself (by decide)

/-! ## Observing Stochastic variables -/

/-- The result of `pse_observe` on a Stochastic Scalar Int variable without
dependency whose `read_and_alter` flag is `PSE_TRUE`. -/
theorem pse_observe_scalar_int_alter {G : Type} (R : ranlib G) (fuel : Nat)
    (pse : pse_agent_stub) (g : G) (varid : Int) (v : pse_variable) (x : Int) (location : Nat)
    (ptr_out : pse_variable) (hst : pse.state = STARTED)
    (hget : pse.variables_.get varid = .ok (pse_ptr.live v))
    (hmod : v.model = PSE_VAR_STOCHASTIC) (hsc : v.array = PSE_SCALAR)
    (hsto : v.storage = PSE_VAR_INT) (hdep : v.has_dependencies = PSE_FALSE)
    (hraa : v.read_and_alter = PSE_TRUE) (hcon : v.content = pse_content.cint x) :
    pse_observe R fuel pse g varid location ptr_out =
      .ok ({ pse with
              variables_ := pse.variables_.put varid (pse_ptr.live
                { v with
                  content := pse_content.cint
                    (pse_sample_int_distribution R x v.point_parameters v.point_distribution g).1,
                  point_parameters := ptr_out.point_parameters,
                  array_parameters := ptr_out.array_parameters }) },
           (pse_sample_int_distribution R x v.point_parameters v.point_distribution g).2,
           pse_output.record
             { ptr_out with
               content := pse_content.cint
                 (pse_sample_int_distribution R x v.point_parameters v.point_distribution g).1 },
           PSE_ERROR_OK) := by
  unfold pse_observe
  simp [hst, hget, hmod, hdep, hraa, pse_randomize_and_alter, pse_randomize, hsc, hsto, hcon,
    PSE_TRUE, PSE_FALSE]

/-- The same for storage Double and Time. -/
theorem pse_observe_scalar_double_alter {G : Type} (R : ranlib G) (fuel : Nat)
    (pse : pse_agent_stub) (g : G) (varid : Int) (v : pse_variable) (x : pse_double)
    (location : Nat) (ptr_out : pse_variable) (hst : pse.state = STARTED)
    (hget : pse.variables_.get varid = .ok (pse_ptr.live v))
    (hmod : v.model = PSE_VAR_STOCHASTIC) (hsc : v.array = PSE_SCALAR)
    (hsto : v.storage = PSE_VAR_DOUBLE ∨ v.storage = PSE_VAR_TIME)
    (hdep : v.has_dependencies = PSE_FALSE)
    (hraa : v.read_and_alter = PSE_TRUE) (hcon : v.content = pse_content.cdouble x) :
    pse_observe R fuel pse g varid location ptr_out =
      .ok ({ pse with
              variables_ := pse.variables_.put varid (pse_ptr.live
                { v with
                  content := pse_content.cdouble
                    (pse_sample_double_distribution R x v.point_parameters
                      v.point_distribution g).1,
                  point_parameters := ptr_out.point_parameters,
                  array_parameters := ptr_out.array_parameters }) },
           (pse_sample_double_distribution R x v.point_parameters v.point_distribution g).2,
           pse_output.record
             { ptr_out with
               content := pse_content.cdouble
                 (pse_sample_double_distribution R x v.point_parameters
                   v.point_distribution g).1 },
           PSE_ERROR_OK) := by
  unfold pse_observe
  rcases hsto with hs | hs <;>
    simp [hst, hget, hmod, hdep, hraa, pse_randomize_and_alter, pse_randomize, hsc, hs, hcon,
      PSE_TRUE, PSE_FALSE]

/-- The result of `pse_observe` on a Stochastic Scalar Int variable without
dependency whose `read_and_alter` flag is not `PSE_TRUE`. -/
theorem pse_observe_scalar_int_keep {G : Type} (R : ranlib G) (fuel : Nat)
    (pse : pse_agent_stub) (g : G) (varid : Int) (v : pse_variable) (x : Int) (location : Nat)
    (ptr_out : pse_variable) (hst : pse.state = STARTED)
    (hget : pse.variables_.get varid = .ok (pse_ptr.live v))
    (hmod : v.model = PSE_VAR_STOCHASTIC) (hsc : v.array = PSE_SCALAR)
    (hsto : v.storage = PSE_VAR_INT) (hdep : v.has_dependencies = PSE_FALSE)
    (hraa : v.read_and_alter ≠ PSE_TRUE) (hcon : v.content = pse_content.cint x) :
    pse_observe R fuel pse g varid location ptr_out =
      .ok (pse,
           (pse_sample_int_distribution R x v.point_parameters v.point_distribution g).2,
           pse_output.record
             { ptr_out with
               content := pse_content.cint
                 (pse_sample_int_distribution R x v.point_parameters v.point_distribution g).1 },
           PSE_ERROR_OK) := by
  unfold pse_observe
  simp [hst, hget, hmod, hdep, hraa, pse_randomize, hsc, hsto, hcon]

/-- The same for storage Double and Time. -/
theorem pse_observe_scalar_double_keep {G : Type} (R : ranlib G) (fuel : Nat)
    (pse : pse_agent_stub) (g : G) (varid : Int) (v : pse_variable) (x : pse_double)
    (location : Nat) (ptr_out : pse_variable) (hst : pse.state = STARTED)
    (hget : pse.variables_.get varid = .ok (pse_ptr.live v))
    (hmod : v.model = PSE_VAR_STOCHASTIC) (hsc : v.array = PSE_SCALAR)
    (hsto : v.storage = PSE_VAR_DOUBLE ∨ v.storage = PSE_VAR_TIME)
    (hdep : v.has_dependencies = PSE_FALSE)
    (hraa : v.read_and_alter ≠ PSE_TRUE) (hcon : v.content = pse_content.cdouble x) :
    pse_observe R fuel pse g varid location ptr_out =
      .ok (pse,
           (pse_sample_double_distribution R x v.point_parameters v.point_distribution g).2,
           pse_output.record
             { ptr_out with
               content := pse_content.cdouble
                 (pse_sample_double_distribution R x v.point_parameters
                   v.point_distribution g).1 },
           PSE_ERROR_OK) := by
  unfold pse_observe
  rcases hsto with hs | hs <;>
    simp [hst, hget, hmod, hdep, hraa, pse_randomize, hsc, hs, hcon]

/-- C24: on a Started store, for a live Stochastic Scalar variable of storage
Int, Double or Time without dependency, `pse_observe` reports Ok and leaves in
the content of the output record the result of the sampler (the integer one for
Int, the real one for Double and Time) applied to the stored content, the point
parameters of the variable and its point distribution; afterwards the stored
content is that result when `read_and_alter` is `PSE_TRUE`, and the store is
the one before the call when `read_and_alter` is `PSE_FALSE`. -/
theorem C24_observe_stochastic_scalar {G : Type} (R : ranlib G) (fuel : Nat)
    (pse : pse_agent_stub) (g : G) (varid : Int) (v : pse_variable) (location : Nat)
    (ptr_out : pse_variable) (hst : pse.state = STARTED)
    (hget : pse.variables_.get varid = .ok (pse_ptr.live v))
    (hmod : v.model = PSE_VAR_STOCHASTIC) (hsc : v.array = PSE_SCALAR)
    (hdep : v.has_dependencies = PSE_FALSE) :
    (v.storage = PSE_VAR_INT → ∀ x : Int, v.content = pse_content.cint x →
      ∃ s1 out,
        pse_observe R fuel pse g varid location ptr_out =
          .ok (s1, (pse_sample_int_distribution R x v.point_parameters
                      v.point_distribution g).2, pse_output.record out, PSE_ERROR_OK) ∧
        out.content = pse_content.cint
          (pse_sample_int_distribution R x v.point_parameters v.point_distribution g).1 ∧
        (v.read_and_alter = PSE_TRUE →
          ∃ v1, s1.variables_.get varid = .ok (pse_ptr.live v1) ∧ v1.content = out.content) ∧
        (v.read_and_alter = PSE_FALSE → s1 = pse)) ∧
    (v.storage = PSE_VAR_DOUBLE ∨ v.storage = PSE_VAR_TIME →
      ∀ x : pse_double, v.content = pse_content.cdouble x →
      ∃ s1 out,
        pse_observe R fuel pse g varid location ptr_out =
          .ok (s1, (pse_sample_double_distribution R x v.point_parameters
                      v.point_distribution g).2, pse_output.record out, PSE_ERROR_OK) ∧
        out.content = pse_content.cdouble
          (pse_sample_double_distribution R x v.point_parameters v.point_distribution g).1 ∧
        (v.read_and_alter = PSE_TRUE →
          ∃ v1, s1.variables_.get varid = .ok (pse_ptr.live v1) ∧ v1.content = out.content) ∧
        (v.read_and_alter = PSE_FALSE → s1 = pse)) := by
  constructor
  · intro hsto x hcon
    by_cases hraa : v.read_and_alter = PSE_TRUE
    · refine ⟨_, _, pse_observe_scalar_int_alter R fuel pse g varid v x location ptr_out hst hget
        hmod hsc hsto hdep hraa hcon, rfl, ?_, ?_⟩
      · intro _
        exact ⟨_, get_put_same pse.variables_ varid _ _ hget, rfl⟩
      · intro h0
        rw [h0] at hraa
        exact absurd hraa (by decide)
    · refine ⟨_, _, pse_observe_scalar_int_keep R fuel pse g varid v x location ptr_out hst hget
        hmod hsc hsto hdep hraa hcon, rfl, ?_, ?_⟩
      · intro h1
        exact absurd h1 hraa
      · intro _
        rfl
  · intro hsto x hcon
    by_cases hraa : v.read_and_alter = PSE_TRUE
    · refine ⟨_, _, pse_observe_scalar_double_alter R fuel pse g varid v x location ptr_out hst
        hget hmod hsc hsto hdep hraa hcon, rfl, ?_, ?_⟩
      · intro _
        exact ⟨_, get_put_same pse.variables_ varid _ _ hget, rfl⟩
      · intro h0
        rw [h0] at hraa
        exact absurd hraa (by decide)
    · refine ⟨_, _, pse_observe_scalar_double_keep R fuel pse g varid v x location ptr_out hst
        hget hmod hsc hsto hdep hraa hcon, rfl, ?_, ?_⟩
      · intro h1
        exact absurd h1 hraa
      · intro _
        rfl

theorem C24_observe_stochastic_scalar_witness :
    ∃ s1 out,
      pse_observe ranlib_demo 0
        (pse_holding STARTED (var_demo PSE_VAR_DOUBLE PSE_VAR_STOCHASTIC PSE_AGENT
          PSE_DIST_NORMAL_SELF PSE_SCALAR PSE_TRUE)) 132 0 0
        (pse_template uninit_stale (var_demo PSE_VAR_DOUBLE PSE_VAR_STOCHASTIC PSE_AGENT
          PSE_DIST_NORMAL_SELF PSE_SCALAR PSE_TRUE)) =
        .ok (s1, 133, pse_output.record out, PSE_ERROR_OK) ∧
      out.content = pse_content.cdouble ⟨0⟩ ∧
      ∃ v1, s1.variables_.get 0 = .ok (pse_ptr.live v1) ∧ v1.content = out.content := by
  obtain ⟨s1, out, h1, h2, h3, _⟩ := (C24_observe_stochastic_scalar ranlib_demo 0
    (pse_holding STARTED (var_demo PSE_VAR_DOUBLE PSE_VAR_STOCHASTIC PSE_AGENT
      PSE_DIST_NORMAL_SELF PSE_SCALAR PSE_TRUE)) 132 0
    (var_demo PSE_VAR_DOUBLE PSE_VAR_STOCHASTIC PSE_AGENT PSE_DIST_NORMAL_SELF PSE_SCALAR
      PSE_TRUE) 0
    (pse_template uninit_stale (var_demo PSE_VAR_DOUBLE PSE_VAR_STOCHASTIC PSE_AGENT
      PSE_DIST_NORMAL_SELF PSE_SCALAR PSE_TRUE))
    rfl (holding_get _ _) rfl rfl rfl).2 (Or.inl rfl) ⟨0⟩ rfl
  exact ⟨s1, out, h1, h2, h3 rfl⟩

/-! ## Claims on observe -/

/-- C21 (failing input): on a Started store `pse_observe` on a live
Deterministic Scalar variable of storage Int, Double or Time reports Ok and
leaves the store as it is, but the bytes of the stored content are copied to
the start of the output record: the member `content` of the record is what it
was before the call. For storage String the copy has the length
`PSE_MAX_STRLEN` and leaves the stored union. So on a store a client can reach,
after `pse_prepare (54.5)` on a Deterministic Scalar Time variable, which the
reader returns, `pse_observe` into a record made by `pse_template` reports Ok
and the content of the record is not 54.5. -/
theorem C21_deterministic_observe_misses_content :
    (∀ {G : Type} (R : ranlib G) (fuel : Nat) (pse : pse_agent_stub) (g : G) (varid : Int)
        (var : pse_variable) (location : Nat) (ptr_out : pse_variable),
      pse.state = STARTED → pse.variables_.get varid = .ok (pse_ptr.live var) →
      var.model = PSE_VAR_DETERMINISTIC → var.array = PSE_SCALAR →
      (var.storage ≠ PSE_VAR_STRING →
        ∃ out, pse_observe R fuel pse g varid location ptr_out =
            .ok (pse, g, out, PSE_ERROR_OK) ∧
          out.content = ptr_out.content) ∧
      (var.storage = PSE_VAR_STRING →
        pse_observe R fuel pse g varid location ptr_out =
          .error pse_fault.out_of_bounds)) ∧
    (Reachable ranlib_demo
        (pse_holding STARTED (var_demo PSE_VAR_TIME PSE_VAR_DETERMINISTIC PSE_AGENT
          PSE_DIST_NONE PSE_SCALAR PSE_FALSE)) 132 ∧
      ∃ s1 out,
        pse_prepare ranlib_demo 0
          (pse_holding STARTED (var_demo PSE_VAR_TIME PSE_VAR_DETERMINISTIC PSE_AGENT
            PSE_DIST_NONE PSE_SCALAR PSE_FALSE)) 132 0
          (pse_content.ctime ⟨0x404B400000000000⟩) 0 PSE_VAR_TIME =
          .ok (s1, 132, PSE_ERROR_OK) ∧
        pse_read_time s1 0 = .ok ⟨0x404B400000000000⟩ ∧
        pse_observe ranlib_demo 0 s1 132 0 0
          (pse_template uninit_demo (var_demo PSE_VAR_TIME PSE_VAR_DETERMINISTIC PSE_AGENT
            PSE_DIST_NONE PSE_SCALAR PSE_FALSE)) =
          .ok (s1, 132, out, PSE_ERROR_OK) ∧
        out.content = pse_content.ctime ⟨0⟩ ∧
        out.content ≠ pse_content.ctime ⟨0x404B400000000000⟩) := by
  refine ⟨?_, reachable_holding_started _ _ _ _ _ _, ?_⟩
  · intro G R fuel pse g varid var location ptr_out hst hget hdet hsc
    constructor
    · intro hsto
      exact ⟨_, pse_observe_deterministic_scalar R fuel pse g varid var location ptr_out hst hget
        hdet hsc hsto, rfl⟩
    · intro hsto
      unfold pse_observe
      simp [hst, hget, hdet, pse_sizeof, hsc, hsto, PSE_MAX_STRLEN, SIZEOF_CONTENT]
  · have hp := pse_prepare_scalar_ok ranlib_demo 0
      (pse_holding STARTED (var_demo PSE_VAR_TIME PSE_VAR_DETERMINISTIC PSE_AGENT
        PSE_DIST_NONE PSE_SCALAR PSE_FALSE)) 132 0
      (var_demo PSE_VAR_TIME PSE_VAR_DETERMINISTIC PSE_AGENT PSE_DIST_NONE PSE_SCALAR PSE_FALSE)
      (pse_content.ctime ⟨0x404B400000000000⟩) (pse_content.ctime ⟨0x404B400000000000⟩) 0
      rfl (holding_get _ _) rfl rfl
    have hg := get_put_same
      (pse_holding STARTED (var_demo PSE_VAR_TIME PSE_VAR_DETERMINISTIC PSE_AGENT
        PSE_DIST_NONE PSE_SCALAR PSE_FALSE)).variables_ 0 _
      (pse_ptr.live { var_demo PSE_VAR_TIME PSE_VAR_DETERMINISTIC PSE_AGENT PSE_DIST_NONE
          PSE_SCALAR PSE_FALSE with content := pse_content.ctime ⟨0x404B400000000000⟩ })
      (holding_get _ _)
    refine ⟨_, _, hp, ?_, pse_observe_deterministic_scalar ranlib_demo 0 _ 132 0 _ 0 _ rfl hg
      rfl rfl (by decide), rfl, by decide⟩
    unfold pse_read_time
    simp only [hg]

/-- Whenever `pse_observe` returns on a live variable whose `read_and_alter`
flag is not `PSE_TRUE`, the store is the one it was called on. -/
theorem pse_observe_frame {G : Type} (R : ranlib G) (fuel : Nat)
    (pse : pse_agent_stub) (g : G) (varid : Int) (v : pse_variable) (location : Nat)
    (ptr_out : pse_variable) (s2 : pse_agent_stub) (g2 : G) (out : pse_output) (e : pse_error)
    (hget : pse.variables_.get varid = .ok (pse_ptr.live v))
    (hraa : v.read_and_alter ≠ PSE_TRUE)
    (h : pse_observe R fuel pse g varid location ptr_out = .ok (s2, g2, out, e)) :
    s2 = pse := by
  unfold pse_observe at h
  simp only [hget, hraa, if_false] at h
  repeat' split at h
  all_goals first
    | (simp only [Except.ok.injEq, Prod.mk.injEq] at h; exact h.1.symm)
    | (exact absurd h (by simp))

/-- The result of `pse_observe` on an element of a Stochastic Array variable of
storage Double or Time without dependency whose `read_and_alter` flag is not
`PSE_TRUE`, into a record that holds an array of doubles. -/
theorem pse_observe_array_double_keep {G : Type} (R : ranlib G) (fuel : Nat)
    (pse : pse_agent_stub) (g : G) (varid : Int) (v : pse_variable) (xs ys : List pse_double)
    (x : pse_double) (location : Nat) (ptr_out : pse_variable) (hst : pse.state = STARTED)
    (hget : pse.variables_.get varid = .ok (pse_ptr.live v))
    (hmod : v.model = PSE_VAR_STOCHASTIC) (harr : v.array = PSE_ARRAY)
    (hsto : v.storage = PSE_VAR_DOUBLE ∨ v.storage = PSE_VAR_TIME)
    (hdep : v.has_dependencies = PSE_FALSE) (hraa : v.read_and_alter ≠ PSE_TRUE)
    (hcon : v.content = pse_content.cdouble_a xs) (hx : xs[location]? = some x)
    (hout : ptr_out.content = pse_content.cdouble_a ys) (hloc : location < ys.length) :
    pse_observe R fuel pse g varid location ptr_out =
      .ok (pse,
           (pse_sample_double_distribution R x v.point_parameters v.point_distribution g).2,
           pse_output.record
             { ptr_out with
               content := pse_content.cdouble_a (ys.set location
                 (pse_sample_double_distribution R x v.point_parameters
                   v.point_distribution g).1) },
           PSE_ERROR_OK) := by
  unfold pse_observe
  rcases hsto with hs | hs <;>
    simp [hst, hget, hmod, hdep, hraa, pse_randomize, harr, hs, hcon, hx, hout, hloc]

/-- C22: on a Started store, for a live Array Double variable without
dependency whose `read_and_alter` flag is `PSE_FALSE` and an index below its
size, `pse_prepare` with a value reports Ok, takes no draw and leaves every
stored element other than the one at the index as it was; whenever the
following `pse_observe` at the index returns, the store is the one `pse_prepare`
left; and for a Stochastic variable it does return, with Ok, when the record
passed holds an array that has the index. -/
theorem C22_array_isolation {G : Type} (R : ranlib G) (fuel : Nat)
    (pse : pse_agent_stub) (g : G) (varid : Int) (v : pse_variable) (xs : List pse_double)
    (x : pse_double) (i : Nat) (hst : pse.state = STARTED)
    (hget : pse.variables_.get varid = .ok (pse_ptr.live v))
    (hsto : v.storage = PSE_VAR_DOUBLE) (harr : v.array = PSE_ARRAY)
    (hdep : v.has_dependencies = PSE_FALSE) (hraa : v.read_and_alter = PSE_FALSE)
    (hcon : v.content = pse_content.cdouble_a xs) (hlen : xs.length = v.size)
    (hi : i < v.size) :
    ∃ s1 v1 ys,
      pse_prepare R fuel pse g varid (pse_content.cdouble x) i PSE_VAR_DOUBLE =
        .ok (s1, g, PSE_ERROR_OK) ∧
      s1.variables_.get varid = .ok (pse_ptr.live v1) ∧
      v1.content = pse_content.cdouble_a ys ∧
      ys.length = xs.length ∧ ys[i]? = some x ∧
      (∀ j : Nat, j ≠ i → ys[j]? = xs[j]?) ∧
      (∀ (ptr_out : pse_variable) (s2 : pse_agent_stub) (g2 : G) (out : pse_output)
          (e : pse_error),
        pse_observe R fuel s1 g varid i ptr_out = .ok (s2, g2, out, e) → s2 = s1) ∧
      (v.model = PSE_VAR_STOCHASTIC → ∀ (ptr_out : pse_variable) (zs : List pse_double),
        ptr_out.content = pse_content.cdouble_a zs → i < zs.length →
        ∃ g2 out, pse_observe R fuel s1 g varid i ptr_out = .ok (s1, g2, out, PSE_ERROR_OK)) := by
  have hl : i < xs.length := by rw [hlen]; exact hi
  have hc : pse_prepare_array v (pse_content.cdouble x) i =
      .ok (pse_content.cdouble_a (xs.set i x)) := by
    simp [pse_prepare_array, hsto, hcon, hl]
  have hp : pse_prepare R fuel pse g varid (pse_content.cdouble x) i PSE_VAR_DOUBLE =
      .ok ({ pse with
              variables_ := pse.variables_.put varid
                (pse_ptr.live { v with content := pse_content.cdouble_a (xs.set i x) }) },
           g, PSE_ERROR_OK) := by
    rw [← hsto]
    exact pse_prepare_array_immutable R fuel pse g varid v (pse_content.cdouble x)
      (pse_content.cdouble_a (xs.set i x)) i hst hget harr hi hdep hraa hc
  have hg := get_put_same pse.variables_ varid (pse_ptr.live v)
    (pse_ptr.live { v with content := pse_content.cdouble_a (xs.set i x) }) hget
  have hne : ({ v with content := pse_content.cdouble_a (xs.set i x) } :
      pse_variable).read_and_alter ≠ PSE_TRUE := by
    show v.read_and_alter ≠ PSE_TRUE
    rw [hraa]
    decide
  refine ⟨{ pse with
            variables_ := pse.variables_.put varid
              (pse_ptr.live { v with content := pse_content.cdouble_a (xs.set i x) }) },
    { v with content := pse_content.cdouble_a (xs.set i x) }, xs.set i x,
    hp, hg, rfl, by simp, ?_, ?_, ?_, ?_⟩
  · rw [List.getElem?_set_self hl]
  · intro j hj
    rw [List.getElem?_set_ne (Ne.symm hj)]
  · intro ptr_out s2 g2 out e h
    exact pse_observe_frame R fuel _ g varid _ i ptr_out s2 g2 out e hg hne h
  · intro hmod ptr_out zs hout hz
    exact ⟨_, _, pse_observe_array_double_keep R fuel
      { pse with
        variables_ := pse.variables_.put varid
          (pse_ptr.live { v with content := pse_content.cdouble_a (xs.set i x) }) }
      g varid { v with content := pse_content.cdouble_a (xs.set i x) } (xs.set i x) zs x i
      ptr_out hst hg hmod harr (Or.inl hsto) hdep hne rfl (List.getElem?_set_self hl) hout hz⟩

theorem C22_array_isolation_witness :
    ∃ s1 v1 ys,
      pse_prepare ranlib_demo 0 (pse_holding STARTED (var_five PSE_VAR_STOCHASTIC PSE_FALSE))
          132 0 (pse_content.cdouble double_3_14) 2 PSE_VAR_DOUBLE =
        .ok (s1, 132, PSE_ERROR_OK) ∧
      s1.variables_.get 0 = .ok (pse_ptr.live v1) ∧
      v1.content = pse_content.cdouble_a ys ∧
      ys.length = 5 ∧ ys[2]? = some double_3_14 ∧
      (∀ j : Nat, j ≠ 2 → ys[j]? = [(⟨0⟩ : pse_double), ⟨0⟩, ⟨0⟩, ⟨0⟩, ⟨0⟩][j]?) ∧
      ∃ g2 out, pse_observe ranlib_demo 0 s1 132 0 2
          (pse_template uninit_stale (var_five PSE_VAR_STOCHASTIC PSE_FALSE)) =
        .ok (s1, g2, out, PSE_ERROR_OK) := by
  obtain ⟨s1, v1, ys, h1, h2, h3, h4, h5, h6, _, h8⟩ := C22_array_isolation ranlib_demo 0
    (pse_holding STARTED (var_five PSE_VAR_STOCHASTIC PSE_FALSE)) 132 0
    (var_five PSE_VAR_STOCHASTIC PSE_FALSE) [⟨0⟩, ⟨0⟩, ⟨0⟩, ⟨0⟩, ⟨0⟩] double_3_14 2
    rfl (holding_get _ _) rfl rfl rfl rfl rfl rfl (by decide)
  exact ⟨s1, v1, ys, h1, h2, h3, h4, h5, h6,
    h8 rfl (pse_template uninit_stale (var_five PSE_VAR_STOCHASTIC PSE_FALSE))
      [⟨1⟩, ⟨2⟩, ⟨3⟩, ⟨4⟩, ⟨5⟩] rfl (by decide)⟩

/-- The result of `pse_observe` on an element of a Stochastic Array Int variable
without dependency whose `read_and_alter` flag is `PSE_TRUE`, into a record
that holds an array of integers: the stored union becomes the one of the
record. -/
theorem pse_observe_array_int_alter {G : Type} (R : ranlib G) (fuel : Nat)
    (pse : pse_agent_stub) (g : G) (varid : Int) (v : pse_variable) (xs ys : List Int)
    (x : Int) (location : Nat) (ptr_out : pse_variable) (hst : pse.state = STARTED)
    (hget : pse.variables_.get varid = .ok (pse_ptr.live v))
    (hmod : v.model = PSE_VAR_STOCHASTIC) (harr : v.array = PSE_ARRAY)
    (hsto : v.storage = PSE_VAR_INT)
    (hdep : v.has_dependencies = PSE_FALSE) (hraa : v.read_and_alter = PSE_TRUE)
    (hcon : v.content = pse_content.cint_a xs) (hx : xs[location]? = some x)
    (hout : ptr_out.content = pse_content.cint_a ys) (hloc : location < ys.length) :
    pse_observe R fuel pse g varid location ptr_out =
      .ok ({ pse with
              variables_ := pse.variables_.put varid (pse_ptr.live
                { v with
                  content := pse_content.cint_a (ys.set location
                    (pse_sample_int_distribution R x v.point_parameters
                      v.point_distribution g).1),
                  point_parameters := ptr_out.point_parameters,
                  array_parameters := ptr_out.array_parameters }) },
           (pse_sample_int_distribution R x v.point_parameters v.point_distribution g).2,
           pse_output.record
             { ptr_out with
               content := pse_content.cint_a (ys.set location
                 (pse_sample_int_distribution R x v.point_parameters
                   v.point_distribution g).1) },
           PSE_ERROR_OK) := by
  unfold pse_observe
  simp [hst, hget, hmod, hdep, hraa, pse_randomize_and_alter, pse_randomize, harr, hsto, hcon,
    hx, hout, hloc, PSE_TRUE, PSE_FALSE]

/-- The same for storage Double and Time. -/
theorem pse_observe_array_double_alter {G : Type} (R : ranlib G) (fuel : Nat)
    (pse : pse_agent_stub) (g : G) (varid : Int) (v : pse_variable) (xs ys : List pse_double)
    (x : pse_double) (location : Nat) (ptr_out : pse_variable) (hst : pse.state = STARTED)
    (hget : pse.variables_.get varid = .ok (pse_ptr.live v))
    (hmod : v.model = PSE_VAR_STOCHASTIC) (harr : v.array = PSE_ARRAY)
    (hsto : v.storage = PSE_VAR_DOUBLE ∨ v.storage = PSE_VAR_TIME)
    (hdep : v.has_dependencies = PSE_FALSE) (hraa : v.read_and_alter = PSE_TRUE)
    (hcon : v.content = pse_content.cdouble_a xs) (hx : xs[location]? = some x)
    (hout : ptr_out.content = pse_content.cdouble_a ys) (hloc : location < ys.length) :
    pse_observe R fuel pse g varid location ptr_out =
      .ok ({ pse with
              variables_ := pse.variables_.put varid (pse_ptr.live
                { v with
                  content := pse_content.cdouble_a (ys.set location
                    (pse_sample_double_distribution R x v.point_parameters
                      v.point_distribution g).1),
                  point_parameters := ptr_out.point_parameters,
                  array_parameters := ptr_out.array_parameters }) },
           (pse_sample_double_distribution R x v.point_parameters v.point_distribution g).2,
           pse_output.record
             { ptr_out with
               content := pse_content.cdouble_a (ys.set location
                 (pse_sample_double_distribution R x v.point_parameters
                   v.point_distribution g).1) },
           PSE_ERROR_OK) := by
  unfold pse_observe
  rcases hsto with hs | hs <;>
    simp [hst, hget, hmod, hdep, hraa, pse_randomize_and_alter, pse_randomize, harr, hs, hcon,
      hx, hout, hloc, PSE_TRUE, PSE_FALSE]

/-- C23 (failing input): on a Started store, `pse_observe` at an index of a live
Stochastic Array variable of storage Int, Double or Time without dependency
whose `read_and_alter` flag is `PSE_TRUE` reports Ok and assigns the union of
the output record to the stored union: every stored element other than the one
at the index becomes the element the record held there. So on a store a client
can reach, holding the elements 0 and 0, `pse_observe` at index 0 into a record
made by `pse_template` whose storage reads 7 and 8 leaves 8 in the stored
element 1. -/
theorem C23_observe_replaces_other_elements :
    (∀ {G : Type} (R : ranlib G) (fuel : Nat) (pse : pse_agent_stub) (g : G) (varid : Int)
        (v : pse_variable) (i : Nat) (ptr_out : pse_variable),
      pse.state = STARTED → pse.variables_.get varid = .ok (pse_ptr.live v) →
      v.model = PSE_VAR_STOCHASTIC → v.array = PSE_ARRAY → v.has_dependencies = PSE_FALSE →
      v.read_and_alter = PSE_TRUE →
      (v.storage = PSE_VAR_INT → ∀ (xs ys : List Int) (x : Int),
        v.content = pse_content.cint_a xs → xs[i]? = some x →
        ptr_out.content = pse_content.cint_a ys → i < ys.length →
        ∃ s1 g1 out v1 zs,
          pse_observe R fuel pse g varid i ptr_out = .ok (s1, g1, out, PSE_ERROR_OK) ∧
          s1.variables_.get varid = .ok (pse_ptr.live v1) ∧
          v1.content = pse_content.cint_a zs ∧
          ∀ j : Nat, j ≠ i → zs[j]? = ys[j]?) ∧
      (v.storage = PSE_VAR_DOUBLE ∨ v.storage = PSE_VAR_TIME →
        ∀ (xs ys : List pse_double) (x : pse_double),
        v.content = pse_content.cdouble_a xs → xs[i]? = some x →
        ptr_out.content = pse_content.cdouble_a ys → i < ys.length →
        ∃ s1 g1 out v1 zs,
          pse_observe R fuel pse g varid i ptr_out = .ok (s1, g1, out, PSE_ERROR_OK) ∧
          s1.variables_.get varid = .ok (pse_ptr.live v1) ∧
          v1.content = pse_content.cdouble_a zs ∧
          ∀ j : Nat, j ≠ i → zs[j]? = ys[j]?)) ∧
    (Reachable ranlib_demo
        (pse_holding STARTED (var_demo PSE_VAR_INT PSE_VAR_STOCHASTIC PSE_AGENT
          PSE_DIST_POISSON PSE_ARRAY PSE_TRUE)) 132 ∧
      (var_demo PSE_VAR_INT PSE_VAR_STOCHASTIC PSE_AGENT PSE_DIST_POISSON PSE_ARRAY
          PSE_TRUE).content = pse_content.cint_a [0, 0] ∧
      (pse_template uninit_stale (var_demo PSE_VAR_INT PSE_VAR_STOCHASTIC PSE_AGENT
          PSE_DIST_POISSON PSE_ARRAY PSE_TRUE)).content = pse_content.cint_a [7, 8] ∧
      ∃ s1 out v1,
        pse_observe ranlib_demo 0
          (pse_holding STARTED (var_demo PSE_VAR_INT PSE_VAR_STOCHASTIC PSE_AGENT
            PSE_DIST_POISSON PSE_ARRAY PSE_TRUE)) 132 0 0
          (pse_template uninit_stale (var_demo PSE_VAR_INT PSE_VAR_STOCHASTIC PSE_AGENT
            PSE_DIST_POISSON PSE_ARRAY PSE_TRUE)) =
          .ok (s1, 133, out, PSE_ERROR_OK) ∧
        s1.variables_.get 0 = .ok (pse_ptr.live v1) ∧
        v1.content = pse_content.cint_a [0, 8]) := by
  refine ⟨?_, reachable_holding_started _ _ _ _ _ _, rfl, rfl, ?_⟩
  · intro G R fuel pse g varid v i ptr_out hst hget hmod harr hdep hraa
    constructor
    · intro hsto xs ys x hcon hx hout hloc
      refine ⟨_, _, _, _, _, pse_observe_array_int_alter R fuel pse g varid v xs ys x i ptr_out
        hst hget hmod harr hsto hdep hraa hcon hx hout hloc,
        get_put_same pse.variables_ varid _ _ hget, rfl, ?_⟩
      intro j hj
      rw [List.getElem?_set_ne (Ne.symm hj)]
    · intro hsto xs ys x hcon hx hout hloc
      refine ⟨_, _, _, _, _, pse_observe_array_double_alter R fuel pse g varid v xs ys x i ptr_out
        hst hget hmod harr hsto hdep hraa hcon hx hout hloc,
        get_put_same pse.variables_ varid _ _ hget, rfl, ?_⟩
      intro j hj
      rw [List.getElem?_set_ne (Ne.symm hj)]
  · have h := pse_observe_array_int_alter ranlib_demo 0
      (pse_holding STARTED (var_demo PSE_VAR_INT PSE_VAR_STOCHASTIC PSE_AGENT
        PSE_DIST_POISSON PSE_ARRAY PSE_TRUE)) 132 0
      (var_demo PSE_VAR_INT PSE_VAR_STOCHASTIC PSE_AGENT PSE_DIST_POISSON PSE_ARRAY PSE_TRUE)
      [0, 0] [7, 8] 0 0
      (pse_template uninit_stale (var_demo PSE_VAR_INT PSE_VAR_STOCHASTIC PSE_AGENT
        PSE_DIST_POISSON PSE_ARRAY PSE_TRUE))
      rfl (holding_get _ _) rfl rfl rfl rfl rfl rfl rfl rfl (by decide)
    exact ⟨_, _, _, h, get_put_same _ _ _ _ (holding_get _ _), rfl⟩

/-! ## Runs from a Created store -/

theorem table_ext {α : Type} (s t : pse_table α) (h : s.cells = t.cells) : s = t := by
  cases s
  cases t
  simp only at h
  subst h
  rfl

theorem clear_eq_null {α : Type} (t : pse_table α) : t.clear = pse_table.null α :=
  table_ext _ _ (clear_cells t)

theorem put_put {α : Type} (t : pse_table α) (i : Int) (p q : pse_ptr α) :
    (t.put i p).put i q = t.put i q :=
  table_ext _ _ (by simp [pse_table.put])

/-- The store `pse_init` leaves when called on a Created store. -/
theorem pse_init_created (pse : pse_agent_stub) (h : pse.state = CREATED) :
    pse_init pse =
      ({ state := INITIALIZED, var_count := 0, var_limit := 0,
         variables_ := pse_table.null pse_variable,
         dependencies := pse_table.null pse_dependency }, PSE_ERROR_OK) := by
  simp [pse_init, h, clear_eq_null]

/-- Writing a variable into slot 0 of a store that holds one variable. -/
theorem holding_put (st : pse_state) (v w : pse_variable) :
    ({ pse_holding st v with
        variables_ := (pse_holding st v).variables_.put 0 (pse_ptr.live w) } :
      pse_agent_stub) = pse_holding st w := by
  unfold pse_holding
  simp only [put_put]

/-- The first `register` call after `init`, as a step of the interface. -/
theorem pse_step_register_first {G : Type} (R : ranlib G) (fuel : Nat) (g : G)
    (u : pse_uninit) (storage : pse_storage_type)
    (model : pse_model_type) (locality : pse_locality_type)
    (point_distribution : pse_distribution_type) (point_parameters : pse_params)
    (array : pse_array_type) (size : Nat) (read_and_alter : Nat)
    (array_distribution : pse_distribution_type) (array_parameters : pse_params)
    (name : c_string) (hname : strlen name < PSE_VARNAME_SIZE) :
    pse_step R fuel
        { state := INITIALIZED, var_count := 0, var_limit := 0,
          variables_ := pse_table.null pse_variable,
          dependencies := pse_table.null pse_dependency } g
        (pse_call.register u storage model locality point_distribution point_parameters array
          size read_and_alter array_distribution array_parameters name) =
      .ok (pse_holding INITIALIZED (pse_registered u storage model locality point_distribution
            point_parameters array size read_and_alter array_distribution array_parameters name),
           g, { code := 0, output := none }) := by
  have hinv := pse_inv_init pse_zeroed rfl
  rw [init_zeroed] at hinv
  exact pse_step_register_eq R fuel _ g u storage model locality point_distribution
    point_parameters array size read_and_alter array_distribution array_parameters name
    rfl hinv (by decide) hname

/-- The call `start` on a store that holds one variable, as a step. -/
theorem pse_step_start_holding {G : Type} (R : ranlib G) (fuel : Nat) (g : G)
    (v : pse_variable) (seed_1 seed_2 : Int) :
    pse_step R fuel (pse_holding INITIALIZED v) g (pse_call.start seed_1 seed_2) =
      .ok (pse_holding STARTED v, R.set_seed seed_1 seed_2 (R.rnglib_init g),
           { code := 0, output := none }) := rfl

/-- The call `init` on a Created store, as a step. -/
theorem pse_step_init_created {G : Type} (R : ranlib G) (fuel : Nat) (pse : pse_agent_stub)
    (g : G) (h : pse.state = CREATED) :
    pse_step R fuel pse g pse_call.init =
      .ok ({ state := INITIALIZED, var_count := 0, var_limit := 0,
             variables_ := pse_table.null pse_variable,
             dependencies := pse_table.null pse_dependency }, g,
           { code := 0, output := none }) := by
  simp only [pse_step, pse_init_created pse h]
  rfl

/-- A store that holds one registered variable and was started is a store a
client can hold, whatever the numeric library. -/
theorem reachable_started {G : Type} (R : ranlib G) (g : G)
    (u : pse_uninit) (storage : pse_storage_type)
    (model : pse_model_type) (locality : pse_locality_type)
    (point_distribution : pse_distribution_type) (point_parameters : pse_params)
    (array : pse_array_type) (size : Nat) (read_and_alter : Nat)
    (array_distribution : pse_distribution_type) (array_parameters : pse_params)
    (name : c_string) (hname : strlen name < PSE_VARNAME_SIZE) (seed_1 seed_2 : Int) :
    Reachable R
      (pse_holding STARTED (pse_registered u storage model locality point_distribution
        point_parameters array size read_and_alter array_distribution array_parameters name))
      (R.set_seed seed_1 seed_2 (R.rnglib_init g)) := by
  have h0 : Reachable R (pse_init pse_zeroed).1 g := Reachable.init pse_zeroed g rfl
  rw [init_zeroed] at h0
  have h1 := Reachable.step 0 _ g _ _ g _ h0
    (pse_step_register_first R 0 g u storage model locality point_distribution
      point_parameters array size read_and_alter array_distribution array_parameters name hname)
  exact Reachable.step 0 _ g _ _ _ _ h1 (pse_step_start_holding R 0 g _ seed_1 seed_2)

/-! ## The scenario of the sample program -/

/-- The calls on the variable "distance", from a Created store: every call
reports Ok; `pse_prepare` stores 12.4 without a draw, and the first
`pse_observe` draws with `gennor (12.4, 50.0)`, from the generator as
`pse_start` seeded it. -/
theorem pse_run_distance {G : Type} (R : ranlib G) (fuel : Nat) (pse : pse_agent_stub) (g : G)
    (u : pse_uninit) (ptr_out : pse_variable) (h : pse.state = CREATED) :
    pse_run R fuel pse g (calls_distance u ptr_out) =
      .ok (pse_holding STARTED
            { var_distance u with
              content := pse_content.cdouble
                (R.gennor double_12_4 double_50_0 (R.set_seed 103 29 (R.rnglib_init g))).1,
              point_parameters := ptr_out.point_parameters,
              array_parameters := ptr_out.array_parameters },
           (R.gennor double_12_4 double_50_0 (R.set_seed 103 29 (R.rnglib_init g))).2,
           [ { code := 0, output := none }, { code := 0, output := none },
             { code := 0, output := none }, { code := 0, output := none },
             { code := 0,
               output := some (pse_output.record
                 { ptr_out with
                   content := pse_content.cdouble
                     (R.gennor double_12_4 double_50_0
                       (R.set_seed 103 29 (R.rnglib_init g))).1 }) } ]) := by
  have h0 := pse_step_init_created R fuel pse g h
  have h1 := pse_step_register_first R fuel g u PSE_VAR_DOUBLE PSE_VAR_STOCHASTIC PSE_AGENT
    PSE_DIST_NORMAL_SELF point_params_distance PSE_SCALAR 1 PSE_TRUE PSE_DIST_NONE params_demo
    name_distance (by decide)
  have h2 := pse_step_start_holding R fuel g (var_distance u) 103 29
  have hp := pse_prepare_scalar_ok R fuel (pse_holding STARTED (var_distance u))
    (R.set_seed 103 29 (R.rnglib_init g)) 0 (var_distance u)
    (pse_content.cdouble double_12_4) (pse_content.cdouble double_12_4) 0 rfl
    (holding_get _ _) rfl rfl
  rw [holding_put] at hp
  have h3 : pse_step R fuel (pse_holding STARTED (var_distance u))
      (R.set_seed 103 29 (R.rnglib_init g))
      (pse_call.prepare 0 (pse_content.cdouble double_12_4) 0 PSE_VAR_DOUBLE) =
      .ok (pse_holding STARTED
            { var_distance u with content := pse_content.cdouble double_12_4 },
           R.set_seed 103 29 (R.rnglib_init g), { code := 0, output := none }) := by
    have hs : (var_distance u).storage = PSE_VAR_DOUBLE := rfl
    rw [hs] at hp
    simp only [pse_step, hp]
    rfl
  have ho := pse_observe_scalar_double_alter R fuel
    (pse_holding STARTED { var_distance u with content := pse_content.cdouble double_12_4 })
    (R.set_seed 103 29 (R.rnglib_init g)) 0
    { var_distance u with content := pse_content.cdouble double_12_4 } double_12_4 0 ptr_out
    rfl (holding_get _ _) rfl rfl (Or.inl rfl) rfl rfl rfl
  rw [holding_put] at ho
  have h4 : pse_step R fuel
      (pse_holding STARTED { var_distance u with content := pse_content.cdouble double_12_4 })
      (R.set_seed 103 29 (R.rnglib_init g)) (pse_call.observe 0 0 ptr_out) =
      .ok (pse_holding STARTED
            { var_distance u with
              content := pse_content.cdouble
                (R.gennor double_12_4 double_50_0 (R.set_seed 103 29 (R.rnglib_init g))).1,
              point_parameters := ptr_out.point_parameters,
              array_parameters := ptr_out.array_parameters },
           (R.gennor double_12_4 double_50_0 (R.set_seed 103 29 (R.rnglib_init g))).2,
           { code := 0,
             output := some (pse_output.record
               { ptr_out with
                 content := pse_content.cdouble
                   (R.gennor double_12_4 double_50_0
                     (R.set_seed 103 29 (R.rnglib_init g))).1 }) }) := by
    simp only [pse_step, ho]
    rfl
  have h1a : pse_step R fuel
      { state := INITIALIZED, var_count := 0, var_limit := 0,
        variables_ := pse_table.null pse_variable,
        dependencies := pse_table.null pse_dependency } g
      (pse_call.register u PSE_VAR_DOUBLE PSE_VAR_STOCHASTIC PSE_AGENT PSE_DIST_NORMAL_SELF
        point_params_distance PSE_SCALAR 1 PSE_TRUE PSE_DIST_NONE params_demo name_distance) =
      .ok (pse_holding INITIALIZED (var_distance u), g, { code := 0, output := none }) := h1
  simp only [calls_distance, pse_run, h0, h1a, h2, h3, h4]

/-- C25 (as amended): in the scenario `init`, `register` of "distance" (Double,
Stochastic, Agent, Normal-Self with the point parameters 50.0, 2.3, 0, 0, 0,
Scalar, `read_and_alter` set), `start (103, 29)`, `prepare (12.4)`, `observe`,
every call reports Ok and the first `pse_observe` returns in the content of the
output record, and leaves in the store, the draw `gennor (12.4, 50.0)` taken
from the generator as `pse_start` seeded it: the mean is the prepared value and
the standard deviation is point parameter 0. In general a Normal-Self draw is
`gennor` of the current value and point parameter 0. -/
theorem C25_distance_draw_uses_first_parameter {G : Type} (R : ranlib G) (fuel : Nat)
    (pse : pse_agent_stub) (g : G) (u : pse_uninit) (ptr_out : pse_variable)
    (h : pse.state = CREATED) :
    (∃ s1 out,
      pse_run R fuel pse g (calls_distance u ptr_out) =
        .ok (s1,
             (R.gennor double_12_4 double_50_0 (R.set_seed 103 29 (R.rnglib_init g))).2,
             [ { code := 0, output := none }, { code := 0, output := none },
               { code := 0, output := none }, { code := 0, output := none },
               { code := 0, output := some out } ]) ∧
      out.content = pse_content.cdouble
        (R.gennor double_12_4 double_50_0 (R.set_seed 103 29 (R.rnglib_init g))).1 ∧
      pse_read_double s1 0 =
        .ok (R.gennor double_12_4 double_50_0 (R.set_seed 103 29 (R.rnglib_init g))).1) ∧
    (∀ (value : pse_double) (pars : pse_params) (g1 : G),
      pse_sample_double_distribution R value pars PSE_DIST_NORMAL_SELF g1 =
        R.gennor value pars.p0 g1) := by
  refine ⟨⟨_, _, pse_run_distance R fuel pse g u ptr_out h, rfl, ?_⟩, fun _ _ _ => rfl⟩
  unfold pse_read_double
  simp only [holding_get]

theorem C25_distance_draw_uses_first_parameter_witness :
    ∃ s1 out,
      pse_run ranlib_demo 0 pse_zeroed 0
          (calls_distance uninit_demo (pse_template uninit_demo (var_distance uninit_demo))) =
        .ok (s1, 133,
             [ { code := 0, output := none }, { code := 0, output := none },
               { code := 0, output := none }, { code := 0, output := none },
               { code := 0, output := some out } ]) ∧
      out.content = pse_content.cdouble double_12_4 ∧
      pse_read_double s1 0 = .ok double_12_4 :=
  (C25_distance_draw_uses_first_parameter ranlib_demo 0 pse_zeroed 0 uninit_demo
    (pse_template uninit_demo (var_distance uninit_demo)) rfl).1

/-- C25 (counterexample): with a numeric library whose normal draw returns the
sum of the bit patterns of its two arguments, the first `pse_observe` of the
scenario returns the sum for 12.4 and 50.0, which is not the draw
`gennor (12.4, 2.3)` from the same generator state. -/
theorem C25_sigma_is_not_second_parameter :
    ∃ s1 out,
      pse_run ranlib_spread 0 pse_zeroed 0
          (calls_distance uninit_demo (pse_template uninit_demo (var_distance uninit_demo))) =
        .ok (s1, 133,
             [ { code := 0, output := none }, { code := 0, output := none },
               { code := 0, output := none }, { code := 0, output := none },
               { code := 0, output := some out } ]) ∧
      out.content = pse_content.cdouble ⟨double_12_4.bits + double_50_0.bits⟩ ∧
      out.content ≠ pse_content.cdouble (ranlib_spread.gennor double_12_4 double_2_3 132).1 :=
  ⟨_, _, pse_run_distance ranlib_spread 0 pse_zeroed 0 uninit_demo
    (pse_template uninit_demo (var_distance uninit_demo)) rfl, rfl, by decide⟩

/-! ## Runs with the same seeds -/

/-- One call on a store that is not Started, from two states of the generator:
the two calls fault alike, or leave the same store and hand back the same
reply; when the store they leave is Started, the generator is the same too,
provided that the state `initialize ()` leaves does not depend on the state
before. -/
theorem pse_step_unstarted {G : Type} (R : ranlib G) (fuel : Nat) (pse : pse_agent_stub)
    (g1 g2 : G) (c : pse_call) (hinit : ∀ a b : G, R.rnglib_init a = R.rnglib_init b)
    (hst : pse.state ≠ STARTED) :
    (∃ e, pse_step R fuel pse g1 c = .error e ∧ pse_step R fuel pse g2 c = .error e) ∨
    (∃ s h1 h2 r, pse_step R fuel pse g1 c = .ok (s, h1, r) ∧
      pse_step R fuel pse g2 c = .ok (s, h2, r) ∧ (s.state = STARTED → h1 = h2)) := by
  cases c with
  | init =>
    refine Or.inr ⟨(pse_init pse).1, g1, g2, _, rfl, rfl, ?_⟩
    intro h
    rcases pse_init_shape pse with ⟨_, _, h3⟩ | ⟨_, h2, _⟩
    · rw [h3] at h; cases h
    · rw [h2] at h; exact absurd h hst
  | start seed_1 seed_2 =>
    cases hs : pse.state
    · exact Or.inr ⟨pse, g1, g2, { code := PSE_ERROR_NOT_INITIALIZED.toInt, output := none },
        by simp [pse_step, pse_start, hs], by simp [pse_step, pse_start, hs], fun h => absurd h hst⟩
    · refine Or.inr ⟨{ pse with state := STARTED }, R.set_seed seed_1 seed_2 (R.rnglib_init g1),
        R.set_seed seed_1 seed_2 (R.rnglib_init g2),
        { code := PSE_ERROR_OK.toInt, output := none }, by simp [pse_step, pse_start, hs],
        by simp [pse_step, pse_start, hs], fun _ => by rw [hinit g1 g2]⟩
    · exact absurd hs hst
    · exact Or.inr ⟨pse, g1, g2, { code := PSE_ERROR_ALREADY_FINALIZED.toInt, output := none },
        by simp [pse_step, pse_start, hs], by simp [pse_step, pse_start, hs], fun h => absurd h hst⟩
  | finalize =>
    cases hf : pse_finalize pse with
    | error e => exact Or.inl ⟨e, by simp [pse_step, hf], by simp [pse_step, hf]⟩
    | ok r =>
      refine Or.inr ⟨r.1, g1, g2, { code := r.2.toInt, output := none },
        by simp only [pse_step, hf], by simp only [pse_step, hf], ?_⟩
      intro h
      rcases pse_finalize_shape pse r.1 r.2 hf with ⟨_, h2, _⟩ | ⟨_, h2, _⟩ | ⟨_, _, h3, _⟩
      · rw [h2] at h; exact absurd h hst
      · rw [h2] at h; exact absurd h hst
      · rw [h3] at h; cases h
  | register u storage model locality point_distribution point_parameters array size
      read_and_alter array_distribution array_parameters name =>
    cases hf : pse_register pse u storage model locality point_distribution point_parameters
      array size read_and_alter array_distribution array_parameters name with
    | error e => exact Or.inl ⟨e, by simp [pse_step, hf], by simp [pse_step, hf]⟩
    | ok r =>
      refine Or.inr ⟨r.1, g1, g2, { code := r.2, output := none },
        by simp only [pse_step, hf], by simp only [pse_step, hf], ?_⟩
      intro h
      rcases pse_register_shape pse u storage model locality point_distribution
        point_parameters array size read_and_alter array_distribution array_parameters name
        r.1 r.2 hf with ⟨_, h2, _⟩ | ⟨_, h2, _⟩ | ⟨_, _, _, _, h3, _⟩
      · rw [h2] at h; exact absurd h hst
      · rw [h2] at h; exact absurd h hst
      · rw [h3] at h; cases h
  | deregister varid =>
    cases hf : pse_deregister pse varid with
    | error e => exact Or.inl ⟨e, by simp [pse_step, hf], by simp [pse_step, hf]⟩
    | ok r =>
      refine Or.inr ⟨r.1, g1, g2, { code := r.2.toInt, output := none },
        by simp only [pse_step, hf], by simp only [pse_step, hf], ?_⟩
      intro h
      rcases pse_deregister_shape pse varid r.1 r.2 hf with ⟨_, h2, _⟩ | ⟨_, _, h3, _⟩
      · rw [h2] at h; exact absurd h hst
      · rw [h3.1] at h; exact absurd h hst
  | add_dependencies varid conditionals count =>
    cases hf : pse_add_dependencies pse varid conditionals count with
    | error e => exact Or.inl ⟨e, by simp [pse_step, hf], by simp [pse_step, hf]⟩
    | ok r =>
      refine Or.inr ⟨r.1, g1, g2, { code := r.2.toInt, output := none },
        by simp only [pse_step, hf], by simp only [pse_step, hf], ?_⟩
      intro h
      rcases pse_add_dependencies_shape pse varid conditionals count r.1 r.2 hf with
        ⟨_, h2, _⟩ | ⟨_, _, h3⟩
      · rw [h2] at h; exact absurd h hst
      · rw [h3.1] at h; exact absurd h hst
  | rm_dependencies varid =>
    cases hf : pse_rm_dependencies pse varid with
    | error e => exact Or.inl ⟨e, by simp [pse_step, hf], by simp [pse_step, hf]⟩
    | ok r =>
      refine Or.inr ⟨r.1, g1, g2, { code := r.2.toInt, output := none },
        by simp only [pse_step, hf], by simp only [pse_step, hf], ?_⟩
      intro h
      rcases pse_rm_dependencies_shape pse varid r.1 r.2 hf with ⟨_, h2, _⟩ | ⟨_, _, h3⟩
      · rw [h2] at h; exact absurd h hst
      · rw [h3.1] at h; exact absurd h hst
  | supply_prior varid priors =>
    cases hf : pse_supply_prior pse varid priors with
    | error e => exact Or.inl ⟨e, by simp [pse_step, hf], by simp [pse_step, hf]⟩
    | ok r =>
      refine Or.inr ⟨r.1, g1, g2, { code := r.2.toInt, output := none },
        by simp only [pse_step, hf], by simp only [pse_step, hf], ?_⟩
      intro h
      rcases pse_supply_prior_shape pse varid priors r.1 r.2 hf with ⟨_, h2, _⟩ | ⟨_, _, h3⟩
      · rw [h2] at h; exact absurd h hst
      · rw [h3.1] at h; exact absurd h hst
  | prepare varid content location storage =>
    cases hs : pse.state
    · exact Or.inr ⟨pse, g1, g2, { code := PSE_ERROR_NOT_INITIALIZED.toInt, output := none },
        by simp [pse_step, pse_prepare, hs], by simp [pse_step, pse_prepare, hs], fun h => absurd h hst⟩
    · exact Or.inr ⟨pse, g1, g2, { code := PSE_ERROR_NOT_INITIALIZED.toInt, output := none },
        by simp [pse_step, pse_prepare, hs], by simp [pse_step, pse_prepare, hs], fun h => absurd h hst⟩
    · exact absurd hs hst
    · exact Or.inr ⟨pse, g1, g2, { code := PSE_ERROR_ALREADY_FINALIZED.toInt, output := none },
        by simp [pse_step, pse_prepare, hs], by simp [pse_step, pse_prepare, hs], fun h => absurd h hst⟩
  | observe varid location ptr_out =>
    cases hs : pse.state
    · exact Or.inr ⟨pse, g1, g2, { code := PSE_ERROR_NOT_INITIALIZED.toInt, output := some (pse_output.record ptr_out) },
        by simp [pse_step, pse_observe, hs], by simp [pse_step, pse_observe, hs], fun h => absurd h hst⟩
    · exact Or.inr ⟨pse, g1, g2, { code := PSE_ERROR_NOT_INITIALIZED.toInt, output := some (pse_output.record ptr_out) },
        by simp [pse_step, pse_observe, hs], by simp [pse_step, pse_observe, hs], fun h => absurd h hst⟩
    · exact absurd hs hst
    · exact Or.inr ⟨pse, g1, g2, { code := PSE_ERROR_ALREADY_FINALIZED.toInt, output := some (pse_output.record ptr_out) },
        by simp [pse_step, pse_observe, hs], by simp [pse_step, pse_observe, hs], fun h => absurd h hst⟩

/-- A run of two lists of calls, one after the other. -/
theorem pse_run_append {G : Type} (R : ranlib G) (fuel : Nat) :
    ∀ (cs1 cs2 : List pse_call) (pse s1 s2 : pse_agent_stub) (g g1 g2 : G)
      (rs1 rs2 : List pse_reply),
      pse_run R fuel pse g cs1 = .ok (s1, g1, rs1) →
      pse_run R fuel s1 g1 cs2 = .ok (s2, g2, rs2) →
      pse_run R fuel pse g (cs1 ++ cs2) = .ok (s2, g2, rs1 ++ rs2) := by
  intro cs1
  induction cs1 with
  | nil =>
    intro cs2 pse s1 s2 g g1 g2 rs1 rs2 h1 h2
    simp only [pse_run] at h1
    cases h1
    exact h2
  | cons c cs ih =>
    intro cs2 pse s1 s2 g g1 g2 rs1 rs2 h1 h2
    obtain ⟨sa, ga, r, rsa, hstep, hrun, hrs⟩ := pse_run_cons R fuel pse g c cs s1 g1 rs1 h1
    have := ih cs2 sa s1 s2 ga g1 g2 rsa rs2 hrun h2
    subst hrs
    show pse_run R fuel pse g (c :: (cs ++ cs2)) = .ok (s2, g2, r :: (rsa ++ rs2))
    simp only [pse_run, hstep, this]

/-- Observing the Bernoulli variable of `calls_coin` once: the reply is Ok, the
draw is Tails, the store stays and the generator has advanced by one draw. -/
theorem pse_step_observe_coin (fuel : Nat) (g : Nat) :
    pse_step ranlib_demo fuel (pse_holding STARTED var_coin) g
        (pse_call.observe 0 0 (pse_template uninit_demo var_coin)) =
      .ok (pse_holding STARTED var_coin, g + 1,
           { code := 0,
             output := some (pse_output.record
               { pse_template uninit_demo var_coin with
                 content := pse_content.cint PSE_TAILS }) }) := by
  have h := pse_observe_scalar_int_keep ranlib_demo fuel (pse_holding STARTED var_coin) g 0
    var_coin 0 0 (pse_template uninit_demo var_coin) rfl (holding_get _ _) rfl rfl rfl rfl
    (by decide) rfl
  simp only [pse_step, h]
  rfl

/-- Observing it `n` times. -/
theorem pse_run_observe_coin (fuel : Nat) :
    ∀ (n : Nat) (g : Nat),
      pse_run ranlib_demo fuel (pse_holding STARTED var_coin) g
          (List.replicate n (pse_call.observe 0 0 (pse_template uninit_demo var_coin))) =
        .ok (pse_holding STARTED var_coin, g + n,
             List.replicate n
               { code := 0,
                 output := some (pse_output.record
                   { pse_template uninit_demo var_coin with
                     content := pse_content.cint PSE_TAILS }) }) := by
  intro n
  induction n with
  | zero => intro g; rfl
  | succ n ih =>
    intro g
    have h := ih (g + 1)
    simp only [List.replicate_succ, pse_run, pse_step_observe_coin, h]
    have : g + 1 + n = g + (n + 1) := by omega
    rw [this]

/-- The run `calls_coin` from a zero-filled store returns: 10003 replies, the
last 10000 of them Ok with the draw Tails. -/
theorem pse_run_calls_coin (fuel : Nat) (g : Nat) :
    pse_run ranlib_demo fuel pse_zeroed g calls_coin =
      .ok (pse_holding STARTED var_coin, 10002,
           [ { code := 0, output := none }, { code := 0, output := none },
             { code := 0, output := none } ] ++
           List.replicate 10000
             { code := 0,
               output := some (pse_output.record
                 { pse_template uninit_demo var_coin with
                   content := pse_content.cint PSE_TAILS }) }) := by
  have h0 := pse_step_init_created ranlib_demo fuel pse_zeroed g rfl
  have h1 : pse_step ranlib_demo fuel
      { state := INITIALIZED, var_count := 0, var_limit := 0,
        variables_ := pse_table.null pse_variable,
        dependencies := pse_table.null pse_dependency } g
      (pse_call.register uninit_demo PSE_VAR_INT PSE_VAR_STOCHASTIC PSE_AGENT PSE_DIST_BERNOULLI
        ⟨double_0_5, ⟨0⟩, ⟨0⟩, ⟨0⟩, ⟨0⟩⟩ PSE_SCALAR 1 PSE_FALSE PSE_DIST_NONE params_demo [99]) =
      .ok (pse_holding INITIALIZED var_coin, g, { code := 0, output := none }) :=
    pse_step_register_first ranlib_demo fuel g uninit_demo PSE_VAR_INT PSE_VAR_STOCHASTIC
      PSE_AGENT PSE_DIST_BERNOULLI ⟨double_0_5, ⟨0⟩, ⟨0⟩, ⟨0⟩, ⟨0⟩⟩ PSE_SCALAR 1 PSE_FALSE
      PSE_DIST_NONE params_demo [99] (by decide)
  have h2 : pse_step ranlib_demo fuel (pse_holding INITIALIZED var_coin) g
      (pse_call.start 1 1) =
      .ok (pse_holding STARTED var_coin, 2, { code := 0, output := none }) :=
    pse_step_start_holding ranlib_demo fuel g var_coin 1 1
  have hhead : pse_run ranlib_demo fuel pse_zeroed g
      [ pse_call.init,
        pse_call.register uninit_demo PSE_VAR_INT PSE_VAR_STOCHASTIC PSE_AGENT
          PSE_DIST_BERNOULLI ⟨double_0_5, ⟨0⟩, ⟨0⟩, ⟨0⟩, ⟨0⟩⟩ PSE_SCALAR 1 PSE_FALSE
          PSE_DIST_NONE params_demo [99],
        pse_call.start 1 1 ] =
      .ok (pse_holding STARTED var_coin, 2,
           [ { code := 0, output := none }, { code := 0, output := none },
             { code := 0, output := none } ]) := by
    simp only [pse_run, h0, h1, h2]
  exact pse_run_append ranlib_demo fuel _ _ pse_zeroed _ _ g 2 _ _ _ hhead
    (pse_run_observe_coin fuel 10000 2)

/-- Two runs of the same calls from one store and two states of the generator
that agree if the store is Started: they fault alike, or end in the same store
with the same replies. -/
theorem pse_run_same {G : Type} (R : ranlib G) (fuel : Nat)
    (hinit : ∀ a b : G, R.rnglib_init a = R.rnglib_init b) :
    ∀ (cs : List pse_call) (pse : pse_agent_stub) (g1 g2 : G),
      (pse.state = STARTED → g1 = g2) →
      (∃ e, pse_run R fuel pse g1 cs = .error e ∧ pse_run R fuel pse g2 cs = .error e) ∨
      (∃ s h1 h2 rs, pse_run R fuel pse g1 cs = .ok (s, h1, rs) ∧
        pse_run R fuel pse g2 cs = .ok (s, h2, rs) ∧ (s.state = STARTED → h1 = h2)) := by
  intro cs
  induction cs with
  | nil =>
    intro pse g1 g2 h
    exact Or.inr ⟨pse, g1, g2, [], rfl, rfl, h⟩
  | cons c cs ih =>
    intro pse g1 g2 h
    have hstep : (∃ e, pse_step R fuel pse g1 c = .error e ∧
          pse_step R fuel pse g2 c = .error e) ∨
        (∃ s h1 h2 r, pse_step R fuel pse g1 c = .ok (s, h1, r) ∧
          pse_step R fuel pse g2 c = .ok (s, h2, r) ∧ (s.state = STARTED → h1 = h2)) := by
      by_cases hst : pse.state = STARTED
      · have hg := h hst
        subst hg
        cases hs : pse_step R fuel pse g1 c with
        | error e => exact Or.inl ⟨e, rfl, rfl⟩
        | ok r => exact Or.inr ⟨r.1, r.2.1, r.2.1, r.2.2, rfl, rfl, fun _ => rfl⟩
      · exact pse_step_unstarted R fuel pse g1 g2 c hinit hst
    rcases hstep with ⟨e, e1, e2⟩ | ⟨s, h1, h2, r, e1, e2, hs⟩
    · exact Or.inl ⟨e, by simp only [pse_run, e1], by simp only [pse_run, e2]⟩
    · rcases ih s h1 h2 hs with ⟨e, f1, f2⟩ | ⟨s2, k1, k2, rs, f1, f2, hk⟩
      · exact Or.inl ⟨e, by simp only [pse_run, e1, f1], by simp only [pse_run, e2, f2]⟩
      · exact Or.inr ⟨s2, k1, k2, r :: rs, by simp only [pse_run, e1, f1],
          by simp only [pse_run, e2, f2], hk⟩

/-- C26: two runs of the same sequence of calls on the same Created store, from
any two states of the generator, end in the same store and hand back the same
replies (error codes and output records), or leave defined behaviour alike: the
generator is consulted only once the store is Started, and `pse_start` has
seeded it by then. The storage each `register` call is given and the record
each `observe` call is passed belong to the calls; the state that
`initialize ()` of rnglib leaves is taken not to depend on the state before. -/
theorem C26_same_seeds_same_run {G : Type} (R : ranlib G) (fuel : Nat) (pse : pse_agent_stub)
    (g1 g2 : G) (cs : List pse_call) (hinit : ∀ a b : G, R.rnglib_init a = R.rnglib_init b)
    (hfresh : pse.state = CREATED) :
    (pse_run R fuel pse g1 cs).map (fun r => (r.1, r.2.2)) =
      (pse_run R fuel pse g2 cs).map (fun r => (r.1, r.2.2)) := by
  have hne : pse.state = STARTED → g1 = g2 := by
    intro h
    rw [hfresh] at h
    cases h
  rcases pse_run_same R fuel hinit cs pse g1 g2 hne with ⟨e, e1, e2⟩ | ⟨s, h1, h2, rs, e1, e2, _⟩
  · rw [e1, e2]
  · rw [e1, e2]
    rfl

theorem C26_same_seeds_same_run_witness :
    (pse_run ranlib_demo 0 pse_zeroed 0 calls_coin).map (fun r => (r.1, r.2.2)) =
      (pse_run ranlib_demo 0 pse_zeroed 7 calls_coin).map (fun r => (r.1, r.2.2)) ∧
    ∃ rs, pse_run ranlib_demo 0 pse_zeroed 7 calls_coin =
        .ok (pse_holding STARTED var_coin, 10002, rs) ∧ rs.length = 10003 :=
  ⟨C26_same_seeds_same_run ranlib_demo 0 pse_zeroed 0 7 calls_coin (fun _ _ => rfl) rfl,
   _, pse_run_calls_coin 0 7,
   by rw [List.length_append, List.length_replicate]; rfl⟩

/-! ## The redraw loops -/

/-- A redraw loop that returns within some fuel returns the same with more. -/
theorem redraw_mono {G α : Type} (draw : G → α × G) (again : α → Bool) :
    ∀ (n m : Nat) (g : G) (r : α × G), redraw n draw again g = .ok r → n ≤ m →
      redraw m draw again g = .ok r := by
  intro n
  induction n with
  | zero =>
    intro m g r h _
    simp [redraw] at h
  | succ n ih =>
    intro m g r h hle
    cases m with
    | zero => omega
    | succ m =>
      simp only [redraw] at h ⊢
      split at h
      · rename_i hc
        simp only [hc, if_true]
        exact ih m _ r h (by omega)
      · rename_i hc
        simp only [hc]
        exact h

/-- A redraw loop whose test holds for every draw returns within no fuel. -/
theorem redraw_reject {G α : Type} (draw : G → α × G) (again : α → Bool)
    (hall : ∀ x, again x = true) :
    ∀ (n : Nat) (g : G), redraw n draw again g = .error pse_fault.no_fuel := by
  intro n
  induction n with
  | zero => intro g; rfl
  | succ n ih =>
    intro g
    simp only [redraw, hall, if_true]
    exact ih _

/-- What a redraw loop returns fails its test. -/
theorem redraw_accepts {G α : Type} (draw : G → α × G) (again : α → Bool) :
    ∀ (n : Nat) (g : G) (r : α × G), redraw n draw again g = .ok r → again r.1 = false := by
  intro n
  induction n with
  | zero =>
    intro g r h
    simp [redraw] at h
  | succ n ih =>
    intro g r h
    simp only [redraw] at h
    split at h
    · exact ih _ r h
    · rename_i hc
      cases h
      simpa using hc

/-- The only fault of a redraw loop is that it does not return within the fuel. -/
theorem redraw_fault {G α : Type} (draw : G → α × G) (again : α → Bool) :
    ∀ (n : Nat) (g : G) (e : pse_fault), redraw n draw again g = .error e →
      e = pse_fault.no_fuel := by
  intro n
  induction n with
  | zero =>
    intro g e h
    simp only [redraw] at h
    cases h
    rfl
  | succ n ih =>
    intro g e h
    simp only [redraw] at h
    split at h
    · exact ih _ e h
    · cases h

theorem pse_randomize_location_mono {G : Type} (R : ranlib G) (ptr_out var : pse_variable)
    (str_len : Nat) (g : G) (n m : Nat) (r : pse_params × Nat × G)
    (h : pse_randomize_location R n ptr_out var str_len g = .ok r) (hle : n ≤ m) :
    pse_randomize_location R m ptr_out var str_len g = .ok r := by
  unfold pse_randomize_location at h ⊢
  dsimp only at h ⊢
  split at h <;> split at h <;> rename_i c1 c2 <;> simp only [c1, c2, if_true, if_false] <;>
    split at h <;> first
      | (rename_i r0 heq
         rw [redraw_mono _ _ n m g r0 heq hle]
         exact h)
      | cases h

theorem pse_randomize_location_empty {G : Type} (R : ranlib G) (ptr_out var : pse_variable)
    (g : G) (n : Nat) :
    pse_randomize_location R n ptr_out var 0 g = .error pse_fault.no_fuel := by
  unfold pse_randomize_location
  dsimp only
  split <;> split <;> rw [redraw_reject _ _ (fun _ => by simp)]

theorem pse_randomize_location_lt {G : Type} (R : ranlib G) (ptr_out var : pse_variable)
    (str_len : Nat) (g : G) (n : Nat) (r : pse_params × Nat × G)
    (h : pse_randomize_location R n ptr_out var str_len g = .ok r) : r.2.1 < str_len := by
  unfold pse_randomize_location at h
  dsimp only at h
  split at h <;> split at h <;> split at h <;> first
    | (rename_i r0 heq
       have := redraw_accepts _ _ n g r0 heq
       cases h
       simpa using this)
    | cases h

theorem pse_randomize_char_mono {G : Type} (R : ranlib G) (ptr_out var : pse_variable)
    (ap : pse_params) (str_len : Nat) (g : G) (n m : Nat) (r : pse_params × Nat × G)
    (h : pse_randomize_char R n ptr_out var ap str_len g = .ok r) (hle : n ≤ m) :
    pse_randomize_char R m ptr_out var ap str_len g = .ok r := by
  unfold pse_randomize_char at h ⊢
  dsimp only at h ⊢
  split at h <;> split at h <;> rename_i c1 c2 <;> simp only [c1, c2, if_true, if_false] <;>
    split at h <;> first
      | (rename_i r0 heq
         rw [redraw_mono _ _ n m g r0 heq hle]
         exact h)
      | cases h

theorem pse_randomize_char_a_mono {G : Type} (R : ranlib G) (ptr_out var : pse_variable)
    (ap : pse_params) (str_len : Nat) (g : G) (n m : Nat) (r : pse_params × Nat × G)
    (h : pse_randomize_char_a R n ptr_out var ap str_len g = .ok r) (hle : n ≤ m) :
    pse_randomize_char_a R m ptr_out var ap str_len g = .ok r := by
  unfold pse_randomize_char_a at h ⊢
  dsimp only at h ⊢
  split at h <;> split at h <;> rename_i c1 c2 <;> simp only [c1, c2, if_true, if_false] <;>
    first
      | cases h
      | (split at h <;> first
          | (rename_i r0 heq
             rw [redraw_mono _ _ n m g r0 heq hle]
             exact h)
          | cases h)

/-- The byte left by the second loop of the scalar string branch fails the
loop test `c > char_max`. -/
theorem pse_randomize_char_accepts {G : Type} (R : ranlib G) (ptr_out var : pse_variable)
    (ap : pse_params) (str_len : Nat) (g : G) (n : Nat) (r : pse_params × Nat × G)
    (h : pse_randomize_char R n ptr_out var ap str_len g = .ok r) :
    char_above_max R.char_signed r.2.1 = false := by
  unfold pse_randomize_char at h
  dsimp only at h
  split at h <;> split at h <;> split at h <;> first
    | (rename_i r0 heq
       have := redraw_accepts _ _ n g r0 heq
       cases h
       exact this)
    | cases h

/-- With a signed `char` the loop test `c > char_max` compares with -1: the
bytes that pass have the high bit set, and none of them is printable. With an
unsigned `char` every byte passes. -/
theorem char_above_max_signed (c : Nat) (h : char_above_max true c = false) :
    128 ≤ c % 256 ∧ is_printable c = false := by
  unfold char_above_max char_val char_max at h
  have h128 : 128 ≤ c % 256 := by
    by_contra hc
    simp [hc] at h
    omega
  refine ⟨h128, ?_⟩
  unfold is_printable
  have := Nat.mod_le c 256
  simp
  omega

theorem char_above_max_unsigned (c : Nat) : char_above_max false c = false := by
  unfold char_above_max char_val char_max
  have := Nat.mod_lt c (by decide : 256 > 0)
  simp
  omega

theorem strlen_c_str (s : c_string) : strlen (c_str s) = strlen s := by
  unfold strlen c_str
  rw [List.takeWhile_idem]

/-- What `pse_randomize` returns within some fuel it returns with more: the
result does not depend on a limit to the retries. -/
theorem pse_randomize_mono {G : Type} (R : ranlib G) (ptr_out var : pse_variable)
    (location : Nat) (g : G) (n m : Nat) (r : pse_variable × G)
    (h : pse_randomize R n ptr_out var location g = .ok r) (hle : n ≤ m) :
    pse_randomize R m ptr_out var location g = .ok r := by
  cases ha : var.array <;> cases hs : var.storage <;>
    simp only [pse_randomize, ha, hs] at h ⊢ <;> try exact h
  · cases hc : var.content <;> cases ho : ptr_out.content <;> simp only [hc, ho] at h ⊢ <;>
      try exact h
    rename_i src dst
    cases hcp : strcpy PSE_MAX_STRLEN src with
    | error e => simp only [hcp] at h; cases h
    | ok s0 =>
      simp only [hcp] at h ⊢
      cases hl : pse_randomize_location R n ptr_out var (strlen s0) g with
      | error e => simp only [hl] at h; cases h
      | ok r1 =>
        obtain ⟨ap, loc, g1⟩ := r1
        rw [pse_randomize_location_mono R ptr_out var (strlen s0) g n m _ hl hle]
        simp only [hl] at h ⊢
        cases hch : pse_randomize_char R n ptr_out var ap (strlen s0) g1 with
        | error e => simp only [hch] at h; cases h
        | ok r2 =>
          obtain ⟨ap1, c, g2⟩ := r2
          rw [pse_randomize_char_mono R ptr_out var ap (strlen s0) g1 n m _ hch hle]
          simp only [hch] at h ⊢
          exact h
  · cases hc : var.content <;> cases ho : ptr_out.content <;> simp only [hc, ho] at h ⊢ <;>
      try exact h
    rename_i xs ys
    cases hx : xs[location]? with
    | none => simp only [hx] at h; cases h
    | some src =>
      simp only [hx] at h ⊢
      split at h
      · rename_i hlt
        simp only [hlt, if_true]
        cases hcp : strcpy PSE_MAX_STRLEN src with
        | error e => simp only [hcp] at h; cases h
        | ok s0 =>
          simp only [hcp] at h ⊢
          cases hl : pse_randomize_location R n ptr_out var (strlen s0) g with
          | error e => simp only [hl] at h; cases h
          | ok r1 =>
            obtain ⟨ap, loc, g1⟩ := r1
            rw [pse_randomize_location_mono R ptr_out var (strlen s0) g n m _ hl hle]
            simp only [hl] at h ⊢
            cases hch : pse_randomize_char_a R n ptr_out var ap (strlen s0) g1 with
            | error e => simp only [hch] at h; cases h
            | ok r2 =>
              obtain ⟨ap1, c, g2⟩ := r2
              rw [pse_randomize_char_a_mono R ptr_out var ap (strlen s0) g1 n m _ hch hle]
              simp only [hch] at h ⊢
              exact h
      · cases h

/-- On a Scalar String variable that holds the empty string `pse_randomize`
returns within no fuel: no position is below the length 0. -/
theorem pse_randomize_empty_scalar {G : Type} (R : ranlib G) (ptr_out var : pse_variable)
    (location : Nat) (g : G) (n : Nat) (s t : c_string)
    (ha : var.array = PSE_SCALAR) (hs : var.storage = PSE_VAR_STRING)
    (hc : var.content = pse_content.cstring s) (ho : ptr_out.content = pse_content.cstring t)
    (hlen : strlen s = 0) :
    pse_randomize R n ptr_out var location g = .error pse_fault.no_fuel := by
  have hcp : strcpy PSE_MAX_STRLEN s = .ok (c_str s) := by
    unfold strcpy
    simp [hlen, PSE_MAX_STRLEN]
  have hl0 : strlen (c_str s) = 0 := by rw [strlen_c_str]; exact hlen
  simp only [pse_randomize, ha, hs, hc, ho, hcp, hl0, pse_randomize_location_empty]

/-- What `pse_randomize` returns on a Scalar String variable: the stored string
with one byte replaced, at a position below its length, by a byte that fails
the loop test `c > char_max`. -/
theorem pse_randomize_scalar_string {G : Type} (R : ranlib G) (ptr_out var : pse_variable)
    (location : Nat) (g : G) (n : Nat) (out : pse_variable) (g2 : G)
    (ha : var.array = PSE_SCALAR) (hs : var.storage = PSE_VAR_STRING)
    (h : pse_randomize R n ptr_out var location g = .ok (out, g2)) :
    ∃ src loc c, var.content = pse_content.cstring src ∧
      out.content = pse_content.cstring ((c_str src).set loc c) ∧
      loc < strlen src ∧ char_above_max R.char_signed c = false := by
  simp only [pse_randomize, ha, hs] at h
  cases hc : var.content <;> cases ho : ptr_out.content <;> simp only [hc, ho] at h <;>
    try cases h
  rename_i src dst
  cases hcp : strcpy PSE_MAX_STRLEN src with
  | error e => simp only [hcp] at h; cases h
  | ok s0 =>
    have hs0 : s0 = c_str src := by
      unfold strcpy at hcp
      split at hcp
      · cases hcp; rfl
      · cases hcp
    simp only [hcp] at h
    cases hl : pse_randomize_location R n ptr_out var (strlen s0) g with
    | error e => simp only [hl] at h; cases h
    | ok r1 =>
      obtain ⟨ap, loc, g1⟩ := r1
      simp only [hl] at h
      cases hch : pse_randomize_char R n ptr_out var ap (strlen s0) g1 with
      | error e => simp only [hch] at h; cases h
      | ok r2 =>
        obtain ⟨ap1, c, g3⟩ := r2
        simp only [hch] at h
        cases h
        refine ⟨src, loc, c, rfl, by rw [hs0], ?_, ?_⟩
        · have := pse_randomize_location_lt R ptr_out var (strlen s0) g n _ hl
          rw [hs0, strlen_c_str] at this
          exact this
        · exact pse_randomize_char_accepts R ptr_out var ap (strlen s0) g1 n _ hch

/-! ## Claims on the randomization of strings -/

/-- C28 (as amended): the retries of `pse_randomize` on string content have no
cap and no failure result: whatever `pse_randomize` returns within some number
of draws it returns with any larger number, so the result depends on no limit;
and on a Scalar String variable that holds the empty string it returns within
no number of draws, whatever the draws are. -/
theorem C28_string_retries_have_no_cap {G : Type} (R : ranlib G) (ptr_out var : pse_variable)
    (location : Nat) (g : G) :
    (∀ (n m : Nat) (r : pse_variable × G),
      pse_randomize R n ptr_out var location g = .ok r → n ≤ m →
      pse_randomize R m ptr_out var location g = .ok r) ∧
    (∀ s t : c_string, var.array = PSE_SCALAR → var.storage = PSE_VAR_STRING →
      var.content = pse_content.cstring s → ptr_out.content = pse_content.cstring t →
      strlen s = 0 →
      ∀ n : Nat, pse_randomize R n ptr_out var location g = .error pse_fault.no_fuel) :=
  ⟨fun n m r h hle => pse_randomize_mono R ptr_out var location g n m r h hle,
   fun s t ha hs hc ho hlen n =>
     pse_randomize_empty_scalar R ptr_out var location g n s t ha hs hc ho hlen⟩

/-- A fault of `pse_randomize` is a fault of `pse_observe` on a Stochastic
variable without dependency whose `read_and_alter` flag is not `PSE_TRUE`. -/
theorem pse_observe_randomize_fault {G : Type} (R : ranlib G) (fuel : Nat)
    (pse : pse_agent_stub) (g : G) (varid : Int) (v : pse_variable) (location : Nat)
    (ptr_out : pse_variable) (e : pse_fault) (hst : pse.state = STARTED)
    (hget : pse.variables_.get varid = .ok (pse_ptr.live v))
    (hmod : v.model = PSE_VAR_STOCHASTIC) (hdep : v.has_dependencies = PSE_FALSE)
    (hraa : v.read_and_alter ≠ PSE_TRUE)
    (hr : pse_randomize R fuel ptr_out v location g = .error e) :
    pse_observe R fuel pse g varid location ptr_out = .error e := by
  unfold pse_observe
  simp [hst, hget, hmod, hdep, hraa, hr]

/-- C28 (counterexample): on a store a client can reach, whose Stochastic
Scalar String variable holds the empty string, `pse_observe` into a record made
by `pse_template` does not return, however many draws it is given. -/
theorem C28_empty_string_never_returns :
    Reachable ranlib_demo
      (pse_holding STARTED (var_demo PSE_VAR_STRING PSE_VAR_STOCHASTIC PSE_AGENT PSE_DIST_NONE
        PSE_SCALAR PSE_FALSE)) 132 ∧
    (var_demo PSE_VAR_STRING PSE_VAR_STOCHASTIC PSE_AGENT PSE_DIST_NONE PSE_SCALAR
      PSE_FALSE).content = pse_content.cstring [] ∧
    ∀ fuel : Nat,
      pse_observe ranlib_demo fuel
        (pse_holding STARTED (var_demo PSE_VAR_STRING PSE_VAR_STOCHASTIC PSE_AGENT PSE_DIST_NONE
          PSE_SCALAR PSE_FALSE)) 132 0 0
        (pse_template uninit_demo (var_demo PSE_VAR_STRING PSE_VAR_STOCHASTIC PSE_AGENT
          PSE_DIST_NONE PSE_SCALAR PSE_FALSE)) = .error pse_fault.no_fuel := by
  refine ⟨reachable_holding_started _ _ _ _ _ _, rfl, ?_⟩
  intro fuel
  have hr := pse_randomize_empty_scalar ranlib_demo
    (pse_template uninit_demo (var_demo PSE_VAR_STRING PSE_VAR_STOCHASTIC PSE_AGENT
      PSE_DIST_NONE PSE_SCALAR PSE_FALSE))
    (var_demo PSE_VAR_STRING PSE_VAR_STOCHASTIC PSE_AGENT PSE_DIST_NONE PSE_SCALAR PSE_FALSE)
    0 132 fuel [] [] rfl rfl rfl rfl rfl
  exact pse_observe_randomize_fault ranlib_demo fuel _ 132 0 _ 0 _ _ rfl (holding_get _ _) rfl
    rfl (by decide) hr

/-- C29 (failing input): whenever `pse_randomize` on a Scalar String variable
returns, the output string is the stored string with one byte replaced, at a
position below its length; the byte is one that fails the loop test
`c > (char) 255`. Where `char` is signed that test compares with -1: the byte
written has the high bit set and is never printable. Where `char` is unsigned
every byte passes the test. So for the stored string "hi" and a point
distribution that draws 200, the output string is "h" followed by the byte
200. -/
theorem C29_accepted_byte_not_printable :
    (∀ {G : Type} (R : ranlib G) (fuel : Nat) (ptr_out var : pse_variable) (location : Nat)
        (g : G) (out : pse_variable) (g2 : G),
      var.array = PSE_SCALAR → var.storage = PSE_VAR_STRING →
      pse_randomize R fuel ptr_out var location g = .ok (out, g2) →
      ∃ src loc c, var.content = pse_content.cstring src ∧
        out.content = pse_content.cstring ((c_str src).set loc c) ∧
        loc < strlen src ∧
        (R.char_signed = true → 128 ≤ c % 256 ∧ is_printable c = false)) ∧
    (∀ c : Nat, char_above_max false c = false) ∧
    (var_text.content = pse_content.cstring [104, 105] ∧
      ∃ out, pse_randomize ranlib_demo 1 (pse_template uninit_demo var_text) var_text 0 132 =
          .ok (out, 133) ∧
        out.content = pse_content.cstring [104, 200] ∧ is_printable 200 = false) := by
  refine ⟨?_, char_above_max_unsigned, rfl, _, rfl, rfl, rfl⟩
  intro G R fuel ptr_out var location g out g2 ha hs h
  obtain ⟨src, loc, c, h1, h2, h3, h4⟩ :=
    pse_randomize_scalar_string R ptr_out var location g fuel out g2 ha hs h
  refine ⟨src, loc, c, h1, h2, h3, ?_⟩
  intro hsg
  rw [hsg] at h4
  exact char_above_max_signed c h4

/-! ## Claims on the Bernoulli draw -/

/-- C37: with the kind Bernoulli `pse_sample_int_distribution` takes one uniform
draw `u` between 0 and 1 and returns `PSE_HEADS`, which is 1, exactly when
`u > p` holds for the parameter `p` in slot 0, and `PSE_TAILS`, which is 0,
otherwise; the result does not depend on the current value. -/
theorem C37_bernoulli_heads_above_p {G : Type} (R : ranlib G) (value : Int)
    (pars : pse_params) (g : G) :
    ((pse_sample_int_distribution R value pars PSE_DIST_BERNOULLI g).1 = 0 ∨
      (pse_sample_int_distribution R value pars PSE_DIST_BERNOULLI g).1 = 1) ∧
    ((pse_sample_int_distribution R value pars PSE_DIST_BERNOULLI g).1 = 1 ↔
      R.gt (R.genunf (R.of_int 0) (R.of_int 1) g).1 pars.p0 = true) ∧
    (pse_sample_int_distribution R value pars PSE_DIST_BERNOULLI g).2 =
      (R.genunf (R.of_int 0) (R.of_int 1) g).2 ∧
    PSE_HEADS = 1 ∧ PSE_TAILS = 0 := by
  simp only [pse_sample_int_distribution, PSE_HEADS, PSE_TAILS]
  cases h : R.gt (R.genunf (R.of_int 0) (R.of_int 1) g).1 pars.p0 <;> simp

/-! ## Claims on the error log -/

/-- C31: `pse_error_log` leaves in a buffer that has room for it the text
"[PSE Runtime] ", the message, ". Argument: ", the context, "." and a newline,
where the context is the string passed or "none" for a NULL pointer. The
message depends on the code only: the fifteen failure codes have fifteen
different messages, none of them "Operation successful", which is the message
for Ok and for every value that is not a failure code, so for every id that
`pse_register` returns. -/
theorem C31_error_log_format :
    (∀ (error : Int) (cap : Nat) (ctx : c_string),
      (c_lit "[PSE Runtime] " ++ c_lit (pse_error_message error) ++ c_lit ". Argument: " ++
        c_str ctx ++ c_lit ".\n").length < cap →
      pse_error_log error cap (some ctx) =
        .ok (c_lit "[PSE Runtime] " ++ c_lit (pse_error_message error) ++
          c_lit ". Argument: " ++ c_str ctx ++ c_lit ".\n")) ∧
    (∀ (error : Int) (cap : Nat),
      (c_lit "[PSE Runtime] " ++ c_lit (pse_error_message error) ++ c_lit ". Argument: " ++
        c_lit "none" ++ c_lit ".\n").length < cap →
      pse_error_log error cap none =
        .ok (c_lit "[PSE Runtime] " ++ c_lit (pse_error_message error) ++
          c_lit ". Argument: " ++ c_lit "none" ++ c_lit ".\n")) ∧
    (pse_failure_codes.map (fun e => pse_error_message e.toInt)).Nodup ∧
    pse_failure_codes.length = 15 ∧
    (∀ e ∈ pse_failure_codes, pse_error_message e.toInt ≠ "Operation successful") ∧
    pse_error_message PSE_ERROR_OK.toInt = "Operation successful" ∧
    (∀ error : Int, (∀ e ∈ pse_failure_codes, error ≠ e.toInt) →
      pse_error_message error = "Operation successful") ∧
    (∀ id : Int, 0 ≤ id → pse_error_message id = "Operation successful") ∧
    pse_error_log PSE_ERROR_VARIABLE_UNKNOWN.toInt 200 (some name_distance) =
      .ok (c_lit "[PSE Runtime] The PSE contains no such variable. Argument: distance.\n") := by
  have hdef : ∀ error : Int, (∀ e ∈ pse_failure_codes, error ≠ e.toInt) →
      pse_error_message error = "Operation successful" := by
    intro error h
    have h1 := h _ (by decide : PSE_ERROR_ALREADY_INITIALIZED ∈ pse_failure_codes)
    have h2 := h _ (by decide : PSE_ERROR_ALREADY_FINALIZED ∈ pse_failure_codes)
    have h3 := h _ (by decide : PSE_ERROR_ALREADY_STARTED ∈ pse_failure_codes)
    have h4 := h _ (by decide : PSE_ERROR_NOT_INITIALIZED ∈ pse_failure_codes)
    have h5 := h _ (by decide : PSE_ERROR_NOT_STARTED ∈ pse_failure_codes)
    have h6 := h _ (by decide : PSE_ERROR_TOO_MANY_VARIABLES ∈ pse_failure_codes)
    have h7 := h _ (by decide : PSE_ERROR_VARIABLE_ALREADY_REGISTERED ∈ pse_failure_codes)
    have h8 := h _ (by decide : PSE_ERROR_VARIABLE_UNKNOWN ∈ pse_failure_codes)
    have h9 := h _ (by decide : PSE_ERROR_DEPENDENCY_ALREADY_EXISTS ∈ pse_failure_codes)
    have h10 := h _ (by decide : PSE_ERROR_DEPENDENCY_UNKNOWN ∈ pse_failure_codes)
    have h11 := h _ (by decide : PSE_ERROR_DEPENDENCY_NOT_WORLD ∈ pse_failure_codes)
    have h12 := h _ (by decide : PSE_ERROR_TYPE_UNKNOWN ∈ pse_failure_codes)
    have h13 := h _ (by decide : PSE_ERROR_TYPE_MISMATCH ∈ pse_failure_codes)
    have h14 := h _ (by decide : PSE_ERROR_ARRAY_OUTOFBOUNDS ∈ pse_failure_codes)
    have h15 := h _ (by decide : PSE_ERROR_VARIABLE_IS_IMMUTABLE ∈ pse_failure_codes)
    unfold pse_error_message
    rw [if_neg h1, if_neg h2, if_neg h3, if_neg h4, if_neg h5, if_neg h6, if_neg h7, if_neg h8,
      if_neg h9, if_neg h10, if_neg h11, if_neg h12, if_neg h13, if_neg h14, if_neg h15]
    exact ite_self _
  have hall : ∀ m ∈ "Operation successful" ::
      pse_failure_codes.map (fun e => pse_error_message e.toInt),
      c_str (c_lit m) = c_lit m := by decide
  have hmsg : ∀ error : Int, c_str (c_lit (pse_error_message error)) =
      c_lit (pse_error_message error) := by
    intro error
    apply hall
    by_cases h : ∀ e ∈ pse_failure_codes, error ≠ e.toInt
    · rw [hdef error h]
      exact List.mem_cons_self _ _
    · push_neg at h
      obtain ⟨e, he, heq⟩ := h
      rw [heq]
      exact List.mem_cons_of_mem _ (List.mem_map_of_mem _ he)
  have hnone : c_str (c_lit "none") = c_lit "none" := by decide
  refine ⟨?_, ?_, by decide, rfl, by decide, rfl, hdef, ?_, rfl⟩
  · intro error cap ctx hfit
    unfold pse_error_log PSE_ERROR_FMT
    simp only [hmsg]
    rw [if_pos hfit]
  · intro error cap hfit
    unfold pse_error_log PSE_ERROR_FMT
    simp only [hmsg, hnone]
    rw [if_pos hfit]
  · intro id hid
    apply hdef
    intro e he
    have : e.toInt < 0 := by
      revert e
      decide
    omega

/-! ## Claims on the dictionary -/

/-- The loop of `pse_dict_search` at an entry whose name differs from the one
looked for returns within no number of iterations. -/
theorem pse_dict_search_loop_stuck (e : pse_entry) (rest : List pse_entry)
    (variable_ : c_string) (h : strcmp e.varname variable_ ≠ 0) :
    ∀ fuel : Nat, pse_dict_search_loop fuel (e :: rest) variable_ =
      .error pse_fault.no_fuel := by
  intro fuel
  induction fuel with
  | zero => rfl
  | succ n ih =>
    simp only [pse_dict_search_loop, h, if_false]
    exact ih

/-- C32 (failing input): `pse_dict_search` returns -1 on an empty dictionary and
the id of the first entry when the name of the first entry is the one looked
for; for any other name on a dictionary that is not empty it returns within no
number of iterations, and so does `pse_dict_add`, which calls it first. So
after `pse_dict_init` and `pse_dict_add ("a", 0)`, which returns 1, the search
for "b" does not return where the claim asks for -1, and `pse_dict_add ("b", 1)`
does not return where the claim asks for 1. -/
theorem C32_dict_search_stays_at_head :
    (∀ (fuel : Nat) (variable_ : c_string),
      pse_dict_search fuel { length := 0, head := [] } variable_ = .ok (-1)) ∧
    (∀ (fuel : Nat) (dict : pse_dictionary) (e : pse_entry) (rest : List pse_entry)
        (variable_ : c_string),
      dict.head = e :: rest → strcmp e.varname variable_ = 0 →
      pse_dict_search (fuel + 1) dict variable_ = .ok e.assigned) ∧
    (∀ (fuel : Nat) (u : pse_uninit) (dict : pse_dictionary) (e : pse_entry)
        (rest : List pse_entry) (variable_ : c_string) (pseval : Int),
      dict.head = e :: rest → strcmp e.varname variable_ ≠ 0 →
      pse_dict_search fuel dict variable_ = .error pse_fault.no_fuel ∧
      pse_dict_add fuel u dict variable_ pseval = .error pse_fault.no_fuel) ∧
    (pse_dict_init { length := 0, head := [] } = ({ length := 0, head := [] }, 1) ∧
      (∀ fuel : Nat, pse_dict_add fuel uninit_demo { length := 0, head := [] } name_a 0 =
        .ok ({ length := 0, head := [{ varname := name_a, assigned := 0 }] }, 1)) ∧
      (∀ fuel : Nat,
        pse_dict_search fuel { length := 0, head := [{ varname := name_a, assigned := 0 }] }
          name_b = .error pse_fault.no_fuel) ∧
      (∀ fuel : Nat,
        pse_dict_add fuel uninit_demo
          { length := 0, head := [{ varname := name_a, assigned := 0 }] } name_b 1 =
          .error pse_fault.no_fuel)) := by
  have hstuck : ∀ (fuel : Nat) (u : pse_uninit) (dict : pse_dictionary) (e : pse_entry)
      (rest : List pse_entry) (variable_ : c_string) (pseval : Int),
      dict.head = e :: rest → strcmp e.varname variable_ ≠ 0 →
      pse_dict_search fuel dict variable_ = .error pse_fault.no_fuel ∧
      pse_dict_add fuel u dict variable_ pseval = .error pse_fault.no_fuel := by
    intro fuel u dict e rest variable_ pseval hh hne
    have hs : pse_dict_search fuel dict variable_ = .error pse_fault.no_fuel := by
      unfold pse_dict_search
      rw [hh]
      exact pse_dict_search_loop_stuck e rest variable_ hne fuel
    refine ⟨hs, ?_⟩
    unfold pse_dict_add
    simp only [hs]
  refine ⟨?_, ?_, hstuck, rfl, ?_, ?_, ?_⟩
  · intro fuel variable_
    cases fuel <;> rfl
  · intro fuel dict e rest variable_ hh heq
    unfold pse_dict_search
    rw [hh]
    simp only [pse_dict_search_loop, heq, if_true]
  · intro fuel
    have hs : pse_dict_search fuel { length := 0, head := [] } name_a = .ok (-1) := by
      cases fuel <;> rfl
    unfold pse_dict_add
    simp only [hs]
    rfl
  · intro fuel
    exact (hstuck fuel uninit_demo _ _ _ name_b 1 rfl (by decide)).1
  · intro fuel
    exact (hstuck fuel uninit_demo _ _ _ name_b 1 rfl (by decide)).2

/-! ## The live count and the occupied slots -/

theorem slot_rewrite_refl (pse : pse_agent_stub) : slot_rewrite pse pse :=
  ⟨rfl, rfl, rfl, Or.inl rfl⟩

theorem pse_add_dependencies_rewrite (pse : pse_agent_stub) (varid : Int)
    (conditionals : List Int) (count : Nat) (s1 : pse_agent_stub) (e : pse_error)
    (h : pse_add_dependencies pse varid conditionals count = .ok (s1, e)) :
    slot_rewrite pse s1 ∧ e ≠ PSE_ERROR_VARIABLE_IS_IMMUTABLE := by
  unfold pse_add_dependencies at h
  repeat' split at h
  all_goals first
    | (cases h; done)
    | (cases h
       exact ⟨slot_rewrite_refl _, by decide⟩)
    | (cases h
       exact ⟨⟨rfl, rfl, rfl, Or.inr ⟨_, _, _, by assumption, rfl⟩⟩, by decide⟩)

theorem pse_rm_dependencies_rewrite (pse : pse_agent_stub) (varid : Int)
    (s1 : pse_agent_stub) (e : pse_error)
    (h : pse_rm_dependencies pse varid = .ok (s1, e)) :
    slot_rewrite pse s1 ∧ e ≠ PSE_ERROR_VARIABLE_IS_IMMUTABLE := by
  unfold pse_rm_dependencies at h
  repeat' split at h
  all_goals first
    | (cases h; done)
    | (cases h
       exact ⟨slot_rewrite_refl _, by decide⟩)
    | (cases h
       exact ⟨⟨rfl, rfl, rfl, Or.inr ⟨_, _, _, by assumption, rfl⟩⟩, by decide⟩)

theorem pse_supply_prior_rewrite (pse : pse_agent_stub) (varid : Int) (priors : Option Nat)
    (s1 : pse_agent_stub) (e : pse_error)
    (h : pse_supply_prior pse varid priors = .ok (s1, e)) :
    slot_rewrite pse s1 ∧ e ≠ PSE_ERROR_VARIABLE_IS_IMMUTABLE := by
  unfold pse_supply_prior at h
  repeat' split at h
  all_goals first
    | (cases h; done)
    | (cases h
       exact ⟨slot_rewrite_refl _, by decide⟩)

theorem pse_prepare_rewrite {G : Type} (R : ranlib G) (fuel : Nat) (pse : pse_agent_stub) (g : G)
    (varid : Int) (content : pse_content) (location : Nat) (storage : pse_storage_type)
    (s1 : pse_agent_stub) (g1 : G) (e : pse_error)
    (h : pse_prepare R fuel pse g varid content location storage = .ok (s1, g1, e)) :
    slot_rewrite pse s1 ∧ e ≠ PSE_ERROR_VARIABLE_IS_IMMUTABLE := by
  unfold pse_prepare at h
  repeat' split at h
  all_goals first
    | (cases h; done)
    | (cases h
       exact ⟨slot_rewrite_refl _, by decide⟩)
    | (cases h
       exact ⟨⟨rfl, rfl, rfl, Or.inr ⟨_, _, _, by assumption, rfl⟩⟩, by decide⟩)

theorem pse_observe_rewrite {G : Type} (R : ranlib G) (fuel : Nat) (pse : pse_agent_stub) (g : G)
    (varid : Int) (location : Nat) (ptr_out : pse_variable)
    (s1 : pse_agent_stub) (g1 : G) (out : pse_output) (e : pse_error)
    (h : pse_observe R fuel pse g varid location ptr_out = .ok (s1, g1, out, e)) :
    slot_rewrite pse s1 ∧ e ≠ PSE_ERROR_VARIABLE_IS_IMMUTABLE := by
  unfold pse_observe at h
  repeat' split at h
  all_goals first
    | (cases h; done)
    | (cases h
       exact ⟨slot_rewrite_refl _, by decide⟩)
    | (cases h
       exact ⟨⟨rfl, rfl, rfl, Or.inr ⟨_, _, _, by assumption, rfl⟩⟩, by decide⟩)

/-- What `pse_deregister` does to the variable slots and the live count. -/
theorem pse_deregister_count (pse : pse_agent_stub) (varid : Int)
    (s1 : pse_agent_stub) (e : pse_error)
    (h : pse_deregister pse varid = .ok (s1, e)) :
    (s1 = pse ∨
      ∃ v, pse.variables_.get varid = .ok (pse_ptr.live v) ∧ pse.var_count ≠ 0 ∧
        s1.state = pse.state ∧ s1.var_limit = pse.var_limit ∧
        s1.var_count = pse.var_count - 1 ∧
        s1.variables_ = pse.variables_.put varid pse_ptr.NULL) ∧
      e ≠ PSE_ERROR_VARIABLE_IS_IMMUTABLE := by
  unfold pse_deregister at h
  repeat' split at h
  all_goals first
    | (cases h; done)
    | (cases h
       exact ⟨Or.inl rfl, by decide⟩)
    | (cases h
       exact ⟨Or.inr ⟨_, by assumption, by assumption, rfl, rfl, rfl, rfl⟩, by decide⟩)

theorem occupied_clear {α : Type} (t : pse_table α) : t.clear.occupied = 0 := by
  unfold pse_table.occupied
  rw [clear_cells]
  simp [List.countP_eq_zero, pse_ptr.is_null]

/-- Writing one slot changes the number of occupied slots by what the slot held
and what it holds. -/
theorem occupied_put {α : Type} (t : pse_table α) (i : Int) (q p : pse_ptr α)
    (h : t.get i = .ok q) :
    (t.put i p).occupied + (if q.is_null then 0 else 1) =
      t.occupied + (if p.is_null then 0 else 1) := by
  obtain ⟨_, hlt, hcell⟩ := get_ok t i q h
  have hlen : i.toNat < t.cells.length := by rw [t.size_eq]; exact hlt
  have hq : t.cells[i.toNat] = q := by
    rw [List.getElem?_eq_getElem hlen] at hcell
    exact Option.some.inj hcell
  have hle := List.boole_getElem_le_countP (fun p : pse_ptr α => !p.is_null) t.cells i.toNat hlen
  unfold pse_table.occupied pse_table.put
  simp only
  rw [List.countP_set _ _ _ _ hlen]
  rw [hq] at hle ⊢
  cases hqn : q.is_null <;> cases hpn : p.is_null <;>
    simp only [hqn, hpn, Bool.not_true, Bool.not_false, if_true, if_false,
      Bool.false_eq_true] at hle ⊢ <;> omega

theorem slot_rewrite_occupied (pse s1 : pse_agent_stub) (h : slot_rewrite pse s1) :
    s1.variables_.occupied = pse.variables_.occupied := by
  rcases h.2.2.2 with h1 | ⟨varid, v, w, hget, h1⟩
  · rw [h1]
  · rw [h1]
    have := occupied_put pse.variables_ varid (pse_ptr.live v) (pse_ptr.live w) hget
    simpa [pse_ptr.is_null] using this

theorem slot_rewrite_counted (pse s1 : pse_agent_stub) (h : slot_rewrite pse s1)
    (hc : pse_counted pse) : pse_counted s1 := by
  intro hst
  rw [h.1] at hst
  rw [h.2.1, slot_rewrite_occupied pse s1 h]
  exact hc hst

/-- Every call keeps the live count equal to the number of occupied slots, and
none reports VariableIsImmutable. -/
theorem pse_counted_step {G : Type} (R : ranlib G) (fuel : Nat) (pse : pse_agent_stub) (g : G)
    (c : pse_call) (s1 : pse_agent_stub) (g1 : G) (r : pse_reply)
    (h : pse_step R fuel pse g c = .ok (s1, g1, r)) (hinv : pse_inv pse)
    (hc : pse_counted pse) :
    pse_counted s1 ∧ r.code ≠ PSE_ERROR_VARIABLE_IS_IMMUTABLE.toInt := by
  cases c with
  | init =>
    simp only [pse_step] at h
    cases h
    rcases pse_init_shape pse with ⟨_, h2, h3⟩ | ⟨_, h2, h3⟩
    · refine ⟨?_, by rw [h2]; decide⟩
      intro _
      rw [h3]
      exact (occupied_clear _).symm
    · refine ⟨by rw [h2]; exact hc, ?_⟩
      intro hcode
      have hcode1 : (pse_init pse).2.toInt = PSE_ERROR_VARIABLE_IS_IMMUTABLE.toInt := hcode
      rw [hcode1] at h3
      simp [is_lifecycle_error, pse_error.toInt] at h3
  | start seed_1 seed_2 =>
    simp only [pse_step] at h
    cases h
    rcases pse_start_shape R pse g seed_1 seed_2 with ⟨h1, h2, h3⟩ | ⟨_, h2, _, h4⟩
    · refine ⟨?_, by rw [h2]; decide⟩
      intro _
      rw [h3]
      exact hc (Or.inl h1)
    · refine ⟨by rw [h2]; exact hc, ?_⟩
      intro hcode
      have hcode1 : (pse_start R pse g seed_1 seed_2).2.2.toInt =
          PSE_ERROR_VARIABLE_IS_IMMUTABLE.toInt := hcode
      rw [hcode1] at h4
      simp [is_lifecycle_error, pse_error.toInt] at h4
  | finalize =>
    simp only [pse_step] at h
    split at h
    · rename_i r0 hf
      cases h
      rcases pse_finalize_shape pse r0.1 r0.2 hf with ⟨_, h2, h3⟩ | ⟨_, h2, h3⟩ | ⟨_, h2, h3, _⟩
      · exact ⟨by rw [h2]; exact hc, by rw [h3]; decide⟩
      · exact ⟨by rw [h2]; exact hc, by rw [h3]; decide⟩
      · refine ⟨?_, by rw [h2]; decide⟩
        intro hst
        rw [h3] at hst
        rcases hst with hst | hst <;> cases hst
    · cases h
  | register u storage model locality point_distribution point_parameters array size
      read_and_alter array_distribution array_parameters name =>
    simp only [pse_step] at h
    split at h
    · rename_i r0 hf
      cases h
      rcases pse_register_shape pse u storage model locality point_distribution
        point_parameters array size read_and_alter array_distribution array_parameters name
        r0.1 r0.2 hf with ⟨_, h2, h3⟩ | ⟨_, h2, h3⟩ |
        ⟨hst, h3, hlim, hnull, hst1, _, hcnt, _, v, hvars⟩
      · refine ⟨by rw [h2]; exact hc, ?_⟩
        show r0.2 ≠ _
        rw [h3]
        cases pse.state <;> decide
      · refine ⟨by rw [h2]; exact hc, ?_⟩
        show r0.2 ≠ _
        rcases h3 with h3 | h3 <;> rw [h3] <;> decide
      · refine ⟨?_, ?_⟩
        · intro _
          have hocc := occupied_put pse.variables_ pse.var_limit pse_ptr.NULL (pse_ptr.live v)
            hnull
          simp only [pse_ptr.is_null] at hocc
          have hle := (hinv (Or.inl hst)).1
          have hce := hc (Or.inl hst)
          rw [hcnt, hvars]
          have hmod : (pse.var_count + 1) % UINT_MOD = pse.var_count + 1 := by
            apply Nat.mod_eq_of_lt
            unfold PSE_MAX_VARIABLES at hlim
            unfold UINT_MOD
            omega
          rw [hmod]
          simp at hocc
          omega
        · show r0.2 ≠ _
          rw [h3]
          simp only [pse_error.toInt]
          omega
    · cases h
  | deregister varid =>
    simp only [pse_step] at h
    split at h
    · rename_i r0 hf
      cases h
      obtain ⟨hd, hne⟩ := pse_deregister_count pse varid r0.1 r0.2 hf
      refine ⟨?_, ?_⟩
      · rcases hd with h2 | ⟨v, hget, hcnt0, hst1, _, hcnt, hvars⟩
        · rw [h2]; exact hc
        · intro hst
          rw [hst1] at hst
          have hce := hc hst
          have hocc := occupied_put pse.variables_ varid (pse_ptr.live v) pse_ptr.NULL hget
          simp [pse_ptr.is_null] at hocc
          rw [hcnt, hvars]
          omega
      · show r0.2.toInt ≠ _
        cases hr : r0.2 <;> first | decide | exact absurd hr hne
    · cases h
  | add_dependencies varid conditionals count =>
    simp only [pse_step] at h
    split at h
    · rename_i r0 hf
      cases h
      obtain ⟨hd, hne⟩ := pse_add_dependencies_rewrite pse varid conditionals count r0.1 r0.2 hf
      refine ⟨slot_rewrite_counted pse r0.1 hd hc, ?_⟩
      show r0.2.toInt ≠ _
      cases hr : r0.2 <;> first | decide | exact absurd hr hne
    · cases h
  | rm_dependencies varid =>
    simp only [pse_step] at h
    split at h
    · rename_i r0 hf
      cases h
      obtain ⟨hd, hne⟩ := pse_rm_dependencies_rewrite pse varid r0.1 r0.2 hf
      refine ⟨slot_rewrite_counted pse r0.1 hd hc, ?_⟩
      show r0.2.toInt ≠ _
      cases hr : r0.2 <;> first | decide | exact absurd hr hne
    · cases h
  | supply_prior varid priors =>
    simp only [pse_step] at h
    split at h
    · rename_i r0 hf
      cases h
      obtain ⟨hd, hne⟩ := pse_supply_prior_rewrite pse varid priors r0.1 r0.2 hf
      refine ⟨slot_rewrite_counted pse r0.1 hd hc, ?_⟩
      show r0.2.toInt ≠ _
      cases hr : r0.2 <;> first | decide | exact absurd hr hne
    · cases h
  | prepare varid content location storage =>
    simp only [pse_step] at h
    split at h
    · rename_i r0 hf
      cases h
      obtain ⟨hd, hne⟩ := pse_prepare_rewrite R fuel pse g varid content location storage
        r0.1 r0.2.1 r0.2.2 hf
      refine ⟨slot_rewrite_counted pse r0.1 hd hc, ?_⟩
      show r0.2.2.toInt ≠ _
      cases hr : r0.2.2 <;> first | decide | exact absurd hr hne
    · cases h
  | observe varid location ptr_out =>
    simp only [pse_step] at h
    split at h
    · rename_i r0 hf
      cases h
      obtain ⟨hd, hne⟩ := pse_observe_rewrite R fuel pse g varid location ptr_out
        r0.1 r0.2.1 r0.2.2.1 r0.2.2.2 hf
      refine ⟨slot_rewrite_counted pse r0.1 hd hc, ?_⟩
      show r0.2.2.2.toInt ≠ _
      cases hr : r0.2.2.2 <;> first | decide | exact absurd hr hne
    · cases h

theorem reachable_counted {G : Type} (R : ranlib G) (pse : pse_agent_stub) (g : G)
    (h : Reachable R pse g) : pse_counted pse := by
  induction h with
  | init pse g h =>
    intro _
    rw [pse_init_created pse h]
    have h0 := occupied_clear (pse_table.null pse_variable)
    rw [null_clear] at h0
    exact h0.symm
  | step fuel pse g c pse1 g1 r hr hs ih =>
    exact (pse_counted_step R fuel pse g c pse1 g1 r hs (reachable_inv R pse g hr) ih).1

/-- C33: in every store a client can reach from `init` through the calls of the
interface that is Initialized or Started, the live count is the number of
occupied variable slots and is at most the allocation counter, every slot at or
above the allocation counter is NULL, a `pse_register` that returns leaves the
allocation counter as it was or one higher, and a `pse_deregister` that returns
leaves it as it was. -/
theorem C33_reachable_counts {G : Type} (R : ranlib G) (pse : pse_agent_stub) (g : G)
    (h : Reachable R pse g) (hst : pse.state = INITIALIZED ∨ pse.state = STARTED) :
    pse.var_count = pse.variables_.occupied ∧
    pse.var_count ≤ pse.var_limit ∧
    (∀ i : Nat, pse.var_limit ≤ i → i < PSE_MAX_VARIABLES →
      pse.variables_.cells[i]? = some pse_ptr.NULL) ∧
    (∀ (u : pse_uninit) (storage : pse_storage_type) (model : pse_model_type)
        (locality : pse_locality_type) (point_distribution : pse_distribution_type)
        (point_parameters : pse_params) (array : pse_array_type) (size : Nat)
        (read_and_alter : Nat) (array_distribution : pse_distribution_type)
        (array_parameters : pse_params) (name : c_string) (s1 : pse_agent_stub) (code : Int),
      pse_register pse u storage model locality point_distribution point_parameters array size
        read_and_alter array_distribution array_parameters name = .ok (s1, code) →
      s1.var_limit = pse.var_limit ∨ s1.var_limit = pse.var_limit + 1) ∧
    (∀ (varid : Int) (s1 : pse_agent_stub) (e : pse_error),
      pse_deregister pse varid = .ok (s1, e) → s1.var_limit = pse.var_limit) := by
  have hinv := reachable_inv R pse g h hst
  refine ⟨reachable_counted R pse g h hst, hinv.1, hinv.2.2, ?_, ?_⟩
  · intro u storage model locality point_distribution point_parameters array size
      read_and_alter array_distribution array_parameters name s1 code hr
    rcases pse_register_shape pse u storage model locality point_distribution
      point_parameters array size read_and_alter array_distribution array_parameters name
      s1 code hr with ⟨_, h2, _⟩ | ⟨_, h2, _⟩ | ⟨_, _, _, _, _, h3, _⟩
    · exact Or.inl (by rw [h2])
    · exact Or.inl (by rw [h2])
    · exact Or.inr h3
  · intro varid s1 e hd
    rcases (pse_deregister_count pse varid s1 e hd).1 with h2 | ⟨_, _, _, _, h3, _⟩
    · rw [h2]
    · exact h3

theorem C33_reachable_counts_witness :
    (pse_holding INITIALIZED (var_demo PSE_VAR_INT PSE_VAR_STOCHASTIC PSE_AGENT
        PSE_DIST_POISSON PSE_ARRAY PSE_TRUE)).var_count = 1 ∧
    (pse_holding INITIALIZED (var_demo PSE_VAR_INT PSE_VAR_STOCHASTIC PSE_AGENT
        PSE_DIST_POISSON PSE_ARRAY PSE_TRUE)).variables_.occupied = 1 :=
  ⟨rfl, (C33_reachable_counts ranlib_demo
    (pse_holding INITIALIZED (var_demo PSE_VAR_INT PSE_VAR_STOCHASTIC PSE_AGENT
      PSE_DIST_POISSON PSE_ARRAY PSE_TRUE)) 0
    (reachable_holding _ _ _ _ _ _) (Or.inl rfl)).1.symm⟩

/-! ## Claims on the code VariableIsImmutable -/

theorem toInt_ne_immutable (e : pse_error) (h : e ≠ PSE_ERROR_VARIABLE_IS_IMMUTABLE) :
    e.toInt ≠ PSE_ERROR_VARIABLE_IS_IMMUTABLE.toInt := by
  cases e <;> first | decide | exact absurd rfl h

/-- No call of the interface hands back the code VariableIsImmutable. -/
theorem pse_step_never_immutable {G : Type} (R : ranlib G) (fuel : Nat) (pse : pse_agent_stub)
    (g : G) (c : pse_call) (s1 : pse_agent_stub) (g1 : G) (r : pse_reply)
    (h : pse_step R fuel pse g c = .ok (s1, g1, r)) :
    r.code ≠ PSE_ERROR_VARIABLE_IS_IMMUTABLE.toInt := by
  cases c with
  | init =>
    simp only [pse_step] at h
    cases h
    show (pse_init pse).2.toInt ≠ _
    apply toInt_ne_immutable
    unfold pse_init
    split_ifs <;> simp
  | start seed_1 seed_2 =>
    simp only [pse_step] at h
    cases h
    show (pse_start R pse g seed_1 seed_2).2.2.toInt ≠ _
    apply toInt_ne_immutable
    unfold pse_start
    split_ifs <;> simp
  | finalize =>
    simp only [pse_step] at h
    split at h
    · rename_i r0 hf
      cases h
      show r0.2.toInt ≠ _
      rcases pse_finalize_shape pse r0.1 r0.2 hf with ⟨_, _, h3⟩ | ⟨_, _, h3⟩ | ⟨_, h3, _⟩ <;>
        rw [h3] <;> decide
    · cases h
  | register u storage model locality point_distribution point_parameters array size
      read_and_alter array_distribution array_parameters name =>
    simp only [pse_step] at h
    split at h
    · rename_i r0 hf
      cases h
      show r0.2 ≠ _
      rcases pse_register_shape pse u storage model locality point_distribution
        point_parameters array size read_and_alter array_distribution array_parameters name
        r0.1 r0.2 hf with ⟨_, _, h3⟩ | ⟨_, _, h3⟩ | ⟨_, h3, _⟩
      · rw [h3]
        cases pse.state <;> decide
      · rcases h3 with h3 | h3 <;> rw [h3] <;> decide
      · rw [h3]
        simp only [pse_error.toInt]
        omega
    · cases h
  | deregister varid =>
    simp only [pse_step] at h
    split at h
    · rename_i r0 hf
      cases h
      exact toInt_ne_immutable _ (pse_deregister_count pse varid r0.1 r0.2 hf).2
    · cases h
  | add_dependencies varid conditionals count =>
    simp only [pse_step] at h
    split at h
    · rename_i r0 hf
      cases h
      exact toInt_ne_immutable _
        (pse_add_dependencies_rewrite pse varid conditionals count r0.1 r0.2 hf).2
    · cases h
  | rm_dependencies varid =>
    simp only [pse_step] at h
    split at h
    · rename_i r0 hf
      cases h
      exact toInt_ne_immutable _ (pse_rm_dependencies_rewrite pse varid r0.1 r0.2 hf).2
    · cases h
  | supply_prior varid priors =>
    simp only [pse_step] at h
    split at h
    · rename_i r0 hf
      cases h
      exact toInt_ne_immutable _ (pse_supply_prior_rewrite pse varid priors r0.1 r0.2 hf).2
    · cases h
  | prepare varid content location storage =>
    simp only [pse_step] at h
    split at h
    · rename_i r0 hf
      cases h
      exact toInt_ne_immutable _
        (pse_prepare_rewrite R fuel pse g varid content location storage r0.1 r0.2.1 r0.2.2 hf).2
    · cases h
  | observe varid location ptr_out =>
    simp only [pse_step] at h
    split at h
    · rename_i r0 hf
      cases h
      exact toInt_ne_immutable _
        (pse_observe_rewrite R fuel pse g varid location ptr_out r0.1 r0.2.1 r0.2.2.1
          r0.2.2.2 hf).2
    · cases h

/-- C34: no call of the interface hands back the code VariableIsImmutable. On a
Started store, for a live Stochastic Array variable without dependency whose
`read_and_alter` flag is `PSE_FALSE` and an index below its size, `pse_prepare`
reports Ok, leaves the value passed at the index as it was passed and leaves
the generator as it was: `pse_randomize_and_alter` writes the code to `*error`
and returns, and `pse_prepare` overwrites it with Ok. So does the call with 3.14
at index 2 of a variable of size 5 on a store a client can reach. -/
theorem C34_immutable_never_reported :
    (∀ {G : Type} (R : ranlib G) (fuel : Nat) (pse : pse_agent_stub) (g : G) (c : pse_call)
        (s1 : pse_agent_stub) (g1 : G) (r : pse_reply),
      pse_step R fuel pse g c = .ok (s1, g1, r) →
      r.code ≠ PSE_ERROR_VARIABLE_IS_IMMUTABLE.toInt) ∧
    (∀ {G : Type} (R : ranlib G) (fuel : Nat) (pse : pse_agent_stub) (g : G) (varid : Int)
        (v : pse_variable) (location : Nat),
      pse.state = STARTED → pse.variables_.get varid = .ok (pse_ptr.live v) →
      v.model = PSE_VAR_STOCHASTIC → v.array = PSE_ARRAY → location < v.size →
      v.has_dependencies = PSE_FALSE → v.read_and_alter = PSE_FALSE →
      (v.storage = PSE_VAR_INT → ∀ (xs : List Int) (x : Int),
        v.content = pse_content.cint_a xs → xs.length = v.size →
        ∃ s1 v1,
          pse_prepare R fuel pse g varid (pse_content.cint x) location PSE_VAR_INT =
            .ok (s1, g, PSE_ERROR_OK) ∧
          s1.variables_.get varid = .ok (pse_ptr.live v1) ∧
          v1.content = pse_content.cint_a (xs.set location x) ∧
          (xs.set location x)[location]? = some x) ∧
      (v.storage = PSE_VAR_DOUBLE ∨ v.storage = PSE_VAR_TIME →
        ∀ (xs : List pse_double) (x : pse_double),
        v.content = pse_content.cdouble_a xs → xs.length = v.size →
        ∃ s1 v1,
          pse_prepare R fuel pse g varid (pse_content.cdouble x) location v.storage =
            .ok (s1, g, PSE_ERROR_OK) ∧
          s1.variables_.get varid = .ok (pse_ptr.live v1) ∧
          v1.content = pse_content.cdouble_a (xs.set location x) ∧
          (xs.set location x)[location]? = some x)) ∧
    (Reachable ranlib_demo (pse_holding STARTED (var_five PSE_VAR_STOCHASTIC PSE_FALSE)) 132 ∧
      ∃ s1,
        pse_prepare ranlib_demo 0 (pse_holding STARTED (var_five PSE_VAR_STOCHASTIC PSE_FALSE))
            132 0 (pse_content.cdouble double_3_14) 2 PSE_VAR_DOUBLE =
          .ok (s1, 132, PSE_ERROR_OK) ∧
        s1.variables_.get 0 = .ok (pse_ptr.live
          { var_five PSE_VAR_STOCHASTIC PSE_FALSE with
            content := pse_content.cdouble_a [⟨0⟩, ⟨0⟩, double_3_14, ⟨0⟩, ⟨0⟩] })) := by
  refine ⟨fun R fuel pse g c s1 g1 r h => pse_step_never_immutable R fuel pse g c s1 g1 r h,
    ?_, ?_, ?_⟩
  · intro G R fuel pse g varid v location hst hget hmod harr hloc hdep hraa
    constructor
    · intro hsto xs x hcon hlen
      have hl : location < xs.length := by rw [hlen]; exact hloc
      have hc : pse_prepare_array v (pse_content.cint x) location =
          .ok (pse_content.cint_a (xs.set location x)) := by
        simp [pse_prepare_array, hsto, hcon, hl]
      have hp := pse_prepare_array_immutable R fuel pse g varid v (pse_content.cint x)
        (pse_content.cint_a (xs.set location x)) location hst hget harr hloc hdep hraa hc
      refine ⟨_, _, by rw [← hsto]; exact hp, get_put_same pse.variables_ varid _ _ hget, rfl,
        List.getElem?_set_self hl⟩
    · intro hsto xs x hcon hlen
      have hl : location < xs.length := by rw [hlen]; exact hloc
      have hc : pse_prepare_array v (pse_content.cdouble x) location =
          .ok (pse_content.cdouble_a (xs.set location x)) := by
        rcases hsto with hs | hs <;> simp [pse_prepare_array, hs, hcon, hl]
      have hp := pse_prepare_array_immutable R fuel pse g varid v (pse_content.cdouble x)
        (pse_content.cdouble_a (xs.set location x)) location hst hget harr hloc hdep hraa hc
      exact ⟨_, _, hp, get_put_same pse.variables_ varid _ _ hget, rfl,
        List.getElem?_set_self hl⟩
  · exact reachable_started ranlib_demo 0 uninit_demo PSE_VAR_DOUBLE PSE_VAR_STOCHASTIC
      PSE_AGENT PSE_DIST_NORMAL params_demo PSE_ARRAY 5 PSE_FALSE PSE_DIST_NONE params_demo
      [118] (by decide) 103 29
  · have hp := pse_prepare_array_immutable ranlib_demo 0
      (pse_holding STARTED (var_five PSE_VAR_STOCHASTIC PSE_FALSE)) 132 0
      (var_five PSE_VAR_STOCHASTIC PSE_FALSE) (pse_content.cdouble double_3_14)
      (pse_content.cdouble_a [⟨0⟩, ⟨0⟩, double_3_14, ⟨0⟩, ⟨0⟩]) 2 rfl (holding_get _ _) rfl
      (by decide) rfl rfl rfl
    exact ⟨_, hp, get_put_same _ _ _ _ (holding_get _ _)⟩

/-! ## What a destructive observe changes -/

/-- The record `pse_randomize` leaves differs from the record passed in its
content and its array parameters only, and for a storage kind other than String
in its content only. -/
theorem pse_randomize_fields {G : Type} (R : ranlib G) (fuel : Nat) (ptr_out var : pse_variable)
    (location : Nat) (g : G) (o : pse_variable) (g1 : G)
    (h : pse_randomize R fuel ptr_out var location g = .ok (o, g1)) :
    o.point_parameters = ptr_out.point_parameters ∧
    (var.storage ≠ PSE_VAR_STRING → o.array_parameters = ptr_out.array_parameters) := by
  cases ha : var.array <;> cases hs : var.storage <;>
    simp only [pse_randomize, ha, hs] at h
  case PSE_SCALAR.PSE_VAR_STRING =>
    refine ⟨?_, fun hne => absurd rfl hne⟩
    cases hc : var.content <;> cases ho : ptr_out.content <;> simp only [hc, ho] at h <;>
      try cases h
    rename_i src dst
    cases hcp : strcpy PSE_MAX_STRLEN src with
    | error e => simp only [hcp] at h; cases h
    | ok s0 =>
      simp only [hcp] at h
      cases hl : pse_randomize_location R fuel ptr_out var (strlen s0) g with
      | error e => simp only [hl] at h; cases h
      | ok r1 =>
        obtain ⟨ap, loc, g2⟩ := r1
        simp only [hl] at h
        cases hch : pse_randomize_char R fuel ptr_out var ap (strlen s0) g2 with
        | error e => simp only [hch] at h; cases h
        | ok r2 =>
          obtain ⟨ap1, c, g3⟩ := r2
          simp only [hch] at h
          cases h
          rfl
  case PSE_ARRAY.PSE_VAR_STRING =>
    refine ⟨?_, fun hne => absurd rfl hne⟩
    cases hc : var.content <;> cases ho : ptr_out.content <;> simp only [hc, ho] at h <;>
      try cases h
    rename_i xs ys
    cases hx : xs[location]? with
    | none => simp only [hx] at h; cases h
    | some src =>
      simp only [hx] at h
      split at h
      · cases hcp : strcpy PSE_MAX_STRLEN src with
        | error e => simp only [hcp] at h; cases h
        | ok s0 =>
          simp only [hcp] at h
          cases hl : pse_randomize_location R fuel ptr_out var (strlen s0) g with
          | error e => simp only [hl] at h; cases h
          | ok r1 =>
            obtain ⟨ap, loc, g2⟩ := r1
            simp only [hl] at h
            cases hch : pse_randomize_char_a R fuel ptr_out var ap (strlen s0) g2 with
            | error e => simp only [hch] at h; cases h
            | ok r2 =>
              obtain ⟨ap1, c, g3⟩ := r2
              simp only [hch] at h
              cases h
              rfl
      · cases h
  all_goals
    repeat' split at h
    all_goals first
      | (cases h; done)
      | (cases h
         exact ⟨rfl, fun _ => rfl⟩)

/-- Whenever `pse_observe` returns on a live Stochastic variable without
dependency whose `read_and_alter` flag is `PSE_TRUE`: it reports Ok, and the
stored variable is the one before the call with the content, the point
parameters and the array parameters of the record handed back. -/
theorem pse_observe_alter_fields {G : Type} (R : ranlib G) (fuel : Nat)
    (pse : pse_agent_stub) (g : G) (varid : Int) (v : pse_variable) (location : Nat)
    (ptr_out : pse_variable) (s1 : pse_agent_stub) (g1 : G) (out : pse_output) (e : pse_error)
    (hst : pse.state = STARTED)
    (hget : pse.variables_.get varid = .ok (pse_ptr.live v))
    (hmod : v.model = PSE_VAR_STOCHASTIC) (hdep : v.has_dependencies = PSE_FALSE)
    (hraa : v.read_and_alter = PSE_TRUE)
    (h : pse_observe R fuel pse g varid location ptr_out = .ok (s1, g1, out, e)) :
    ∃ o, pse_randomize R fuel ptr_out v location g = .ok (o, g1) ∧ out = pse_output.record o ∧
      e = PSE_ERROR_OK ∧
      s1.variables_.get varid = .ok (pse_ptr.live
        { v with content := o.content,
                 point_parameters := o.point_parameters,
                 array_parameters := o.array_parameters }) := by
  unfold pse_observe at h
  simp only [hst, hget, hmod, hdep, hraa, pse_randomize_and_alter, PSE_TRUE, PSE_FALSE,
    reduceCtorEq, if_false, if_true, one_ne_zero] at h
  cases hr : pse_randomize R fuel ptr_out v location g with
  | error err =>
    simp only [hr] at h
    cases h
  | ok r =>
    obtain ⟨o, g2⟩ := r
    simp only [hr] at h
    cases h
    refine ⟨o, rfl, rfl, rfl, ?_⟩
    simp only [hmod, hdep, hraa, PSE_TRUE, PSE_FALSE]
    exact get_put_same pse.variables_ varid _ _ hget

/-- C35 (as amended): whenever `pse_observe` returns on a Started store for a live
Stochastic variable without dependency whose `read_and_alter` flag is
`PSE_TRUE`, it reports Ok, and the stored variable keeps its storage, model,
locality, distributions, shape, size, flags and name, while its content, its
point parameters and its array parameters are those of the record handed back;
the point parameters of that record are the ones the caller passed in it, and
for a storage kind other than String so are its array parameters. -/
theorem C35_observe_takes_record_parameters {G : Type} (R : ranlib G) (fuel : Nat)
    (pse : pse_agent_stub) (g : G) (varid : Int) (v : pse_variable) (location : Nat)
    (ptr_out : pse_variable) (s1 : pse_agent_stub) (g1 : G) (out : pse_output) (e : pse_error)
    (hst : pse.state = STARTED)
    (hget : pse.variables_.get varid = .ok (pse_ptr.live v))
    (hmod : v.model = PSE_VAR_STOCHASTIC) (hdep : v.has_dependencies = PSE_FALSE)
    (hraa : v.read_and_alter = PSE_TRUE)
    (h : pse_observe R fuel pse g varid location ptr_out = .ok (s1, g1, out, e)) :
    e = PSE_ERROR_OK ∧
    ∃ v1 o, s1.variables_.get varid = .ok (pse_ptr.live v1) ∧ out = pse_output.record o ∧
      v1.storage = v.storage ∧ v1.model = v.model ∧ v1.locality = v.locality ∧
      v1.point_distribution = v.point_distribution ∧
      v1.array_distribution = v.array_distribution ∧
      v1.array = v.array ∧ v1.size = v.size ∧
      v1.has_dependencies = v.has_dependencies ∧ v1.read_and_alter = v.read_and_alter ∧
      v1.name = v.name ∧
      v1.content = o.content ∧
      v1.point_parameters = o.point_parameters ∧
      v1.array_parameters = o.array_parameters ∧
      o.point_parameters = ptr_out.point_parameters ∧
      (v.storage ≠ PSE_VAR_STRING → o.array_parameters = ptr_out.array_parameters) := by
  obtain ⟨o, hr, hout, he, hg⟩ := pse_observe_alter_fields R fuel pse g varid v location ptr_out
    s1 g1 out e hst hget hmod hdep hraa h
  obtain ⟨hp, ha⟩ := pse_randomize_fields R fuel ptr_out v location g o g1 hr
  exact ⟨he, _, o, hg, hout, rfl, rfl, rfl, rfl, rfl, rfl, rfl, rfl, rfl, rfl, rfl, rfl, rfl,
    hp, ha⟩

theorem C35_observe_takes_record_parameters_witness :
    ∃ v1 o : pse_variable,
      v1.point_distribution = PSE_DIST_NORMAL_SELF ∧
      v1.content = o.content ∧
      v1.point_parameters = o.point_parameters ∧
      o.point_parameters = point_params_distance := by
  have ho := pse_observe_scalar_double_alter ranlib_demo 0
    (pse_holding STARTED (var_demo PSE_VAR_DOUBLE PSE_VAR_STOCHASTIC PSE_AGENT
      PSE_DIST_NORMAL_SELF PSE_SCALAR PSE_TRUE)) 132 0
    (var_demo PSE_VAR_DOUBLE PSE_VAR_STOCHASTIC PSE_AGENT PSE_DIST_NORMAL_SELF PSE_SCALAR
      PSE_TRUE) ⟨0⟩ 0
    { pse_template uninit_demo (var_demo PSE_VAR_DOUBLE PSE_VAR_STOCHASTIC PSE_AGENT
        PSE_DIST_NORMAL_SELF PSE_SCALAR PSE_TRUE) with
      point_parameters := point_params_distance }
    rfl (holding_get _ _) rfl rfl (Or.inl rfl) rfl rfl rfl
  obtain ⟨_, v1, o, _, _, _, _, _, h5, _, _, _, _, _, _, h12, h13, _, h15, _⟩ :=
    C35_observe_takes_record_parameters ranlib_demo 0
      (pse_holding STARTED (var_demo PSE_VAR_DOUBLE PSE_VAR_STOCHASTIC PSE_AGENT
        PSE_DIST_NORMAL_SELF PSE_SCALAR PSE_TRUE)) 132 0
      (var_demo PSE_VAR_DOUBLE PSE_VAR_STOCHASTIC PSE_AGENT PSE_DIST_NORMAL_SELF PSE_SCALAR
        PSE_TRUE) 0
      { pse_template uninit_demo (var_demo PSE_VAR_DOUBLE PSE_VAR_STOCHASTIC PSE_AGENT
          PSE_DIST_NORMAL_SELF PSE_SCALAR PSE_TRUE) with
        point_parameters := point_params_distance }
      _ _ _ _ rfl (holding_get _ _) rfl rfl rfl ho
  exact ⟨v1, o, h5, h12, h13, h15⟩

/-- C35 (counterexample): on a store a client can reach, whose Stochastic Scalar
Double variable has `read_and_alter` set and all point parameters zero,
`pse_observe` into a record whose point parameters are 50.0, 2.3, 0, 0, 0
reports Ok and leaves the stored variable with the point parameters of the
record. -/
theorem C35_observe_overwrites_parameters :
    Reachable ranlib_demo
      (pse_holding STARTED (var_demo PSE_VAR_DOUBLE PSE_VAR_STOCHASTIC PSE_AGENT
        PSE_DIST_NORMAL_SELF PSE_SCALAR PSE_TRUE)) 132 ∧
    (var_demo PSE_VAR_DOUBLE PSE_VAR_STOCHASTIC PSE_AGENT PSE_DIST_NORMAL_SELF PSE_SCALAR
      PSE_TRUE).point_parameters = params_demo ∧
    ∃ s1 g1 out v1,
      pse_observe ranlib_demo 0
        (pse_holding STARTED (var_demo PSE_VAR_DOUBLE PSE_VAR_STOCHASTIC PSE_AGENT
          PSE_DIST_NORMAL_SELF PSE_SCALAR PSE_TRUE)) 132 0 0
        { pse_template uninit_demo (var_demo PSE_VAR_DOUBLE PSE_VAR_STOCHASTIC PSE_AGENT
            PSE_DIST_NORMAL_SELF PSE_SCALAR PSE_TRUE) with
          point_parameters := point_params_distance } =
        .ok (s1, g1, out, PSE_ERROR_OK) ∧
      s1.variables_.get 0 = .ok (pse_ptr.live v1) ∧
      v1.point_parameters = point_params_distance ∧
      v1.point_parameters ≠ params_demo := by
  refine ⟨reachable_holding_started _ _ _ _ _ _, rfl, ?_⟩
  have ho := pse_observe_scalar_double_alter ranlib_demo 0
    (pse_holding STARTED (var_demo PSE_VAR_DOUBLE PSE_VAR_STOCHASTIC PSE_AGENT
      PSE_DIST_NORMAL_SELF PSE_SCALAR PSE_TRUE)) 132 0
    (var_demo PSE_VAR_DOUBLE PSE_VAR_STOCHASTIC PSE_AGENT PSE_DIST_NORMAL_SELF PSE_SCALAR
      PSE_TRUE) ⟨0⟩ 0
    { pse_template uninit_demo (var_demo PSE_VAR_DOUBLE PSE_VAR_STOCHASTIC PSE_AGENT
        PSE_DIST_NORMAL_SELF PSE_SCALAR PSE_TRUE) with
      point_parameters := point_params_distance }
    rfl (holding_get _ _) rfl rfl (Or.inl rfl) rfl rfl rfl
  exact ⟨_, _, _, _, ho, get_put_same _ _ _ _ (holding_get _ _), rfl, by decide⟩

/-! ## Claims on the position altered in a Scalar String -/

/-- With the array distribution None the first loop of the string branches of
`pse_randomize` returns at its first iteration, for a string of length 1 to
`PSE_MAX_STRLEN`: the position is half the length and the generator is the one
passed in. -/
theorem pse_randomize_location_none {G : Type} (R : ranlib G) (fuel : Nat)
    (ptr_out var : pse_variable) (n : Nat) (g : G)
    (hnone : var.array_distribution = PSE_DIST_NONE) (h1 : 1 ≤ n) (hn : n < PSE_MAX_STRLEN) :
    pse_randomize_location R (fuel + 1) ptr_out var n g =
      .ok ({ ptr_out.array_parameters with p0 := R.of_int (n / 2 : Nat) }, n / 2, g) := by
  have hu : uint_of_int ((n / 2 : Nat) : Int) = n / 2 := by
    unfold uint_of_int UINT_MOD
    unfold PSE_MAX_STRLEN at hn
    omega
  have hlt : ¬ (n / 2 ≥ n) := by omega
  unfold pse_randomize_location
  simp only [hnone, pse_is_int_distribution, pse_is_self_distribution, PSE_TRUE, PSE_FALSE,
    redraw, pse_sample_int_distribution, hu, hlt, decide_False]
  rfl

/-- The variable a `pse_register` call for a Scalar leaves under the id it
returns has the array distribution None. -/
theorem pse_register_scalar_none (pse : pse_agent_stub) (u : pse_uninit)
    (storage : pse_storage_type) (model : pse_model_type) (locality : pse_locality_type)
    (point_distribution : pse_distribution_type) (point_parameters : pse_params)
    (size : Nat) (read_and_alter : Nat)
    (array_distribution : pse_distribution_type) (array_parameters : pse_params)
    (name : c_string) (s1 : pse_agent_stub) (code : Int)
    (h : pse_register pse u storage model locality point_distribution point_parameters
      PSE_SCALAR size read_and_alter array_distribution array_parameters name = .ok (s1, code))
    (hcode : 0 ≤ code) :
    ∃ v, s1.variables_.get code = .ok (pse_ptr.live v) ∧ v.array = PSE_SCALAR ∧
      v.array_distribution = PSE_DIST_NONE ∧ v.storage = storage := by
  unfold pse_register at h
  repeat' split at h
  all_goals first
    | (cases h; done)
    | (cases h
       simp [pse_error.toInt] at hcode
       done)
    | (cases h
       exact ⟨_, get_put_same _ _ _ _ (by assumption), rfl, rfl, rfl⟩)
    | exact absurd (by assumption : PSE_SCALAR = PSE_ARRAY) (by decide)

/-- On a Scalar String variable whose array distribution is None and whose
string has a length from 1 to below `PSE_MAX_STRLEN`, `pse_randomize` goes
straight to the loop that redraws the byte, with the position half the length
and the generator as it was passed. -/
theorem pse_randomize_scalar_none {G : Type} (R : ranlib G) (fuel : Nat)
    (ptr_out var : pse_variable) (location : Nat) (g : G) (src dst : c_string)
    (ha : var.array = PSE_SCALAR) (hs : var.storage = PSE_VAR_STRING)
    (hnone : var.array_distribution = PSE_DIST_NONE)
    (hc : var.content = pse_content.cstring src) (ho : ptr_out.content = pse_content.cstring dst)
    (h1 : 1 ≤ strlen src) (hn : strlen src < PSE_MAX_STRLEN) :
    pse_randomize R (fuel + 1) ptr_out var location g =
      match pse_randomize_char R (fuel + 1) ptr_out var
          { ptr_out.array_parameters with p0 := R.of_int (strlen src / 2 : Nat) }
          (strlen src) g with
      | .error e => .error e
      | .ok (ap1, c, g2) =>
        .ok ({ ptr_out with
                content := pse_content.cstring ((c_str src).set (strlen src / 2) c),
                array_parameters := ap1 }, g2) := by
  have hcp : strcpy PSE_MAX_STRLEN src = .ok (c_str src) := by
    unfold strcpy
    simp [hn]
  have hlen : strlen (c_str src) = strlen src := strlen_c_str src
  simp only [pse_randomize, ha, hs, hc, ho, hcp, hlen,
    pse_randomize_location_none R fuel ptr_out var (strlen src) g hnone h1 hn]

/-- C36: the variable `pse_register` leaves for a Scalar has the array
distribution None, whatever array distribution was passed. For a Scalar String
variable with the array distribution None whose string has a length `n` from 1
to below `PSE_MAX_STRLEN`, the position loop of `pse_randomize` returns at its
first iteration with the position `n / 2` and the generator untouched, and
`pse_randomize` is the redraw of the byte at position `n / 2`: whatever it
returns is the stored string with the byte at `n / 2` replaced. So "hi" becomes
"h" followed by the byte drawn. -/
theorem C36_scalar_string_position :
    (∀ (pse : pse_agent_stub) (u : pse_uninit) (storage : pse_storage_type)
        (model : pse_model_type) (locality : pse_locality_type)
        (point_distribution : pse_distribution_type) (point_parameters : pse_params)
        (size : Nat) (read_and_alter : Nat) (array_distribution : pse_distribution_type)
        (array_parameters : pse_params) (name : c_string) (s1 : pse_agent_stub) (code : Int),
      pse_register pse u storage model locality point_distribution point_parameters
        PSE_SCALAR size read_and_alter array_distribution array_parameters name =
        .ok (s1, code) → 0 ≤ code →
      ∃ v, s1.variables_.get code = .ok (pse_ptr.live v) ∧ v.array = PSE_SCALAR ∧
        v.array_distribution = PSE_DIST_NONE ∧ v.storage = storage) ∧
    (∀ {G : Type} (R : ranlib G) (fuel : Nat) (ptr_out var : pse_variable) (location : Nat)
        (g : G) (src dst : c_string),
      var.array = PSE_SCALAR → var.storage = PSE_VAR_STRING →
      var.array_distribution = PSE_DIST_NONE →
      var.content = pse_content.cstring src → ptr_out.content = pse_content.cstring dst →
      1 ≤ strlen src → strlen src < PSE_MAX_STRLEN →
      pse_randomize_location R (fuel + 1) ptr_out var (strlen src) g =
        .ok ({ ptr_out.array_parameters with p0 := R.of_int (strlen src / 2 : Nat) },
             strlen src / 2, g) ∧
      pse_randomize R (fuel + 1) ptr_out var location g =
        (match pse_randomize_char R (fuel + 1) ptr_out var
            { ptr_out.array_parameters with p0 := R.of_int (strlen src / 2 : Nat) }
            (strlen src) g with
        | .error e => .error e
        | .ok (ap1, c, g2) =>
          .ok ({ ptr_out with
                  content := pse_content.cstring ((c_str src).set (strlen src / 2) c),
                  array_parameters := ap1 }, g2)) ∧
      ∀ (out : pse_variable) (g2 : G),
        pse_randomize R (fuel + 1) ptr_out var location g = .ok (out, g2) →
        ∃ c, out.content = pse_content.cstring ((c_str src).set (strlen src / 2) c)) ∧
    (var_text.array_distribution = PSE_DIST_NONE ∧
      var_text.content = pse_content.cstring [104, 105] ∧
      ∃ out, pse_randomize ranlib_demo 1 (pse_template uninit_demo var_text) var_text 0 132 =
          .ok (out, 133) ∧
        out.content = pse_content.cstring [104, 200]) := by
  refine ⟨?_, ?_, rfl, rfl, _, rfl, rfl⟩
  · intro pse u storage model locality point_distribution point_parameters size read_and_alter
      array_distribution array_parameters name s1 code h hcode
    exact pse_register_scalar_none pse u storage model locality point_distribution
      point_parameters size read_and_alter array_distribution array_parameters name s1 code
      h hcode
  · intro G R fuel ptr_out var location g src dst ha hs hnone hc ho h1 hn
    have heq := pse_randomize_scalar_none R fuel ptr_out var location g src dst ha hs hnone hc
      ho h1 hn
    refine ⟨pse_randomize_location_none R fuel ptr_out var (strlen src) g hnone h1 hn, heq, ?_⟩
    intro out g2 hr
    rw [heq] at hr
    cases hch : pse_randomize_char R (fuel + 1) ptr_out var
        { ptr_out.array_parameters with p0 := R.of_int (strlen src / 2 : Nat) }
        (strlen src) g with
    | error e => simp only [hch] at hr; cases hr
    | ok r2 =>
      obtain ⟨ap1, c, g3⟩ := r2
      simp only [hch] at hr
      cases hr
      exact ⟨c, rfl⟩

end PSE
